import Mathlib

/-!
# Sistema de figuras geométricas

A shallow embedding of `sistema-figuras.js` and theorems about it.

JavaScript numbers are IEEE-754 binary64 values.  They are modelled by `JSNumber`:
a finite value is a sign together with a non-negative rational magnitude, and every
arithmetic operation computes the exact rational result and rounds it to the nearest
representable value (ties to even), overflowing to an infinity.
-/

namespace SistemaFiguras

/-! ## Numbers -/

/-- The JS Number type: `NaN`, the two infinities, and the finite values (sign and
magnitude, so that `-0` is `fin true 0`). -/
inductive JSNumber where
  | nan
  | inf (negativo : Bool)
  | fin (negativo : Bool) (mag : ℚ)
  deriving DecidableEq

namespace JSNumber

/-- Round a non-negative rational to an integer, ties to the even neighbour. -/
def mitadPar (x : ℚ) : ℕ :=
  let f := ⌊x⌋₊
  let d := x - f
  if d < 1 / 2 then f
  else if 1 / 2 < d then f + 1
  else if f % 2 = 0 then f else f + 1

/-- Spacing of the binary64 values around the non-zero magnitude `mag`: 53 significant
bits, with the exponent bounded below by that of the subnormal range. -/
def ulp (mag : ℚ) : ℚ :=
  (2 : ℚ) ^ (max (Int.log 2 mag) (-1022) - 52)

/-- Round the exact result `(-1)^negativo * mag` (with `0 ≤ mag`) to binary64,
round-to-nearest, ties-to-even. -/
def redondear (negativo : Bool) (mag : ℚ) : JSNumber :=
  if mag = 0 then fin negativo 0
  else
    let r := (mitadPar (mag / ulp mag) : ℚ) * ulp mag
    if (2 : ℚ) ^ (1024 : ℕ) ≤ r then inf negativo else fin negativo r

/-- The signed rational value of a finite number. -/
def valor (negativo : Bool) (mag : ℚ) : ℚ :=
  if negativo then -mag else mag

/-- Round a signed exact result; an exact zero takes the sign `ceroNeg`. -/
def deRacional (q : ℚ) (ceroNeg : Bool) : JSNumber :=
  if q = 0 then fin ceroNeg 0
  else redondear (decide (q < 0)) |q|

/-- The Number denoted by an integer literal of the source text.  Every such literal
(`0`, `1`, `2`, `3`, `4`, `5`, `6`, `180`, `360`) is far below `2^53`, hence exact. -/
def ofNat (n : ℕ) : JSNumber := fin false n

/-- JS `a + b`. -/
def add : JSNumber → JSNumber → JSNumber
  | nan, _ => nan
  | _, nan => nan
  | inf s, inf t => if s = t then inf s else nan
  | inf s, fin _ _ => inf s
  | fin _ _, inf t => inf t
  | fin s a, fin t b => deRacional (valor s a + valor t b) (s && t)

/-- JS unary minus. -/
def neg : JSNumber → JSNumber
  | nan => nan
  | inf s => inf (!s)
  | fin s a => fin (!s) a

/-- JS `a - b`. -/
def sub (a b : JSNumber) : JSNumber := add a (neg b)

/-- JS `a * b`. -/
def mul : JSNumber → JSNumber → JSNumber
  | nan, _ => nan
  | _, nan => nan
  | inf s, inf t => inf (xor s t)
  | inf s, fin t b => if b = 0 then nan else inf (xor s t)
  | fin s a, inf t => if a = 0 then nan else inf (xor s t)
  | fin s a, fin t b => redondear (xor s t) (a * b)

/-- JS `a / b`. -/
def div : JSNumber → JSNumber → JSNumber
  | nan, _ => nan
  | _, nan => nan
  | inf _, inf _ => nan
  | inf s, fin t _ => inf (xor s t)
  | fin s _, inf t => fin (xor s t) 0
  | fin s a, fin t b =>
    if b = 0 then (if a = 0 then nan else inf (xor s t))
    else redondear (xor s t) (a / b)

/-- JS `a < b`: false whenever an operand is `NaN`; the two zeros are equal. -/
def lt : JSNumber → JSNumber → Bool
  | nan, _ => false
  | _, nan => false
  | inf s, inf t => s && !t
  | inf s, fin _ _ => s
  | fin _ _, inf t => !t
  | fin s a, fin t b => decide (valor s a < valor t b)

/-- JS `a > b`. -/
def gt (a b : JSNumber) : Bool := lt b a

/-- JS `a === b` on numbers (also `a == b`): `NaN` equals nothing, `-0` equals `+0`. -/
def eq : JSNumber → JSNumber → Bool
  | nan, _ => false
  | _, nan => false
  | inf s, inf t => s == t
  | inf _, fin _ _ => false
  | fin _ _, inf _ => false
  | fin s a, fin t b => decide (valor s a = valor t b)

instance : Add JSNumber := ⟨add⟩
instance : Sub JSNumber := ⟨sub⟩
instance : Mul JSNumber := ⟨mul⟩
instance : Div JSNumber := ⟨div⟩
instance : OfNat JSNumber n := ⟨ofNat n⟩

/-- `Math.PI`, the binary64 value `0x400921FB54442D18`. -/
def PI : JSNumber := fin false (884279719003555 / 281474976710656)

end JSNumber

open JSNumber

/-! ## Values, errors and the host environment -/

/-- The dimension fields an instance carries, by class; `base` is a direct instance of
the abstract class `FiguraGeometrica`, which has none. -/
inductive Forma where
  | base
  | circulo (radio : JSNumber)
  | rectangulo (ancho altura largo : JSNumber)
  | triangulo (base altura : JSNumber)
  | pentagono (lado : JSNumber)
  | hexagono (lado : JSNumber)
  deriving DecidableEq

/-- An instance of `FiguraGeometrica` or of one of its subclasses: the public field
`nombre`, the private field `#id`, and the fields set by the subclass constructor. -/
structure FiguraGeometrica where
  nombre : String
  id : String
  forma : Forma
  deriving DecidableEq

/-- The kinds of value that neither the program nor `JSON.parse` builds. -/
inductive ClaseAjena where
  | simbolo
  | enteroGrande
  | funcion
  | objeto
  deriving DecidableEq

/-- The JS values the program is applied to.  An `objeto` is a plain record of data
properties; `ajeno` stands for any other value, told apart by a number: a Symbol, a
BigInt, a function, or an object outside the class `FiguraGeometrica` that has methods
or accessors of its own. -/
inductive JSValue where
  | undefined
  | null
  | boolean (b : Bool)
  | number (n : JSNumber)
  | string (s : String)
  | arreglo (elementos : List JSValue)
  | objeto (campos : List (String × JSValue))
  | figura (f : FiguraGeometrica)
  | ajeno (clase : ClaseAjena) (id : ℕ)

/-- Thrown exceptions, by constructor, with their message; `ajeno` is an exception of
any other class, named, that the engine or code outside this file throws. -/
inductive JSError where
  | TypeError (mensaje : String)
  | Error (mensaje : String)
  | SyntaxError (mensaje : String)
  | ajeno (clase mensaje : String)
  deriving DecidableEq

/-- What the conversion of a value to text throws when it fails: a `TypeError` (of the
engine, for a Symbol or for an object whose `toString` and `valueOf` give no primitive),
or an exception of another class thrown by a `toString` defined outside this file. -/
inductive FalloDeTexto where
  | tipo (mensaje : String)
  | otro (clase mensaje : String)
  deriving DecidableEq

/-- The exception a failed conversion to text throws. -/
def FalloDeTexto.error : FalloDeTexto → JSError
  | .tipo mensaje => .TypeError mensaje
  | .otro clase mensaje => .ajeno clase mensaje

/-- How a run that cannot go on ends: with a thrown exception, or with the process
aborted by the engine for lack of memory. -/
inductive Interrupcion where
  | excepcion (e : JSError)
  | aborto
  deriving DecidableEq

/-- The parts of the JS runtime the program calls and whose results the language
standard leaves to the implementation or that lie outside this file. -/
structure Anfitrion where
  /-- The function `Math.tan`. -/
  tan : JSNumber → JSNumber
  /-- The function `Math.sqrt`. -/
  sqrt : JSNumber → JSNumber
  /-- The function `Math.pow`. -/
  pow : JSNumber → JSNumber → JSNumber
  /-- The method `Number.prototype.toFixed`. -/
  toFixed : JSNumber → ℕ → String
  /-- Conversion of a value to text inside a template literal, when it succeeds. -/
  textoDe : JSValue → String
  /-- Whether the conversion of a value to text inside a template literal throws, and
  what. -/
  falloDeTexto : JSValue → Option FalloDeTexto
  /-- The length, in UTF-16 code units, up to which the concatenations of this run
  succeed: at most `2^53 - 1` by the standard, at most the limit of the engine
  (`2^29 - 24` in V8), and less when memory is short. -/
  longitudMaxima : ℕ
  /-- What the engine does when a concatenation asks for a longer text: it throws (V8 at
  its limit: a `RangeError`) or, out of memory, it aborts. -/
  textoExcedido : Interrupcion
  /-- The text `Math.random().toString(36).substr(2, 9)` at the `n`-th draw. -/
  idAzar : ℕ → String
  /-- The function `JSON.parse`. -/
  parse : String → Except JSError JSValue

/-- The mutable global state: the static field `Hexagono.instancia` and the number of
draws taken from `Math.random` so far. -/
structure Estado where
  instancia : Option FiguraGeometrica
  azar : ℕ

/-- State at program start. -/
def Estado.inicial : Estado := ⟨none, 0⟩

/-- The `i`-th actual argument of a call, `undefined` when it is not supplied. -/
def param (args : List JSValue) (i : ℕ) : JSValue := args.getD i .undefined

/-- Property read `v.k` on data: it throws on `undefined` and `null`, and gives
`undefined` for a property that is absent.  (The message is the one V8 prints;
function-valued properties are not represented.)  The program reads properties only of
what `JSON.parse` returns, which is never an `ajeno` value. -/
def propiedad (v : JSValue) (k : String) : Except JSError JSValue :=
  match v with
  | .undefined =>
    .error (.TypeError ("Cannot read properties of undefined (reading \x27" ++ k ++ "\x27)"))
  | .null =>
    .error (.TypeError ("Cannot read properties of null (reading \x27" ++ k ++ "\x27)"))
  | .objeto campos => .ok ((campos.lookup k).getD .undefined)
  | .figura f =>
    if k = "nombre" then .ok (.string f.nombre)
    else if k = "id" then .ok (.string f.id)
    else match f.forma with
      | .base => .ok .undefined
      | .circulo radio => .ok (if k = "radio" then .number radio else .undefined)
      | .rectangulo ancho altura largo =>
        .ok (if k = "ancho" then .number ancho else if k = "altura" then .number altura
          else if k = "largo" then .number largo else .undefined)
      | .triangulo base altura =>
        .ok (if k = "base" then .number base else if k = "altura" then .number altura
          else .undefined)
      | .pentagono lado => .ok (if k = "lado" then .number lado else .undefined)
      | .hexagono lado => .ok (if k = "lado" then .number lado else .undefined)
  | _ => .ok .undefined

/-! ## class Validacion -/

namespace Validacion

/-- What `throw new TypeError(...)` with the template literal of `value` followed by
`sufijo` throws: the conversion of `value` to text comes first and may itself throw;
otherwise the `TypeError` with that message is thrown. -/
def rechazo (H : Anfitrion) (value : JSValue) (sufijo : String) : JSError :=
  match H.falloDeTexto value with
  | some fallo => fallo.error
  | none => .TypeError (H.textoDe value ++ sufijo)

/-- Source: `static isString(value)`. -/
def isString (H : Anfitrion) (value : JSValue) : Except JSError String :=
  match value with
  | .string s => .ok s
  | v => .error (rechazo H v ", no es un string")

/-- Source: `static isNumber(value)`. -/
def isNumber (H : Anfitrion) (value : JSValue) : Except JSError JSNumber :=
  match value with
  | .number n => .ok n
  | v => .error (rechazo H v ", no es un number")

end Validacion

/-! ## class FiguraGeometrica and its subclasses -/

/-- Source: `FiguraGeometrica.constructor(nombre)`: validates the name, then draws
the identifier. -/
def FiguraGeometrica.constructor (H : Anfitrion) (nombre : JSValue) (σ : Estado) :
    Except JSError FiguraGeometrica × Estado :=
  match Validacion.isString H nombre with
  | .error e => (.error e, σ)
  | .ok n =>
    (.ok { nombre := n, id := H.idAzar σ.azar, forma := .base }, { σ with azar := σ.azar + 1 })

namespace Circulo

/-- Source: `Circulo.constructor(radio)`. -/
def constructor (H : Anfitrion) (args : List JSValue) (σ : Estado) :
    Except JSError FiguraGeometrica × Estado :=
  match FiguraGeometrica.constructor H (.string "Círculo") σ with
  | (.error e, σ₁) => (.error e, σ₁)
  | (.ok this, σ₁) =>
    match Validacion.isNumber H (param args 0) with
    | .error e => (.error e, σ₁)
    | .ok radio => (.ok { this with forma := .circulo radio }, σ₁)

/-- Source: `Circulo.calcularArea()`. -/
def calcularArea (radio : JSNumber) : JSNumber := PI * radio * radio

/-- Source: `Circulo.calcularPerimetro()`. -/
def calcularPerimetro (radio : JSNumber) : JSNumber := 2 * PI * radio

/-- Source: `Circulo.calcularDiametro()`. -/
def calcularDiametro (radio : JSNumber) : JSNumber := radio * 2

/-- Source: `Circulo.calcularVolumen()`. -/
def calcularVolumen (H : Anfitrion) (radio : JSNumber) : JSNumber :=
  (4 / 3) * PI * H.pow radio 3

end Circulo

namespace Rectangulo

/-- Source: `Rectangulo.constructor(ancho, alto, largo = 0)`: the default applies when
the third argument is absent or `undefined`. -/
def constructor (H : Anfitrion) (args : List JSValue) (σ : Estado) :
    Except JSError FiguraGeometrica × Estado :=
  let largo := match param args 2 with
    | .undefined => .number 0
    | v => v
  match FiguraGeometrica.constructor H (.string "Rectángulo") σ with
  | (.error e, σ₁) => (.error e, σ₁)
  | (.ok this, σ₁) =>
    match Validacion.isNumber H (param args 0) with
    | .error e => (.error e, σ₁)
    | .ok ancho =>
      match Validacion.isNumber H (param args 1) with
      | .error e => (.error e, σ₁)
      | .ok altura =>
        match Validacion.isNumber H largo with
        | .error e => (.error e, σ₁)
        | .ok largo => (.ok { this with forma := .rectangulo ancho altura largo }, σ₁)

/-- Source: `Rectangulo.calcularArea()`. -/
def calcularArea (ancho altura : JSNumber) : JSNumber := ancho * altura

/-- Source: `Rectangulo.calcularPerimetro()`. -/
def calcularPerimetro (ancho altura : JSNumber) : JSNumber := 2 * (ancho + altura)

/-- Source: `Rectangulo.esCuadrado()`. -/
def esCuadrado (ancho altura : JSNumber) : Bool := JSNumber.eq ancho altura

/-- Source: `Rectangulo.calcularVolumen()`. -/
def calcularVolumen (ancho altura largo : JSNumber) : JSNumber := largo * ancho * altura

/-- The concatenation `a + b` of two texts of this method, which hold only the marker,
the blank and the line break, one code unit each: the run is interrupted when the result
would be longer than the engine builds. -/
def concatenar (H : Anfitrion) (a b : String) : Except Interrupcion String :=
  if (a ++ b).length ≤ H.longitudMaxima then .ok (a ++ b)
  else .error H.textoExcedido

/-- The inner loop of `dibujarFiguraASCII`, `for (let x = ...; x < this.ancho; x++)`,
entered with the current `x` and `fila`; `none` when the fuel runs out. -/
def filaDesde (H : Anfitrion) (ancho altura y : JSNumber) :
    ℕ → JSNumber → String → Option (Except Interrupcion String)
  | 0, _, _ => none
  | fuel + 1, x, fila =>
    if JSNumber.lt x ancho then
      if JSNumber.eq y 0 || JSNumber.eq y (altura - 1) || JSNumber.eq x 0
          || JSNumber.eq x (ancho - 1) then
        match concatenar H fila "# " with
        | .error e => some (.error e)
        | .ok fila₁ => filaDesde H ancho altura y fuel (x + 1) fila₁
      else
        match concatenar H fila "# " with
        | .error e => some (.error e)
        | .ok fila₁ => filaDesde H ancho altura y fuel (x + 1) fila₁
    else some (.ok fila)

/-- The outer loop of `dibujarFiguraASCII`, `for (let y = ...; y < this.altura; y++)`,
entered with the current `y` and `resultado`; `none` when the fuel runs out. -/
def filasDesde (H : Anfitrion) (ancho altura : JSNumber) :
    ℕ → JSNumber → String → Option (Except Interrupcion String)
  | 0, _, _ => none
  | fuel + 1, y, resultado =>
    if JSNumber.lt y altura then
      match filaDesde H ancho altura y (fuel + 1) 0 "" with
      | none => none
      | some (.error e) => some (.error e)
      | some (.ok fila) =>
        match concatenar H fila "\n" with
        | .error e => some (.error e)
        | .ok linea =>
          match concatenar H resultado linea with
          | .error e => some (.error e)
          | .ok resultado₁ => filasDesde H ancho altura fuel (y + 1) resultado₁
    else some (.ok resultado)

/-- Source: `Rectangulo.dibujarFiguraASCII()`, with a bound `fuel` on the number of
iterations of each loop: the text returned, or the interruption of the run by a text
that grew too long. -/
def dibujarFiguraASCII (H : Anfitrion) (fuel : ℕ) (ancho altura : JSNumber) :
    Option (Except Interrupcion String) :=
  filasDesde H ancho altura fuel 0 ""

end Rectangulo

namespace Triangulo

/-- Source: `Triangulo.constructor(base, altura)`. -/
def constructor (H : Anfitrion) (args : List JSValue) (σ : Estado) :
    Except JSError FiguraGeometrica × Estado :=
  match FiguraGeometrica.constructor H (.string "Triángulo") σ with
  | (.error e, σ₁) => (.error e, σ₁)
  | (.ok this, σ₁) =>
    match Validacion.isNumber H (param args 0) with
    | .error e => (.error e, σ₁)
    | .ok base =>
      match Validacion.isNumber H (param args 1) with
      | .error e => (.error e, σ₁)
      | .ok altura => (.ok { this with forma := .triangulo base altura }, σ₁)

/-- Source: `Triangulo.calcularArea()`. -/
def calcularArea (base altura : JSNumber) : JSNumber := (base * altura) / 2

/-- Source: `Triangulo.calcularPerimetro()`. -/
def calcularPerimetro (base : JSNumber) : JSNumber := 3 * base

/-- Source: `Triangulo.calcularHipotenusa()`. -/
def calcularHipotenusa (H : Anfitrion) (base altura : JSNumber) : JSNumber :=
  H.sqrt (base * base + altura * altura)

end Triangulo

namespace Pentagono

/-- Source: `Pentagono.constructor(lado)`. -/
def constructor (H : Anfitrion) (args : List JSValue) (σ : Estado) :
    Except JSError FiguraGeometrica × Estado :=
  match FiguraGeometrica.constructor H (.string "Pentágono") σ with
  | (.error e, σ₁) => (.error e, σ₁)
  | (.ok this, σ₁) =>
    match Validacion.isNumber H (param args 0) with
    | .error e => (.error e, σ₁)
    | .ok lado => (.ok { this with forma := .pentagono lado }, σ₁)

/-- Source: `Pentagono.calcularPerimetro()`. -/
def calcularPerimetro (lado : JSNumber) : JSNumber := 5 * lado

/-- Source: `Pentagono.calcularApotema()`. -/
def calcularApotema (H : Anfitrion) (lado : JSNumber) : JSNumber :=
  lado / (2 * H.tan (PI / 5))

/-- Source: `Pentagono.calcularArea()`. -/
def calcularArea (H : Anfitrion) (lado : JSNumber) : JSNumber :=
  (calcularPerimetro lado * calcularApotema H lado) / 2

/-- Source: `Pentagono.anguloInterior()`. -/
def anguloInterior : JSNumber := (180 * (5 - 2)) / 5

/-- Source: `Pentagono.anguloExterior()`. -/
def anguloExterior : JSNumber := 360 / 5

end Pentagono

namespace Hexagono

/-- Source: `Hexagono.constructor(lado)`: when `Hexagono.instancia` is set it is
returned at once; otherwise the new instance is built and stored there. -/
def constructor (H : Anfitrion) (args : List JSValue) (σ : Estado) :
    Except JSError FiguraGeometrica × Estado :=
  match σ.instancia with
  | some instancia => (.ok instancia, σ)
  | none =>
    match FiguraGeometrica.constructor H (.string "Hexágono") σ with
    | (.error e, σ₁) => (.error e, σ₁)
    | (.ok this, σ₁) =>
      match Validacion.isNumber H (param args 0) with
      | .error e => (.error e, σ₁)
      | .ok lado =>
        (.ok { this with forma := .hexagono lado },
          { σ₁ with instancia := some { this with forma := .hexagono lado } })

/-- Source: `Hexagono.calcularPerimetro()`. -/
def calcularPerimetro (lado : JSNumber) : JSNumber := 6 * lado

/-- Source: `Hexagono.calcularApotema()`. -/
def calcularApotema (H : Anfitrion) (lado : JSNumber) : JSNumber :=
  (lado * H.sqrt 3) / 2

/-- Source: `Hexagono.calcularArea()`. -/
def calcularArea (H : Anfitrion) (lado : JSNumber) : JSNumber :=
  (calcularPerimetro lado * calcularApotema H lado) / 2

/-- Source: `Hexagono.anguloInterior()`. -/
def anguloInterior : JSNumber := (180 * (6 - 2)) / 6

/-- Source: `Hexagono.anguloExterior()`. -/
def anguloExterior : JSNumber := 360 / 6

end Hexagono

namespace FiguraGeometrica

/-- The method `calcularArea()` as dispatched on the class of the receiver; the
abstract class throws. -/
def calcularArea (H : Anfitrion) (this : FiguraGeometrica) : Except JSError JSNumber :=
  match this.forma with
  | .base => .error (.Error "Método calcularArea debe ser implementado por la subclase")
  | .circulo radio => .ok (Circulo.calcularArea radio)
  | .rectangulo ancho altura _ => .ok (Rectangulo.calcularArea ancho altura)
  | .triangulo base altura => .ok (Triangulo.calcularArea base altura)
  | .pentagono lado => .ok (Pentagono.calcularArea H lado)
  | .hexagono lado => .ok (Hexagono.calcularArea H lado)

/-- The method `calcularPerimetro()` as dispatched on the class of the receiver; the
abstract class throws. -/
def calcularPerimetro (this : FiguraGeometrica) : Except JSError JSNumber :=
  match this.forma with
  | .base => .error (.Error "Método calcularPerimetro debe ser implementado por la subclase")
  | .circulo radio => .ok (Circulo.calcularPerimetro radio)
  | .rectangulo ancho altura _ => .ok (Rectangulo.calcularPerimetro ancho altura)
  | .triangulo base _ => .ok (Triangulo.calcularPerimetro base)
  | .pentagono lado => .ok (Pentagono.calcularPerimetro lado)
  | .hexagono lado => .ok (Hexagono.calcularPerimetro lado)

/-- Source: `FiguraGeometrica.describir()`. -/
def describir (H : Anfitrion) (this : FiguraGeometrica) : Except JSError String :=
  match this.calcularArea H with
  | .error e => .error e
  | .ok area =>
    match this.calcularPerimetro with
    | .error e => .error e
    | .ok perimetro =>
      .ok (this.nombre ++ " - Área: " ++ H.toFixed area 2 ++ ", Perímetro: "
        ++ H.toFixed perimetro 2)

/-- The `switch (data.tipo)` of `crearDesdeJSON`, applied to the decoded `data`. -/
def crearDesdeDatos (H : Anfitrion) (data : JSValue) (σ : Estado) :
    Except JSError FiguraGeometrica × Estado :=
  match propiedad data "tipo" with
  | .error e => (.error e, σ)
  | .ok (.string t) =>
    if t = "circulo" then
      match propiedad data "radio" with
      | .error e => (.error e, σ)
      | .ok radio => Circulo.constructor H [radio] σ
    else if t = "rectangulo" then
      match propiedad data "ancho" with
      | .error e => (.error e, σ)
      | .ok ancho =>
        match propiedad data "alto" with
        | .error e => (.error e, σ)
        | .ok alto => Rectangulo.constructor H [ancho, alto] σ
    else if t = "triangulo" then
      match propiedad data "base" with
      | .error e => (.error e, σ)
      | .ok base =>
        match propiedad data "altura" with
        | .error e => (.error e, σ)
        | .ok altura => Triangulo.constructor H [base, altura] σ
    else (.error (.Error "Tipo de figura no reconocido"), σ)
  | .ok _ => (.error (.Error "Tipo de figura no reconocido"), σ)

/-- Source: `static crearDesdeJSON(jsonString)`. -/
def crearDesdeJSON (H : Anfitrion) (jsonString : String) (σ : Estado) :
    Except JSError FiguraGeometrica × Estado :=
  match H.parse jsonString with
  | .error e => (.error e, σ)
  | .ok data => crearDesdeDatos H data σ

end FiguraGeometrica

/-- Source: `function FabricaFiguras(tipo, ...datosBase)`.  The `switch` has no
`default` clause: for any other `tipo` the function ends without `return`. -/
def FabricaFiguras (H : Anfitrion) (tipo : JSValue) (datosBase : List JSValue) (σ : Estado) :
    Except JSError JSValue × Estado :=
  match tipo with
  | .string t =>
    if t = "circulo" then
      let r := Circulo.constructor H [param datosBase 0] σ
      (r.1.map JSValue.figura, r.2)
    else if t = "rectangulo" then
      let largo := match param datosBase 2 with
        | .undefined => .number 0
        | v => v
      let r := Rectangulo.constructor H [param datosBase 0, param datosBase 1, largo] σ
      (r.1.map JSValue.figura, r.2)
    else if t = "triangulo" then
      let r := Triangulo.constructor H [param datosBase 0, param datosBase 1] σ
      (r.1.map JSValue.figura, r.2)
    else if t = "pentagono" then
      let r := Pentagono.constructor H [param datosBase 0] σ
      (r.1.map JSValue.figura, r.2)
    else if t = "hexagono" then
      let r := Hexagono.constructor H [param datosBase 0] σ
      (r.1.map JSValue.figura, r.2)
    else (.ok .undefined, σ)
  | _ => (.ok .undefined, σ)

/-! ## class ColeccionFiguras -/

/-- An instance of `ColeccionFiguras`: the array `this.figuras`. -/
structure ColeccionFiguras where
  figuras : List FiguraGeometrica
  deriving DecidableEq

namespace ColeccionFiguras

/-- Source: `ColeccionFiguras.constructor()`. -/
def constructor : ColeccionFiguras := ⟨[]⟩

/-- Source: `agregar(figura)`: the returned boolean and the collection afterwards. -/
def agregar (this : ColeccionFiguras) (figura : JSValue) : Bool × ColeccionFiguras :=
  match figura with
  | .figura f => (true, ⟨this.figuras ++ [f]⟩)
  | _ => (false, this)

/-- The array method `reduce(f, inicial)` with a callback that may throw. -/
def reduce (f : JSNumber → FiguraGeometrica → Except JSError JSNumber) :
    List FiguraGeometrica → JSNumber → Except JSError JSNumber
  | [], total => .ok total
  | figura :: resto, total =>
    match f total figura with
    | .error e => .error e
    | .ok total₁ => reduce f resto total₁

/-- Source: `calcularAreaTotal()`. -/
def calcularAreaTotal (H : Anfitrion) (this : ColeccionFiguras) : Except JSError JSNumber :=
  reduce (fun total figura => (figura.calcularArea H).map (fun a => total + a)) this.figuras 0

/-- Source: `calcularPerimetroTotal()`. -/
def calcularPerimetroTotal (this : ColeccionFiguras) : Except JSError JSNumber :=
  reduce (fun total figura => (figura.calcularPerimetro).map (fun p => total + p))
    this.figuras 0

/-- Source: `filtrarPorTipo(tipo)`: `figura.nombre === tipo` holds only for a text
`tipo` equal to the name. -/
def filtrarPorTipo (this : ColeccionFiguras) (tipo : JSValue) : List FiguraGeometrica :=
  this.figuras.filter (fun figura =>
    match tipo with
    | .string t => decide (figura.nombre = t)
    | _ => false)

/-- Source: `static compararAreas(figura1, figura2)`. -/
def compararAreas (H : Anfitrion) (figura1 figura2 : FiguraGeometrica) :
    Except JSError String :=
  match figura1.calcularArea H with
  | .error e => .error e
  | .ok area1 =>
    match figura2.calcularArea H with
    | .error e => .error e
    | .ok area2 =>
      if JSNumber.gt area1 area2 then
        .ok (figura1.nombre ++ " es más grande que " ++ figura2.nombre)
      else if JSNumber.lt area1 area2 then
        .ok (figura2.nombre ++ " es más grande que " ++ figura1.nombre)
      else .ok "Ambas figuras tienen la misma área"

end ColeccionFiguras

/-! ## Auxiliary notions used in the statements -/

/-- The operator `typeof`. -/
def JSValue.typeof : JSValue → String
  | .undefined => "undefined"
  | .null => "object"
  | .boolean _ => "boolean"
  | .number _ => "number"
  | .string _ => "string"
  | .arreglo _ => "object"
  | .objeto _ => "object"
  | .figura _ => "object"
  | .ajeno .simbolo _ => "symbol"
  | .ajeno .enteroGrande _ => "bigint"
  | .ajeno .funcion _ => "function"
  | .ajeno .objeto _ => "object"

/-- The test `x instanceof FiguraGeometrica`. -/
def JSValue.instanceofFiguraGeometrica : JSValue → Bool
  | .figura _ => true
  | _ => false

/-- The outcome of a constructor call, seen as the outcome of a function returning the
new object as a value. -/
def comoValor (r : Except JSError FiguraGeometrica × Estado) :
    Except JSError JSValue × Estado :=
  (r.1.map JSValue.figura, r.2)

/-- The collection obtained from a fresh `ColeccionFiguras` by calling `agregar` with
each shape of `xs` in turn. -/
def agregarTodas (xs : List FiguraGeometrica) : ColeccionFiguras :=
  xs.foldl (fun c f => (c.agregar (.figura f)).2) ColeccionFiguras.constructor

/-- The text made of `n` copies of `s`. -/
def repetir (s : String) : ℕ → String
  | 0 => ""
  | n + 1 => s ++ repetir s n

/-- The solid block the specification describes: `h` rows, each `w` copies of the
marker followed by a line break. -/
def bloqueSolido (w h : ℕ) : String :=
  repetir (repetir "# " w ++ "\n") h

/-- A host on which the definitions can be run: it decodes three JSON texts (the one of
the demonstration script, one with an unsupported tag and one with `radio: null`),
numbers its identifiers, and leaves the numeric library trivial.  The text of a string
is the string, that of `null` and `undefined` their names, that of any other value
"?".  Converting to text fails on a Symbol, on a plain object with a `toString`
property that is not a function, and on the foreign object number 0, which stands for
an object whose `toString` throws a `RangeError` with the message "x"; texts grow to
`2^20` code units, and a longer one is a `RangeError`. -/
def anfitrionEjemplo : Anfitrion where
  tan := fun _ => nan
  sqrt := fun _ => nan
  pow := fun _ _ => nan
  toFixed := fun _ _ => "?"
  textoDe := fun v =>
    match v with
    | .string s => s
    | .null => "null"
    | .undefined => "undefined"
    | _ => "?"
  falloDeTexto := fun v =>
    match v with
    | .ajeno .simbolo _ => some (.tipo "Cannot convert a Symbol value to a string")
    | .ajeno .objeto 0 => some (.otro "RangeError" "x")
    | .objeto campos =>
      match campos.lookup "toString" with
      | none => none
      | some (.ajeno .funcion _) => none
      | some _ => some (.tipo "Cannot convert object to primitive value")
    | _ => none
  longitudMaxima := 1048576
  textoExcedido := .excepcion (.ajeno "RangeError" "Invalid string length")
  idAzar := fun n => "id" ++ toString n
  parse := fun s =>
    if s = "\x7b\"tipo\":\"circulo\",\"radio\":3\x7d" then
      .ok (.objeto [("tipo", .string "circulo"), ("radio", .number 3)])
    else if s = "\x7b\"tipo\":\"pentagono\",\"lado\":10\x7d" then
      .ok (.objeto [("tipo", .string "pentagono"), ("lado", .number 10)])
    else if s = "\x7b\"tipo\":\"circulo\",\"radio\":null\x7d" then
      .ok (.objeto [("tipo", .string "circulo"), ("radio", .null)])
    else .error (.SyntaxError "Unexpected token")

/-- A call of the program that can touch the global state. -/
inductive Llamada where
  | nuevaFigura (nombre : JSValue)
  | nuevoCirculo (args : List JSValue)
  | nuevoRectangulo (args : List JSValue)
  | nuevoTriangulo (args : List JSValue)
  | nuevoPentagono (args : List JSValue)
  | nuevoHexagono (args : List JSValue)
  | fabrica (tipo : JSValue) (datosBase : List JSValue)
  | desdeJSON (jsonString : String)

/-- The global state after a call, whether it returned or threw. -/
def Llamada.ejecutar (H : Anfitrion) : Llamada → Estado → Estado
  | .nuevaFigura nombre, σ => (FiguraGeometrica.constructor H nombre σ).2
  | .nuevoCirculo args, σ => (Circulo.constructor H args σ).2
  | .nuevoRectangulo args, σ => (Rectangulo.constructor H args σ).2
  | .nuevoTriangulo args, σ => (Triangulo.constructor H args σ).2
  | .nuevoPentagono args, σ => (Pentagono.constructor H args σ).2
  | .nuevoHexagono args, σ => (Hexagono.constructor H args σ).2
  | .fabrica tipo datosBase, σ => (FabricaFiguras H tipo datosBase σ).2
  | .desdeJSON jsonString, σ => (FiguraGeometrica.crearDesdeJSON H jsonString σ).2

/-- The global state after a sequence of calls, made in order. -/
def ejecutarTodas (H : Anfitrion) (llamadas : List Llamada) (σ : Estado) : Estado :=
  llamadas.foldl (fun σ l => l.ejecutar H σ) σ

/-- The method `Number.prototype.toFixed(f)` for `0 ≤ f ≤ 100`, by the steps of
ECMA-262: a non-finite number gives its default text; a magnitude of `10^21` or more
gives the default text of the number (`textoDe`); otherwise the integer `n` nearest to
`x * 10^f` (the larger one on a tie) is written in decimal, padded with zeros to more
than `f` digits, with a point before the last `f` digits. -/
def toFixedEstandar (textoDe : JSValue → String) (x : JSNumber) (f : ℕ) : String :=
  match x with
  | nan => "NaN"
  | inf negativo => if negativo then "-Infinity" else "Infinity"
  | fin negativo mag =>
    let s := if negativo && decide (0 < mag) then "-" else ""
    if (10 : ℚ) ^ 21 ≤ mag then s ++ textoDe (.number (fin false mag))
    else
      let n := ⌊mag * (10 : ℚ) ^ f + 1 / 2⌋₊
      let m := Nat.toDigits 10 n
      if f = 0 then s ++ String.mk m
      else
        let m := List.replicate (f + 1 - m.length) '0' ++ m
        s ++ String.mk (m.take (m.length - f)) ++ "." ++ String.mk (m.drop (m.length - f))

/-- The host's `toFixed` is the one of the standard. -/
def Conforme (H : Anfitrion) : Prop :=
  ∀ x f, f ≤ 100 → H.toFixed x f = toFixedEstandar H.textoDe x f

/-- The fixed display name each constructor passes to the base class. -/
def Forma.nombre : Forma → String
  | .base => ""
  | .circulo _ => "Círculo"
  | .rectangulo _ _ _ => "Rectángulo"
  | .triangulo _ _ => "Triángulo"
  | .pentagono _ => "Pentágono"
  | .hexagono _ => "Hexágono"

/-- The host `anfitrionEjemplo` with the `toFixed` of the standard. -/
def anfitrionConforme : Anfitrion :=
  { anfitrionEjemplo with toFixed := toFixedEstandar anfitrionEjemplo.textoDe }

/-- The decimal digits of `n`, padded with zeros on the left to at least three. -/
def digitosCentesimas (n : ℕ) : List Char :=
  List.replicate (3 - (Nat.toDigits 10 n).length) '0' ++ Nat.toDigits 10 n

/-- Fixed-point text with two decimals for `n` hundredths: sign, the digits of `n`
but the last two, a point, the last two digits. -/
def textoDosDecimales (negativo : Bool) (n : ℕ) : String :=
  (if negativo then "-" else "") ++
    String.mk ((digitosCentesimas n).take ((digitosCentesimas n).length - 2)) ++ "." ++
    String.mk ((digitosCentesimas n).drop ((digitosCentesimas n).length - 2))

/-- The host `anfitrionEjemplo` with a `Math.pow` that computes a cube by repeated
multiplication (and nothing else). -/
def anfitrionPotencia : Anfitrion :=
  { anfitrionEjemplo with pow := fun x y => if y = 3 then x * x * x else nan }

/-- What `JSON.parse(JSON.stringify(x))` gives for a number `x`: by ECMA-262
`JSON.stringify` writes `NaN` and the two infinities as `null` and `-0` as `0`, and
every other number as a decimal text that reads back as the same number. -/
def imagenJSON : JSNumber → JSValue
  | nan => .null
  | inf _ => .null
  | fin negativo mag => if mag = 0 then .number (fin false 0) else .number (fin negativo mag)

/-- The same number up to the sign of zero: what `===` and `toFixed` cannot tell apart
and `Object.is` can. -/
def JSNumber.mismoSalvoCero (a b : JSNumber) : Prop :=
  a = b ∨ (JSNumber.eq a 0 = true ∧ JSNumber.eq b 0 = true)

/-! ## Arithmetic facts -/

namespace JSNumber

theorem log_eq_of_bounds (mag : ℚ) (e : ℤ) (h1 : (2 : ℚ) ^ e ≤ mag) (h2 : mag < (2 : ℚ) ^ (e + 1)) :
    Int.log 2 mag = e := by
  have hpos : 0 < mag := lt_of_lt_of_le (by positivity) h1
  have hle : e ≤ Int.log 2 mag :=
    (Int.zpow_le_iff_le_log (by norm_num) hpos).1 (by exact_mod_cast h1)
  have hlt : Int.log 2 mag < e + 1 :=
    (Int.lt_zpow_iff_log_lt (by norm_num) hpos).1 (by exact_mod_cast h2)
  omega

theorem ulp_eq (mag : ℚ) (e : ℤ) (h1 : (2 : ℚ) ^ e ≤ mag) (h2 : mag < (2 : ℚ) ^ (e + 1))
    (he : -1022 ≤ e) : ulp mag = (2 : ℚ) ^ (e - 52) := by
  rw [ulp, log_eq_of_bounds mag e h1 h2, max_eq_left he]

theorem mitadPar_natCast (n : ℕ) : mitadPar (n : ℚ) = n := by
  simp [mitadPar]

theorem mitadPar_mitad (n : ℕ) :
    mitadPar ((n : ℚ) + 1 / 2) = if n % 2 = 0 then n else n + 1 := by
  have hf : ⌊(n : ℚ) + 1 / 2⌋₊ = n := by
    rw [Nat.floor_eq_iff (by positivity)]
    constructor <;> norm_num
  have hd : (n : ℚ) + 1 / 2 - (n : ℚ) = 1 / 2 := by ring
  simp only [mitadPar, hf, hd, lt_irrefl, if_false]

/-- Rounding with the exponent `e` of the magnitude known. -/
theorem redondear_eq (s : Bool) (mag : ℚ) (e : ℤ) (k : ℕ)
    (h1 : (2 : ℚ) ^ e ≤ mag) (h2 : mag < (2 : ℚ) ^ (e + 1)) (he : -1022 ≤ e)
    (hk : mitadPar (mag / (2 : ℚ) ^ (e - 52)) = k)
    (hfin : (k : ℚ) * (2 : ℚ) ^ (e - 52) < (2 : ℚ) ^ (1024 : ℕ)) :
    redondear s mag = fin s ((k : ℚ) * (2 : ℚ) ^ (e - 52)) := by
  have hpos : 0 < mag := lt_of_lt_of_le (by positivity) h1
  simp only [redondear, ulp_eq mag e h1 h2 he, hk, if_neg hpos.ne', if_neg (not_le.2 hfin)]

/-- A natural number up to `2^53` is a binary64 value. -/
theorem redondear_natCast (s : Bool) (n : ℕ) (hn : n ≤ 2 ^ 53) :
    redondear s (n : ℚ) = fin s n := by
  rcases Nat.eq_zero_or_pos n with rfl | hpos
  · simp [redondear]
  have hn0 : n ≠ 0 := hpos.ne'
  have hlog : Nat.log 2 n ≤ 53 := by
    have := Nat.log_mono_right (b := 2) hn
    rwa [Nat.log_pow (by norm_num)] at this
  have h1 : (2 : ℚ) ^ ((Nat.log 2 n : ℕ) : ℤ) ≤ (n : ℚ) := by
    rw [zpow_natCast]
    exact_mod_cast Nat.pow_log_le_self 2 hn0
  have h2 : (n : ℚ) < (2 : ℚ) ^ (((Nat.log 2 n : ℕ) : ℤ) + 1) := by
    have : ((Nat.log 2 n : ℕ) : ℤ) + 1 = ((Nat.log 2 n + 1 : ℕ) : ℤ) := by push_cast; ring
    rw [this, zpow_natCast]
    exact_mod_cast Nat.lt_pow_succ_log_self (by norm_num) n
  have hn1024 : (n : ℚ) < (2 : ℚ) ^ (1024 : ℕ) := by
    have h53 : (n : ℚ) ≤ (2 : ℚ) ^ (53 : ℕ) := by exact_mod_cast hn
    exact lt_of_le_of_lt h53 (by norm_num)
  rcases Nat.lt_or_ge (Nat.log 2 n) 53 with hL | hL
  · -- the scaled value is a natural number
    obtain ⟨j, hj⟩ : ∃ j : ℕ, Nat.log 2 n + j = 52 := ⟨52 - Nat.log 2 n, by omega⟩
    have hexp : ((Nat.log 2 n : ℕ) : ℤ) - 52 = -(j : ℤ) := by omega
    have hdiv : (n : ℚ) / (2 : ℚ) ^ (((Nat.log 2 n : ℕ) : ℤ) - 52) = ((n * 2 ^ j : ℕ) : ℚ) := by
      rw [hexp, zpow_neg, zpow_natCast, div_inv_eq_mul]; push_cast; ring
    have hk := redondear_eq s (n : ℚ) (Nat.log 2 n) (n * 2 ^ j) h1 h2 (by omega)
      (by rw [hdiv, mitadPar_natCast])
    have hval : ((n * 2 ^ j : ℕ) : ℚ) * (2 : ℚ) ^ (((Nat.log 2 n : ℕ) : ℤ) - 52) = n := by
      rw [hexp, zpow_neg, zpow_natCast]; push_cast
      field_simp
    rw [hval] at hk
    exact hk hn1024
  · have hL53 : Nat.log 2 n = 53 := le_antisymm hlog hL
    have hn53 : n = 2 ^ 53 := by
      have := Nat.pow_log_le_self 2 hn0
      rw [hL53] at this
      exact le_antisymm hn this
    subst hn53
    have hk := redondear_eq s ((2 ^ 53 : ℕ) : ℚ) 53 (2 ^ 52) (by norm_num) (by norm_num)
      (by norm_num)
      (by
        have : (((2 : ℕ) ^ 53 : ℕ) : ℚ) / (2 : ℚ) ^ ((53 : ℤ) - 52) = ((2 ^ 52 : ℕ) : ℚ) := by
          norm_num
        rw [this, mitadPar_natCast])
      (by norm_num)
    rw [hk]
    norm_num

theorem add_fin_fin (s t : Bool) (a b : ℚ) :
    (fin s a : JSNumber) + fin t b = deRacional (valor s a + valor t b) (s && t) := rfl

theorem mul_fin_fin (s t : Bool) (a b : ℚ) :
    (fin s a : JSNumber) * fin t b = redondear (xor s t) (a * b) := rfl

/-- Addition of natural numbers is exact as long as the sum is at most `2^53`. -/
theorem add_nat (a b : ℕ) (h : a + b ≤ 2 ^ 53) :
    (fin false a : JSNumber) + fin false b = fin false ((a + b : ℕ) : ℚ) := by
  rw [add_fin_fin]
  simp only [valor, deRacional, Bool.false_eq_true, if_false, Bool.and_self]
  have hnn : (0 : ℚ) ≤ (a : ℚ) + (b : ℚ) := by positivity
  by_cases h0 : (a : ℚ) + (b : ℚ) = 0
  · simp [h0]
  · rw [if_neg h0, abs_of_nonneg hnn, decide_eq_false (not_lt.2 hnn)]
    have := redondear_natCast false (a + b) h
    push_cast at this ⊢
    exact this

/-- Multiplication of natural numbers is exact as long as the product is at most
`2^53`. -/
theorem mul_nat (a b : ℕ) (h : a * b ≤ 2 ^ 53) :
    (fin false a : JSNumber) * fin false b = fin false ((a * b : ℕ) : ℚ) := by
  rw [mul_fin_fin]
  have := redondear_natCast false (a * b) h
  push_cast at this ⊢
  simpa using this

theorem lt_nat (a b : ℕ) : lt (fin false a) (fin false b) = decide (a < b) := by
  simp [lt, valor]

theorem mitadPar_absorbe :
    mitadPar ((9007199254740993 : ℚ) / (2 : ℚ) ^ ((53 : ℤ) - 52)) = 4503599627370496 := by
  have : (9007199254740993 : ℚ) / (2 : ℚ) ^ ((53 : ℤ) - 52)
      = ((4503599627370496 : ℕ) : ℚ) + 1 / 2 := by norm_num
  rw [this, mitadPar_mitad]
  norm_num

theorem redondear_absorbe :
    redondear false 9007199254740993 = fin false 9007199254740992 := by
  have hk := redondear_eq false 9007199254740993 53 4503599627370496 (by norm_num)
    (by norm_num) (by norm_num) mitadPar_absorbe (by norm_num)
  rw [hk]
  norm_num

theorem deRacional_pos (q : ℚ) (c : Bool) (h : 0 < q) : deRacional q c = redondear false q := by
  simp [deRacional, h.ne', abs_of_pos h, not_lt.2 h.le]

/-- At `2^53` the increment is absorbed: `2^53 + 1` rounds back to `2^53`. -/
theorem add_uno_absorbido :
    (fin false 9007199254740992 : JSNumber) + fin false 1 = fin false 9007199254740992 := by
  have hq : valor false 9007199254740992 + valor false 1 = (9007199254740993 : ℚ) := by
    norm_num [valor]
  rw [add_fin_fin, hq, deRacional_pos _ _ (by norm_num), redondear_absorbe]

theorem redondear_dos_mas :
    redondear false 9007199254740994 = fin false 9007199254740994 := by
  have hm : mitadPar ((9007199254740994 : ℚ) / (2 : ℚ) ^ ((53 : ℤ) - 52))
      = 4503599627370497 := by
    have : (9007199254740994 : ℚ) / (2 : ℚ) ^ ((53 : ℤ) - 52)
        = ((4503599627370497 : ℕ) : ℚ) := by norm_num
    rw [this, mitadPar_natCast]
  have hk := redondear_eq false 9007199254740994 53 4503599627370497 (by norm_num)
    (by norm_num) (by norm_num) hm (by norm_num)
  rw [hk]
  norm_num

/-- The sum `2 + 2^53` is exact. -/
theorem add_dos_exacto :
    (fin false 2 : JSNumber) + fin false 9007199254740992 = fin false 9007199254740994 := by
  have hq : valor false 2 + valor false 9007199254740992 = (9007199254740994 : ℚ) := by
    norm_num [valor]
  rw [add_fin_fin, hq, deRacional_pos _ _ (by norm_num), redondear_dos_mas]

/-- Neither operand is strictly greater exactly when the two are equal or one of
them is `NaN`. -/
theorem ni_mayor_ni_menor (a b : JSNumber) :
    (gt a b = false ∧ lt a b = false) ↔ (JSNumber.eq a b = true ∨ a = nan ∨ b = nan) := by
  rcases a with _ | s | ⟨s, a⟩ <;> rcases b with _ | t | ⟨t, b⟩
  · simp [gt, lt, JSNumber.eq]
  · simp [gt, lt, JSNumber.eq]
  · simp [gt, lt, JSNumber.eq]
  · simp [gt, lt, JSNumber.eq]
  · cases s <;> cases t <;> simp [gt, lt, JSNumber.eq]
  · cases s <;> simp [gt, lt, JSNumber.eq]
  · simp [gt, lt, JSNumber.eq]
  · cases t <;> simp [gt, lt, JSNumber.eq]
  · simp only [gt, lt, JSNumber.eq, decide_eq_false_iff_not, decide_eq_true_eq, not_lt,
      reduceCtorEq, or_false]
    constructor
    · rintro ⟨h1, h2⟩; exact le_antisymm h1 h2
    · intro h; exact ⟨h.le, h.ge⟩

theorem lt_nan_right (a : JSNumber) : lt a nan = false := by
  cases a <;> rfl

theorem mul_nan_right (a : JSNumber) : a * nan = nan := by
  cases a <;> rfl

theorem mul_nan_left (a : JSNumber) : nan * a = nan := by
  cases a <;> rfl

theorem lt_nan_left (a : JSNumber) : lt nan a = false := by
  cases a <;> rfl

theorem eq_nan_left (a : JSNumber) : JSNumber.eq nan a = false := by
  cases a <;> rfl

/-- The relation `<` is asymmetric. -/
theorem lt_asimetrica (a b : JSNumber) (h : lt a b = true) : lt b a = false := by
  rcases a with _ | s | ⟨s, a⟩ <;> rcases b with _ | t | ⟨t, b⟩ <;>
    simp only [lt, Bool.and_eq_true, Bool.not_eq_true', decide_eq_true_eq,
      decide_eq_false_iff_not, not_lt, Bool.and_eq_false_imp, reduceCtorEq] at h ⊢
  · rcases h with ⟨rfl, rfl⟩; simp
  · simpa using h
  · simpa using h
  · exact h.le

end JSNumber

/-! ## Construction -/

theorem isNumber_number (H : Anfitrion) (n : JSNumber) :
    Validacion.isNumber H (.number n) = .ok n := rfl

theorem rechazo_sin_fallo (H : Anfitrion) (v : JSValue) (sufijo : String)
    (h : H.falloDeTexto v = none) :
    Validacion.rechazo H v sufijo = .TypeError (H.textoDe v ++ sufijo) := by
  simp [Validacion.rechazo, h]

theorem rechazo_con_fallo (H : Anfitrion) (v : JSValue) (sufijo : String) (fallo : FalloDeTexto)
    (h : H.falloDeTexto v = some fallo) :
    Validacion.rechazo H v sufijo = fallo.error := by
  simp [Validacion.rechazo, h]

theorem rechazo_clase (H : Anfitrion) (v : JSValue) (sufijo : String) :
    (∃ m, Validacion.rechazo H v sufijo = .TypeError m) ∨
    ∃ c m, Validacion.rechazo H v sufijo = .ajeno c m := by
  unfold Validacion.rechazo
  cases H.falloDeTexto v with
  | none => exact Or.inl ⟨_, rfl⟩
  | some fallo =>
    cases fallo with
    | tipo m => exact Or.inl ⟨m, rfl⟩
    | otro c m => exact Or.inr ⟨c, m, rfl⟩

theorem rechazo_ne_Error (H : Anfitrion) (v : JSValue) (sufijo m : String) :
    Validacion.rechazo H v sufijo ≠ .Error m := by
  rcases rechazo_clase H v sufijo with ⟨m', h⟩ | ⟨c, m', h⟩ <;> rw [h] <;> exact fun h' => by cases h'

theorem isNumber_error (H : Anfitrion) (v : JSValue) (h : v.typeof ≠ "number") :
    Validacion.isNumber H v = .error (Validacion.rechazo H v ", no es un number") := by
  cases v <;> first | rfl | exact absurd rfl h

theorem typeof_number_iff (v : JSValue) : v.typeof = "number" ↔ ∃ n, v = .number n := by
  cases v <;> first | (simp [JSValue.typeof]; done) | (rename_i c _; cases c <;> simp [JSValue.typeof])

theorem isNumber_cases (H : Anfitrion) (v : JSValue) :
    (∃ n, v = .number n ∧ Validacion.isNumber H v = .ok n) ∨
    (v.typeof ≠ "number" ∧
      Validacion.isNumber H v = .error (Validacion.rechazo H v ", no es un number")) := by
  by_cases h : v.typeof = "number"
  · obtain ⟨n, rfl⟩ := (typeof_number_iff v).1 h
    exact Or.inl ⟨n, rfl, rfl⟩
  · exact Or.inr ⟨h, isNumber_error H v h⟩

theorem base_constructor_string (H : Anfitrion) (n : String) (σ : Estado) :
    FiguraGeometrica.constructor H (.string n) σ =
      (.ok ⟨n, H.idAzar σ.azar, .base⟩, ⟨σ.instancia, σ.azar + 1⟩) := rfl

theorem largo_por_defecto (v : JSValue) :
    (match v with
      | .undefined => JSValue.number 0
      | w => w) = if v.typeof = "undefined" then JSValue.number 0 else v := by
  cases v <;> first | (simp [JSValue.typeof]; done) | (rename_i c _; cases c <;> simp [JSValue.typeof])

/-- C1 (amended): for Circulo, Rectangulo, Triangulo and Pentagono in every state, and
for Hexagono in every state in which `Hexagono.instancia` is not set, the first dimension
argument that is not a number makes the construction fail: no object results,
`Hexagono.instancia` is left as it was, and what is thrown is the rejection of that
argument by `Validacion.isNumber`.  That rejection is the `TypeError` with the message
"<text of the value>, no es un number" when the value converts to text, and otherwise
whatever the conversion throws.  For Rectangulo the third argument counts only when it is
supplied and not `undefined`.  When `Hexagono.instancia` is set, `new Hexagono(x)`
validates nothing and returns the stored instance, whatever `x` is. -/
theorem C1_construccion_rechaza_no_numeros (H : Anfitrion) (σ : Estado)
    (args : List JSValue) :
    ((param args 0).typeof ≠ "number" →
      Circulo.constructor H args σ
        = (.error (Validacion.rechazo H (param args 0) ", no es un number"),
            ⟨σ.instancia, σ.azar + 1⟩)) ∧
    (((param args 0).typeof ≠ "number" →
        Rectangulo.constructor H args σ
          = (.error (Validacion.rechazo H (param args 0) ", no es un number"),
              ⟨σ.instancia, σ.azar + 1⟩)) ∧
      ((param args 0).typeof = "number" → (param args 1).typeof ≠ "number" →
        Rectangulo.constructor H args σ
          = (.error (Validacion.rechazo H (param args 1) ", no es un number"),
              ⟨σ.instancia, σ.azar + 1⟩)) ∧
      ((param args 0).typeof = "number" → (param args 1).typeof = "number" →
        (param args 2).typeof ≠ "undefined" → (param args 2).typeof ≠ "number" →
        Rectangulo.constructor H args σ
          = (.error (Validacion.rechazo H (param args 2) ", no es un number"),
              ⟨σ.instancia, σ.azar + 1⟩))) ∧
    (((param args 0).typeof ≠ "number" →
        Triangulo.constructor H args σ
          = (.error (Validacion.rechazo H (param args 0) ", no es un number"),
              ⟨σ.instancia, σ.azar + 1⟩)) ∧
      ((param args 0).typeof = "number" → (param args 1).typeof ≠ "number" →
        Triangulo.constructor H args σ
          = (.error (Validacion.rechazo H (param args 1) ", no es un number"),
              ⟨σ.instancia, σ.azar + 1⟩))) ∧
    ((param args 0).typeof ≠ "number" →
      Pentagono.constructor H args σ
        = (.error (Validacion.rechazo H (param args 0) ", no es un number"),
            ⟨σ.instancia, σ.azar + 1⟩)) ∧
    (σ.instancia = none → (param args 0).typeof ≠ "number" →
      Hexagono.constructor H args σ
        = (.error (Validacion.rechazo H (param args 0) ", no es un number"),
            ⟨none, σ.azar + 1⟩)) ∧
    (∀ v : JSValue,
      (H.falloDeTexto v = none →
        Validacion.rechazo H v ", no es un number"
          = .TypeError (H.textoDe v ++ ", no es un number")) ∧
      (∀ fallo, H.falloDeTexto v = some fallo →
        Validacion.rechazo H v ", no es un number" = fallo.error)) ∧
    (∀ guardada, σ.instancia = some guardada →
      Hexagono.constructor H args σ = (.ok guardada, σ)) := by
  refine ⟨?_, ⟨?_, ?_, ?_⟩, ⟨?_, ?_⟩, ?_, ?_, ?_, ?_⟩
  · intro h
    simp [Circulo.constructor, base_constructor_string, isNumber_error H _ h]
  · intro h
    simp [Rectangulo.constructor, base_constructor_string, isNumber_error H _ h]
  · intro h0 h1
    obtain ⟨a, ha⟩ := (typeof_number_iff _).1 h0
    simp [Rectangulo.constructor, base_constructor_string, ha, isNumber_number,
      isNumber_error H _ h1]
  · intro h0 h1 h2 h2'
    obtain ⟨a, ha⟩ := (typeof_number_iff _).1 h0
    obtain ⟨b, hb⟩ := (typeof_number_iff _).1 h1
    simp [Rectangulo.constructor, base_constructor_string, ha, hb, isNumber_number,
      largo_por_defecto, h2, isNumber_error H _ h2']
  · intro h
    simp [Triangulo.constructor, base_constructor_string, isNumber_error H _ h]
  · intro h0 h1
    obtain ⟨a, ha⟩ := (typeof_number_iff _).1 h0
    simp [Triangulo.constructor, base_constructor_string, ha, isNumber_number,
      isNumber_error H _ h1]
  · intro h
    simp [Pentagono.constructor, base_constructor_string, isNumber_error H _ h]
  · intro hσ h
    simp [Hexagono.constructor, hσ, base_constructor_string, isNumber_error H _ h]
  · intro v
    exact ⟨rechazo_sin_fallo H v _, fun fallo => rechazo_con_fallo H v _ fallo⟩
  · intro guardada hσ
    simp [Hexagono.constructor, hσ]

/-- C1, instance: at program start `new Rectangulo(10, "ocho")` and `new Hexagono("diez")`
both fail with the `TypeError` of the validator. -/
theorem C1_construccion_rechaza_no_numeros_witness :
    Rectangulo.constructor anfitrionEjemplo [.number 10, .string "ocho"] Estado.inicial
      = (.error (.TypeError "ocho, no es un number"), ⟨none, 1⟩) ∧
    Hexagono.constructor anfitrionEjemplo [.string "diez"] Estado.inicial
      = (.error (.TypeError "diez, no es un number"), ⟨none, 1⟩) :=
  ⟨(C1_construccion_rechaza_no_numeros anfitrionEjemplo Estado.inicial
      [.number 10, .string "ocho"]).2.1.2.1 (by decide) (by decide),
   (C1_construccion_rechaza_no_numeros anfitrionEjemplo Estado.inicial
      [.string "diez"]).2.2.2.2.1 rfl (by decide)⟩

/-- C1 as stated fails twice.  Once `new Hexagono(10)` has run, `new Hexagono("siete")`
raises nothing and returns the stored instance.  And `new Circulo(x)`, for an object `x`
whose `toString` throws a `RangeError`, fails with that `RangeError`, not with a
`TypeError`. -/
theorem C1_hexagono_en_cache_no_valida :
    (Hexagono.constructor anfitrionEjemplo [.string "siete"]
        (Hexagono.constructor anfitrionEjemplo [.number 10] Estado.inicial).2).1
      = .ok ⟨"Hexágono", "id0", .hexagono 10⟩ ∧
    (JSValue.ajeno .objeto 0).typeof ≠ "number" ∧
    (Circulo.constructor anfitrionEjemplo [.ajeno .objeto 0] Estado.inicial).1
      = .error (.ajeno "RangeError" "x") ∧
    ¬ ∃ m, (Circulo.constructor anfitrionEjemplo [.ajeno .objeto 0] Estado.inicial).1
      = .error (.TypeError m) := by
  refine ⟨rfl, by decide, rfl, ?_⟩
  rintro ⟨m, h⟩
  exact absurd h (by simp [Circulo.constructor, FiguraGeometrica.constructor,
    Validacion.isString, Validacion.isNumber, Validacion.rechazo, param, anfitrionEjemplo,
    FalloDeTexto.error])

/-! ## Deserialisation and the factory -/

theorem circulo_constructor_number (H : Anfitrion) (r : JSNumber) (σ : Estado) :
    Circulo.constructor H [.number r] σ
      = (.ok ⟨"Círculo", H.idAzar σ.azar, .circulo r⟩, ⟨σ.instancia, σ.azar + 1⟩) := rfl

theorem rectangulo_constructor_number2 (H : Anfitrion) (w h : JSNumber) (σ : Estado) :
    Rectangulo.constructor H [.number w, .number h] σ
      = (.ok ⟨"Rectángulo", H.idAzar σ.azar, .rectangulo w h 0⟩,
          ⟨σ.instancia, σ.azar + 1⟩) := rfl

theorem rectangulo_constructor_number3 (H : Anfitrion) (w h d : JSNumber) (σ : Estado) :
    Rectangulo.constructor H [.number w, .number h, .number d] σ
      = (.ok ⟨"Rectángulo", H.idAzar σ.azar, .rectangulo w h d⟩,
          ⟨σ.instancia, σ.azar + 1⟩) := rfl

theorem triangulo_constructor_number (H : Anfitrion) (b h : JSNumber) (σ : Estado) :
    Triangulo.constructor H [.number b, .number h] σ
      = (.ok ⟨"Triángulo", H.idAzar σ.azar, .triangulo b h⟩,
          ⟨σ.instancia, σ.azar + 1⟩) := rfl

theorem pentagono_constructor_number (H : Anfitrion) (l : JSNumber) (σ : Estado) :
    Pentagono.constructor H [.number l] σ
      = (.ok ⟨"Pentágono", H.idAzar σ.azar, .pentagono l⟩, ⟨σ.instancia, σ.azar + 1⟩) := rfl

theorem circulo_constructor_resultado (H : Anfitrion) (args : List JSValue) (σ : Estado) :
    (∃ f, (Circulo.constructor H args σ).1 = .ok f) ∨
    ∃ e, (Circulo.constructor H args σ).1 = .error e ∧ ∀ m, e ≠ .Error m := by
  rcases isNumber_cases H (param args 0) with ⟨a, _, ha⟩ | ⟨_, ha⟩ <;>
    simp [Circulo.constructor, base_constructor_string, ha, rechazo_ne_Error]

theorem rectangulo_constructor_resultado (H : Anfitrion) (args : List JSValue) (σ : Estado) :
    (∃ f, (Rectangulo.constructor H args σ).1 = .ok f) ∨
    ∃ e, (Rectangulo.constructor H args σ).1 = .error e ∧ ∀ m, e ≠ .Error m := by
  rcases isNumber_cases H (param args 0) with ⟨a, _, ha⟩ | ⟨_, ha⟩ <;>
  rcases isNumber_cases H (param args 1) with ⟨b, _, hb⟩ | ⟨_, hb⟩ <;>
  rcases isNumber_cases H (if (param args 2).typeof = "undefined" then JSValue.number 0
      else param args 2) with ⟨c, _, hc⟩ | ⟨_, hc⟩ <;>
    simp [Rectangulo.constructor, base_constructor_string, largo_por_defecto, ha, hb, hc,
      rechazo_ne_Error]

theorem triangulo_constructor_resultado (H : Anfitrion) (args : List JSValue) (σ : Estado) :
    (∃ f, (Triangulo.constructor H args σ).1 = .ok f) ∨
    ∃ e, (Triangulo.constructor H args σ).1 = .error e ∧ ∀ m, e ≠ .Error m := by
  rcases isNumber_cases H (param args 0) with ⟨a, _, ha⟩ | ⟨_, ha⟩ <;>
  rcases isNumber_cases H (param args 1) with ⟨b, _, hb⟩ | ⟨_, hb⟩ <;>
    simp [Triangulo.constructor, base_constructor_string, ha, hb, rechazo_ne_Error]

theorem crearDesdeJSON_objeto (H : Anfitrion) (s : String) (σ : Estado)
    (campos : List (String × JSValue)) (hparse : H.parse s = .ok (.objeto campos)) :
    FiguraGeometrica.crearDesdeJSON H s σ
      = FiguraGeometrica.crearDesdeDatos H (.objeto campos) σ := by
  simp [FiguraGeometrica.crearDesdeJSON, hparse]

/-- C5: for a decoded record whose `tipo` is none of "circulo", "rectangulo",
"triangulo" (whatever it is, or absent), `crearDesdeJSON` fails with the error
"Tipo de figura no reconocido", builds nothing and leaves the state as it was; for
each of the three supported tags that error is never the outcome. -/
theorem C5_tipo_no_reconocido (H : Anfitrion) (s : String) (σ : Estado)
    (campos : List (String × JSValue)) (hparse : H.parse s = .ok (.objeto campos)) :
    ((campos.lookup "tipo" ≠ some (.string "circulo") ∧
        campos.lookup "tipo" ≠ some (.string "rectangulo") ∧
        campos.lookup "tipo" ≠ some (.string "triangulo")) →
      FiguraGeometrica.crearDesdeJSON H s σ
        = (.error (.Error "Tipo de figura no reconocido"), σ)) ∧
    ((campos.lookup "tipo" = some (.string "circulo") ∨
        campos.lookup "tipo" = some (.string "rectangulo") ∨
        campos.lookup "tipo" = some (.string "triangulo")) →
      (FiguraGeometrica.crearDesdeJSON H s σ).1
        ≠ .error (.Error "Tipo de figura no reconocido")) := by
  rw [crearDesdeJSON_objeto H s σ campos hparse]
  constructor
  · rintro ⟨h1, h2, h3⟩
    cases hl : campos.lookup "tipo" with
    | none => simp [FiguraGeometrica.crearDesdeDatos, propiedad, hl]
    | some v =>
      cases v with
      | string t =>
        have t1 : t ≠ "circulo" := fun h => h1 (by rw [hl, h])
        have t2 : t ≠ "rectangulo" := fun h => h2 (by rw [hl, h])
        have t3 : t ≠ "triangulo" := fun h => h3 (by rw [hl, h])
        simp [FiguraGeometrica.crearDesdeDatos, propiedad, hl, t1, t2, t3]
      | _ => simp [FiguraGeometrica.crearDesdeDatos, propiedad, hl]
  · rintro (h | h | h)
    · rcases circulo_constructor_resultado H
        [(campos.lookup "radio").getD .undefined] σ with ⟨f, hf⟩ | ⟨e, hm, he⟩ <;>
      simp [FiguraGeometrica.crearDesdeDatos, propiedad, h, *]
    · rcases rectangulo_constructor_resultado H
        [(campos.lookup "ancho").getD .undefined, (campos.lookup "alto").getD .undefined] σ
        with ⟨f, hf⟩ | ⟨e, hm, he⟩ <;>
      simp [FiguraGeometrica.crearDesdeDatos, propiedad, h, *]
    · rcases triangulo_constructor_resultado H
        [(campos.lookup "base").getD .undefined, (campos.lookup "altura").getD .undefined] σ
        with ⟨f, hf⟩ | ⟨e, hm, he⟩ <;>
      simp [FiguraGeometrica.crearDesdeDatos, propiedad, h, *]

/-- C5, instance: the text decoding to `{tipo: "pentagono", lado: 10}` is rejected. -/
theorem C5_tipo_no_reconocido_witness :
    FiguraGeometrica.crearDesdeJSON anfitrionEjemplo
        "\x7b\"tipo\":\"pentagono\",\"lado\":10\x7d" Estado.inicial
      = (.error (.Error "Tipo de figura no reconocido"), Estado.inicial) :=
  (C5_tipo_no_reconocido anfitrionEjemplo "\x7b\"tipo\":\"pentagono\",\"lado\":10\x7d"
    Estado.inicial [("tipo", .string "pentagono"), ("lado", .number 10)] rfl).1
    ⟨by simp [List.lookup], by simp [List.lookup], by simp [List.lookup]⟩

theorem describir_mismo (H : Anfitrion) (f g : FiguraGeometrica)
    (hn : f.nombre = g.nombre) (hf : f.forma = g.forma) :
    f.describir H = g.describir H ∧ f.calcularArea H = g.calcularArea H ∧
      f.calcularPerimetro = g.calcularPerimetro := by
  simp [FiguraGeometrica.describir, FiguraGeometrica.calcularArea,
    FiguraGeometrica.calcularPerimetro, hn, hf]

theorem param_cero (v : JSValue) (vs : List JSValue) : param (v :: vs) 0 = v := rfl

/-- C6 (amended): for each of the five tags and every argument list, `FabricaFiguras`
gives exactly the outcome of constructing the variant directly with those arguments in
the same state.  With numeric parameters the result has the name of the variant and
the given dimensions ("rectangulo" with depth 0 when two parameters are given), except
that a "hexagono" request made while `Hexagono.instancia` is set returns the
stored instance, whatever its side. -/
theorem C6_fabrica_igual_a_construccion (H : Anfitrion) (σ : Estado)
    (datos : List JSValue) (r w h d b s : JSNumber) :
    (FabricaFiguras H (.string "circulo") datos σ = comoValor (Circulo.constructor H datos σ) ∧
      FabricaFiguras H (.string "rectangulo") datos σ
        = comoValor (Rectangulo.constructor H datos σ) ∧
      FabricaFiguras H (.string "triangulo") datos σ
        = comoValor (Triangulo.constructor H datos σ) ∧
      FabricaFiguras H (.string "pentagono") datos σ
        = comoValor (Pentagono.constructor H datos σ) ∧
      FabricaFiguras H (.string "hexagono") datos σ
        = comoValor (Hexagono.constructor H datos σ)) ∧
    (FabricaFiguras H (.string "circulo") [.number r] σ
        = (.ok (.figura ⟨"Círculo", H.idAzar σ.azar, .circulo r⟩),
            ⟨σ.instancia, σ.azar + 1⟩) ∧
      FabricaFiguras H (.string "rectangulo") [.number w, .number h] σ
        = (.ok (.figura ⟨"Rectángulo", H.idAzar σ.azar, .rectangulo w h 0⟩),
            ⟨σ.instancia, σ.azar + 1⟩) ∧
      FabricaFiguras H (.string "rectangulo") [.number w, .number h, .number d] σ
        = (.ok (.figura ⟨"Rectángulo", H.idAzar σ.azar, .rectangulo w h d⟩),
            ⟨σ.instancia, σ.azar + 1⟩) ∧
      FabricaFiguras H (.string "triangulo") [.number b, .number h] σ
        = (.ok (.figura ⟨"Triángulo", H.idAzar σ.azar, .triangulo b h⟩),
            ⟨σ.instancia, σ.azar + 1⟩) ∧
      FabricaFiguras H (.string "pentagono") [.number s] σ
        = (.ok (.figura ⟨"Pentágono", H.idAzar σ.azar, .pentagono s⟩),
            ⟨σ.instancia, σ.azar + 1⟩)) ∧
    (σ.instancia = none →
      FabricaFiguras H (.string "hexagono") [.number s] σ
        = (.ok (.figura ⟨"Hexágono", H.idAzar σ.azar, .hexagono s⟩),
            ⟨some ⟨"Hexágono", H.idAzar σ.azar, .hexagono s⟩, σ.azar + 1⟩)) ∧
    (∀ guardada, σ.instancia = some guardada →
      FabricaFiguras H (.string "hexagono") [.number s] σ = (.ok (.figura guardada), σ)) := by
  refine ⟨⟨?_, ?_, ?_, ?_, ?_⟩, ⟨rfl, rfl, rfl, rfl, rfl⟩, ?_, ?_⟩
  · simp [FabricaFiguras, comoValor, Circulo.constructor, param_cero]
  · have e0 : ∀ a b c : JSValue, param [a, b, c] 0 = a := fun _ _ _ => rfl
    have e1 : ∀ a b c : JSValue, param [a, b, c] 1 = b := fun _ _ _ => rfl
    have e2 : ∀ a b c : JSValue, param [a, b, c] 2 = c := fun _ _ _ => rfl
    cases hd : param datos 2 <;>
      simp [FabricaFiguras, comoValor, Rectangulo.constructor, e0, e1, e2, hd]
  · have e0 : ∀ a b : JSValue, param [a, b] 0 = a := fun _ _ => rfl
    have e1 : ∀ a b : JSValue, param [a, b] 1 = b := fun _ _ => rfl
    simp [FabricaFiguras, comoValor, Triangulo.constructor, e0, e1]
  · simp [FabricaFiguras, comoValor, Pentagono.constructor, param_cero]
  · simp [FabricaFiguras, comoValor, Hexagono.constructor, param_cero]
  · intro hσ
    simp [FabricaFiguras, Hexagono.constructor, hσ, base_constructor_string, param_cero,
      isNumber_number, Except.map]
  · intro guardada hσ
    simp [FabricaFiguras, Hexagono.constructor, hσ, Except.map]

/-- C6, instance: `FabricaFiguras("hexagono", 10)` at program start. -/
theorem C6_fabrica_igual_a_construccion_witness :
    FabricaFiguras anfitrionEjemplo (.string "hexagono") [.number 10] Estado.inicial
      = (.ok (.figura ⟨"Hexágono", anfitrionEjemplo.idAzar 0, .hexagono 10⟩),
          ⟨some ⟨"Hexágono", anfitrionEjemplo.idAzar 0, .hexagono 10⟩, 1⟩) :=
  (C6_fabrica_igual_a_construccion anfitrionEjemplo Estado.inicial [] 0 0 0 0 0 10).2.2.1 rfl

/-- C6 as stated fails for "hexagono": after `new Hexagono(10)`, the call
`FabricaFiguras("hexagono", 7)` returns a shape whose side is 10, not 7. -/
theorem C6_fabrica_hexagono_en_cache :
    (FabricaFiguras anfitrionEjemplo (.string "hexagono") [.number 7]
        (Hexagono.constructor anfitrionEjemplo [.number 10] Estado.inicial).2).1
      = .ok (.figura ⟨"Hexágono", "id0", .hexagono 10⟩) ∧
    Forma.hexagono 10 ≠ Forma.hexagono 7 :=
  ⟨rfl, by decide⟩

/-- C7, the code at an unknown tag: `FabricaFiguras("cuadrado", ...)` raises nothing
and returns `undefined`, in every state and for every argument list. -/
theorem C7_fabrica_sin_default (H : Anfitrion) (datos : List JSValue) (σ : Estado) :
    FabricaFiguras H (.string "cuadrado") datos σ = (.ok .undefined, σ) := by
  simp [FabricaFiguras]

/-! ## The collection -/

/-- C8: `agregar(x)` returns true exactly when `x instanceof FiguraGeometrica`; then
the stored sequence is the old one followed by `x` (one longer, the old elements in
place, whether or not `x` was already there); otherwise it returns false and the
collection is unchanged. -/
theorem C8_agregar (c : ColeccionFiguras) (x : JSValue) :
    (c.agregar x).1 = x.instanceofFiguraGeometrica ∧
    (∀ f, x = .figura f →
      (c.agregar x).2.figuras = c.figuras ++ [f] ∧
      (c.agregar x).2.figuras.length = c.figuras.length + 1 ∧
      (c.agregar x).2.figuras.take c.figuras.length = c.figuras) ∧
    (x.instanceofFiguraGeometrica = false → c.agregar x = (false, c)) := by
  cases x <;> simp [ColeccionFiguras.agregar, JSValue.instanceofFiguraGeometrica]

/-- C8, instance: adding a shape that is already in the collection, and adding a
text. -/
theorem C8_agregar_witness :
    ((ColeccionFiguras.mk [⟨"Círculo", "id0", .circulo 5⟩]).agregar
        (.figura ⟨"Círculo", "id0", .circulo 5⟩)).2.figuras
      = [⟨"Círculo", "id0", .circulo 5⟩] ++ [⟨"Círculo", "id0", .circulo 5⟩] ∧
    (ColeccionFiguras.mk [⟨"Círculo", "id0", .circulo 5⟩]).agregar (.string "Círculo")
      = (false, ⟨[⟨"Círculo", "id0", .circulo 5⟩]⟩) :=
  ⟨((C8_agregar ⟨[⟨"Círculo", "id0", .circulo 5⟩]⟩
      (.figura ⟨"Círculo", "id0", .circulo 5⟩)).2.1 _ rfl).1,
   (C8_agregar ⟨[⟨"Círculo", "id0", .circulo 5⟩]⟩ (.string "Círculo")).2.2 rfl⟩

/-- C9: `filtrarPorTipo(t)` for a text `t` returns the stored shapes whose `nombre`
equals `t` and no others, as a subsequence of the collection in its order, each with
the multiplicity it has in the collection. -/
theorem C9_filtrarPorTipo (c : ColeccionFiguras) (t : String) :
    c.filtrarPorTipo (.string t) = c.figuras.filter (fun f => decide (f.nombre = t)) ∧
    (∀ f, f ∈ c.filtrarPorTipo (.string t) ↔ f ∈ c.figuras ∧ f.nombre = t) ∧
    (c.filtrarPorTipo (.string t)).Sublist c.figuras ∧
    (∀ f, f.nombre = t → (c.filtrarPorTipo (.string t)).count f = c.figuras.count f) := by
  have h : c.filtrarPorTipo (.string t) = c.figuras.filter (fun f => decide (f.nombre = t)) :=
    rfl
  rw [h]
  refine ⟨rfl, fun f => by simp [List.mem_filter], List.filter_sublist _, fun f hf => ?_⟩
  rw [List.count_filter]
  simpa using hf

/-- C9, instance: the rectangle among a circle and a rectangle. -/
theorem C9_filtrarPorTipo_witness :
    ((ColeccionFiguras.mk [⟨"Círculo", "id0", .circulo 5⟩,
        ⟨"Rectángulo", "id1", .rectangulo 10 8 0⟩]).filtrarPorTipo (.string "Rectángulo")).count
        ⟨"Rectángulo", "id1", .rectangulo 10 8 0⟩
      = (ColeccionFiguras.mk [⟨"Círculo", "id0", .circulo 5⟩,
        ⟨"Rectángulo", "id1", .rectangulo 10 8 0⟩]).figuras.count
        ⟨"Rectángulo", "id1", .rectangulo 10 8 0⟩ :=
  (C9_filtrarPorTipo ⟨[⟨"Círculo", "id0", .circulo 5⟩,
    ⟨"Rectángulo", "id1", .rectangulo 10 8 0⟩]⟩ "Rectángulo").2.2.2 _ rfl

theorem mensaje_mayor_ne_empate (x y : String) :
    x ++ " es más grande que " ++ y ≠ "Ambas figuras tienen la misma área" := by
  intro h
  have hd := congrArg String.data h
  simp only [String.data_append] at hd
  have hinf : (" es más grande que ".data) <:+: ("Ambas figuras tienen la misma área".data) :=
    ⟨x.data, y.data, hd⟩
  revert hinf
  decide

/-- C3 (amended): for shapes `a`, `b` with areas `A`, `B`, `compararAreas(a, b)` returns
the tie message exactly when neither area is strictly greater than the other, that is
when `A == B` or one of the areas is `NaN`; when `A > B` it returns
"<a.nombre> es más grande que <b.nombre>" and when `A < B` it returns
"<b.nombre> es más grande que <a.nombre>". -/
theorem C3_compararAreas (H : Anfitrion) (a b : FiguraGeometrica) (A B : JSNumber)
    (ha : a.calcularArea H = .ok A) (hb : b.calcularArea H = .ok B) :
    (ColeccionFiguras.compararAreas H a b = .ok "Ambas figuras tienen la misma área" ↔
      (JSNumber.eq A B = true ∨ A = nan ∨ B = nan)) ∧
    (JSNumber.gt A B = true →
      ColeccionFiguras.compararAreas H a b
        = .ok (a.nombre ++ " es más grande que " ++ b.nombre)) ∧
    (JSNumber.lt A B = true →
      ColeccionFiguras.compararAreas H a b
        = .ok (b.nombre ++ " es más grande que " ++ a.nombre)) := by
  have hgt : JSNumber.gt A B = true →
      ColeccionFiguras.compararAreas H a b
        = .ok (a.nombre ++ " es más grande que " ++ b.nombre) := by
    intro h
    simp [ColeccionFiguras.compararAreas, ha, hb, h]
  have hlt : JSNumber.lt A B = true →
      ColeccionFiguras.compararAreas H a b
        = .ok (b.nombre ++ " es más grande que " ++ a.nombre) := by
    intro h
    have hng : JSNumber.gt A B = false := JSNumber.lt_asimetrica A B h
    simp [ColeccionFiguras.compararAreas, ha, hb, h, hng]
  refine ⟨?_, hgt, hlt⟩
  rw [← JSNumber.ni_mayor_ni_menor]
  constructor
  · intro h
    by_cases h1 : JSNumber.gt A B = true
    · rw [hgt h1] at h
      exact absurd (Except.ok.inj h) (mensaje_mayor_ne_empate _ _)
    · by_cases h2 : JSNumber.lt A B = true
      · rw [hlt h2] at h
        exact absurd (Except.ok.inj h) (mensaje_mayor_ne_empate _ _)
      · exact ⟨by simpa using h1, by simpa using h2⟩
  · rintro ⟨h1, h2⟩
    simp [ColeccionFiguras.compararAreas, ha, hb, h1, h2]

/-- C3, instance: `new Rectangulo(10, 8)` against `new Rectangulo(1, 1)`, areas 80
and 1: the first is named as the larger. -/
theorem C3_compararAreas_witness :
    ColeccionFiguras.compararAreas anfitrionEjemplo
        ⟨"Rectángulo", "id0", .rectangulo 10 8 0⟩ ⟨"Rectángulo", "id1", .rectangulo 1 1 0⟩
      = .ok ("Rectángulo" ++ " es más grande que " ++ "Rectángulo") :=
  (C3_compararAreas anfitrionEjemplo ⟨"Rectángulo", "id0", .rectangulo 10 8 0⟩
    ⟨"Rectángulo", "id1", .rectangulo 1 1 0⟩ (fin false ((10 * 8 : ℕ) : ℚ))
    (fin false ((1 * 1 : ℕ) : ℚ))
    (congrArg Except.ok (JSNumber.mul_nat 10 8 (by norm_num)))
    (congrArg Except.ok (JSNumber.mul_nat 1 1 (by norm_num)))).2.1
    (by rw [JSNumber.gt, JSNumber.lt_nat]; decide)

/-- C3 as stated fails when an area is `NaN`: for `new Circulo(NaN)` and
`new Rectangulo(10, 8)` the tie message is returned although the areas are not `==`
(`NaN` is `==` to nothing). -/
theorem C3_empate_con_NaN :
    ColeccionFiguras.compararAreas anfitrionEjemplo
        ⟨"Círculo", "id0", .circulo nan⟩ ⟨"Rectángulo", "id1", .rectangulo 10 8 0⟩
      = .ok "Ambas figuras tienen la misma área" ∧
    FiguraGeometrica.calcularArea anfitrionEjemplo ⟨"Círculo", "id0", .circulo nan⟩ = .ok nan ∧
    JSNumber.eq nan (Rectangulo.calcularArea 10 8) = false := by
  refine ⟨?_, ?_, JSNumber.eq_nan_left _⟩
  · simp [ColeccionFiguras.compararAreas, FiguraGeometrica.calcularArea, Circulo.calcularArea,
      JSNumber.mul_nan_right, JSNumber.gt, JSNumber.lt_nan_right, JSNumber.lt_nan_left]
  · simp [FiguraGeometrica.calcularArea, Circulo.calcularArea, JSNumber.mul_nan_right]

theorem agregar_figura (c : ColeccionFiguras) (f : FiguraGeometrica) :
    c.agregar (.figura f) = (true, ⟨c.figuras ++ [f]⟩) := rfl

theorem agregarTodas_desde (xs : List FiguraGeometrica) (c : ColeccionFiguras) :
    (xs.foldl (fun c f => (c.agregar (.figura f)).2) c).figuras = c.figuras ++ xs := by
  induction xs generalizing c with
  | nil => simp
  | cons x xs ih =>
    rw [List.foldl_cons, ih, agregar_figura]
    simp

theorem agregarTodas_figuras (xs : List FiguraGeometrica) : (agregarTodas xs).figuras = xs := by
  simp [agregarTodas, agregarTodas_desde, ColeccionFiguras.constructor]

theorem calcularArea_concreta (H : Anfitrion) (f : FiguraGeometrica) (h : f.forma ≠ .base) :
    ∃ A, f.calcularArea H = .ok A := by
  rcases f with ⟨n, i, forma⟩
  cases forma <;> first | exact absurd rfl h | exact ⟨_, rfl⟩

theorem areas_concretas (H : Anfitrion) (xs : List FiguraGeometrica)
    (hxs : ∀ f ∈ xs, f.forma ≠ .base) :
    ∃ areas, List.Forall₂ (fun f A => f.calcularArea H = .ok A) xs areas := by
  induction xs with
  | nil => exact ⟨[], List.Forall₂.nil⟩
  | cons x xs ih =>
    obtain ⟨A, hA⟩ := calcularArea_concreta H x (hxs x (List.mem_cons_self _ _))
    obtain ⟨as, has⟩ := ih (fun f hf => hxs f (List.mem_cons_of_mem _ hf))
    exact ⟨A :: as, List.Forall₂.cons hA has⟩

theorem reduce_cons_ok (f : JSNumber → FiguraGeometrica → Except JSError JSNumber)
    (x : FiguraGeometrica) (xs : List FiguraGeometrica) (total total₁ : JSNumber)
    (h : f total x = .ok total₁) :
    ColeccionFiguras.reduce f (x :: xs) total = ColeccionFiguras.reduce f xs total₁ := by
  simp [ColeccionFiguras.reduce, h]

/-- The reduction adds the areas from left to right, starting from `total`. -/
theorem reduce_areas (H : Anfitrion) (xs : List FiguraGeometrica) (areas : List JSNumber)
    (h : List.Forall₂ (fun f A => f.calcularArea H = .ok A) xs areas) (total : JSNumber) :
    ColeccionFiguras.reduce
        (fun total figura => (figura.calcularArea H).map (fun a => total + a)) xs total
      = .ok (areas.foldl (fun t A => t + A) total) := by
  induction h generalizing total with
  | nil => rfl
  | cons hA _ ih =>
    rw [reduce_cons_ok _ _ _ total _ (by simp only [hA]; rfl), ih]
    rfl

/-- With natural-number areas whose sum stays within `2^53` every partial sum is
exact. -/
theorem reduce_naturales (H : Anfitrion) (n : FiguraGeometrica → ℕ)
    (xs : List FiguraGeometrica)
    (h : ∀ f ∈ xs, f.calcularArea H = .ok (fin false (n f))) (t : ℕ)
    (hsum : t + (xs.map n).sum ≤ 2 ^ 53) :
    ColeccionFiguras.reduce
        (fun total figura => (figura.calcularArea H).map (fun a => total + a)) xs
        (fin false t)
      = .ok (fin false ((t + (xs.map n).sum : ℕ) : ℚ)) := by
  induction xs generalizing t with
  | nil => simp [ColeccionFiguras.reduce]
  | cons x xs ih =>
    have hx := h x (List.mem_cons_self _ _)
    simp only [List.map_cons, List.sum_cons] at hsum
    have hstep : (fin false (t : ℚ) : JSNumber) + fin false (n x)
        = fin false ((t + n x : ℕ) : ℚ) := JSNumber.add_nat t (n x) (by omega)
    rw [reduce_cons_ok _ _ _ _ (fin false ((t + n x : ℕ) : ℚ))
      (by simp only [hx]; exact congrArg Except.ok hstep),
      ih (fun f hf => h f (List.mem_cons_of_mem _ hf)) (t + n x) (by omega)]
    simp [Nat.add_assoc]

/-- C2 (amended): for every finite sequence of shapes of the five variants added to a
fresh collection, the collection holds them in that order and `calcularAreaTotal()` is
their areas added from left to right starting from 0 (so 0 for the empty collection);
when the areas are natural numbers with sum at most `2^53`, the total is that sum and
every permuted order of insertion gives the same total. -/
theorem C2_area_total (H : Anfitrion) (xs : List FiguraGeometrica)
    (hxs : ∀ f ∈ xs, f.forma ≠ .base) :
    (agregarTodas xs).figuras = xs ∧
    (∃ areas, List.Forall₂ (fun f A => f.calcularArea H = .ok A) xs areas ∧
      (agregarTodas xs).calcularAreaTotal H = .ok (areas.foldl (fun t A => t + A) 0)) ∧
    (agregarTodas []).calcularAreaTotal H = .ok 0 ∧
    (∀ n : FiguraGeometrica → ℕ, (∀ f ∈ xs, f.calcularArea H = .ok (fin false (n f))) →
      (xs.map n).sum ≤ 2 ^ 53 →
      ∀ ys, ys.Perm xs →
        (agregarTodas ys).calcularAreaTotal H = .ok (fin false (((xs.map n).sum : ℕ) : ℚ))) := by
  refine ⟨agregarTodas_figuras xs, ?_, rfl, ?_⟩
  · obtain ⟨areas, h⟩ := areas_concretas H xs hxs
    refine ⟨areas, h, ?_⟩
    rw [ColeccionFiguras.calcularAreaTotal, agregarTodas_figuras]
    exact reduce_areas H xs areas h 0
  · intro n hn hsum ys hperm
    have hsumeq : (ys.map n).sum = (xs.map n).sum := (hperm.map n).sum_eq
    have h0 := reduce_naturales H n ys (fun f hf => hn f (hperm.mem_iff.1 hf)) 0
      (by omega)
    rw [ColeccionFiguras.calcularAreaTotal, agregarTodas_figuras]
    simp only [Nat.zero_add, hsumeq] at h0
    simpa using h0

/-- C2, instance: `new Rectangulo(10, 8)` and `new Rectangulo(6, 6)`, areas 80 and 36,
added in the opposite order, total 116. -/
theorem C2_area_total_witness :
    (agregarTodas [⟨"Rectángulo", "id1", .rectangulo 6 6 0⟩,
        ⟨"Rectángulo", "id0", .rectangulo 10 8 0⟩]).calcularAreaTotal anfitrionEjemplo
      = .ok (fin false ((116 : ℕ) : ℚ)) :=
  (C2_area_total anfitrionEjemplo
    [⟨"Rectángulo", "id0", .rectangulo 10 8 0⟩, ⟨"Rectángulo", "id1", .rectangulo 6 6 0⟩]
    (by simp)).2.2.2
    (fun f => if f.id = "id0" then 80 else 36)
    (by
      intro f hf
      simp only [List.mem_cons, List.mem_singleton, List.not_mem_nil, or_false] at hf
      rcases hf with rfl | rfl
      · exact congrArg Except.ok (JSNumber.mul_nat 10 8 (by norm_num))
      · exact congrArg Except.ok (JSNumber.mul_nat 6 6 (by norm_num)))
    (by decide) _ (List.Perm.swap _ _ _)

theorem cero_eq : (0 : JSNumber) = fin false 0 := by
  show JSNumber.ofNat 0 = _
  simp [JSNumber.ofNat]

theorem mul_grande_uno : (fin false 9007199254740992 : JSNumber) * fin false 1
    = fin false 9007199254740992 := by
  have := JSNumber.mul_nat 9007199254740992 1 (by norm_num)
  simpa using this

theorem mul_uno_uno : (fin false 1 : JSNumber) * fin false 1 = fin false 1 := by
  have := JSNumber.mul_nat 1 1 (by norm_num)
  simpa using this

theorem add_cero_grande : (fin false 0 : JSNumber) + fin false 9007199254740992
    = fin false 9007199254740992 := by
  have := JSNumber.add_nat 0 9007199254740992 (by norm_num)
  simpa using this

theorem add_cero_uno : (fin false 0 : JSNumber) + fin false 1 = fin false 1 := by
  have := JSNumber.add_nat 0 1 (by norm_num)
  simpa using this

theorem add_uno_uno : (fin false 1 : JSNumber) + fin false 1 = fin false 2 := by
  have := JSNumber.add_nat 1 1 (by norm_num)
  norm_num at this
  exact this

theorem area_rectangulo_grande (H : Anfitrion) (i : String) (l : JSNumber) :
    FiguraGeometrica.calcularArea H
      ⟨"Rectángulo", i, .rectangulo (fin false 9007199254740992) (fin false 1) l⟩
      = .ok (fin false 9007199254740992) := by
  simp only [FiguraGeometrica.calcularArea, Rectangulo.calcularArea, mul_grande_uno]

theorem area_rectangulo_unidad (H : Anfitrion) (i : String) (l : JSNumber) :
    FiguraGeometrica.calcularArea H
      ⟨"Rectángulo", i, .rectangulo (fin false 1) (fin false 1) l⟩
      = .ok (fin false 1) := by
  simp only [FiguraGeometrica.calcularArea, Rectangulo.calcularArea, mul_uno_uno]

/-- C2 as stated fails for the order of insertion: three rectangles of areas `2^53`, 1
and 1 total `2^53` when the large one is added first and `2^53 + 2` when it is added
last. -/
theorem C2_total_depende_del_orden :
    List.Perm
      [(⟨"Rectángulo", "id1", .rectangulo (fin false 1) (fin false 1) 0⟩ : FiguraGeometrica),
        ⟨"Rectángulo", "id2", .rectangulo (fin false 1) (fin false 1) 0⟩,
        ⟨"Rectángulo", "id0", .rectangulo (fin false 9007199254740992) (fin false 1) 0⟩]
      [⟨"Rectángulo", "id0", .rectangulo (fin false 9007199254740992) (fin false 1) 0⟩,
        ⟨"Rectángulo", "id1", .rectangulo (fin false 1) (fin false 1) 0⟩,
        ⟨"Rectángulo", "id2", .rectangulo (fin false 1) (fin false 1) 0⟩] ∧
    (agregarTodas
        [⟨"Rectángulo", "id0", .rectangulo (fin false 9007199254740992) (fin false 1) 0⟩,
          ⟨"Rectángulo", "id1", .rectangulo (fin false 1) (fin false 1) 0⟩,
          ⟨"Rectángulo", "id2", .rectangulo (fin false 1) (fin false 1) 0⟩]).calcularAreaTotal
        anfitrionEjemplo = .ok (fin false 9007199254740992) ∧
    (agregarTodas
        [⟨"Rectángulo", "id1", .rectangulo (fin false 1) (fin false 1) 0⟩,
          ⟨"Rectángulo", "id2", .rectangulo (fin false 1) (fin false 1) 0⟩,
          ⟨"Rectángulo", "id0", .rectangulo (fin false 9007199254740992) (fin false 1) 0⟩]).calcularAreaTotal
        anfitrionEjemplo = .ok (fin false 9007199254740994) ∧
    (fin false 9007199254740992 : JSNumber) ≠ fin false 9007199254740994 := by
  refine ⟨?_, ?_, ?_, ?_⟩
  · exact @List.perm_append_comm _ [_, _] [_]
  · rw [ColeccionFiguras.calcularAreaTotal, agregarTodas_figuras, cero_eq,
      reduce_cons_ok _ _ _ _ (fin false 9007199254740992)
        (by rw [area_rectangulo_grande]; exact congrArg Except.ok add_cero_grande),
      reduce_cons_ok _ _ _ _ (fin false 9007199254740992)
        (by rw [area_rectangulo_unidad]; exact congrArg Except.ok JSNumber.add_uno_absorbido),
      reduce_cons_ok _ _ _ _ (fin false 9007199254740992)
        (by rw [area_rectangulo_unidad]; exact congrArg Except.ok JSNumber.add_uno_absorbido)]
    rfl
  · rw [ColeccionFiguras.calcularAreaTotal, agregarTodas_figuras, cero_eq,
      reduce_cons_ok _ _ _ _ (fin false 1)
        (by rw [area_rectangulo_unidad]; exact congrArg Except.ok add_cero_uno),
      reduce_cons_ok _ _ _ _ (fin false 2)
        (by rw [area_rectangulo_unidad]; exact congrArg Except.ok add_uno_uno),
      reduce_cons_ok _ _ _ _ (fin false 9007199254740994)
        (by rw [area_rectangulo_grande]; exact congrArg Except.ok JSNumber.add_dos_exacto)]
    rfl
  · intro h
    have := (JSNumber.fin.inj h).2
    norm_num at this

/-! ## Rectangulo.dibujarFiguraASCII -/

theorem literal_eq (n : ℕ) : (OfNat.ofNat n : JSNumber) = fin false (n : ℚ) := rfl

theorem repetir_succ (s : String) (n : ℕ) : repetir s (n + 1) = s ++ repetir s n := rfl

theorem repetir_length (s : String) (n : ℕ) : (repetir s n).length = n * s.length := by
  induction n with
  | zero => simp [repetir]
  | succ n ih => rw [repetir_succ, String.length_append, ih]; ring

theorem concatenar_ok (H : Anfitrion) (a b : String)
    (h : a.length + b.length ≤ H.longitudMaxima) :
    Rectangulo.concatenar H a b = .ok (a ++ b) := by
  simp [Rectangulo.concatenar, String.length_append, h]

theorem concatenar_excede (H : Anfitrion) (a b : String)
    (h : H.longitudMaxima < a.length + b.length) :
    Rectangulo.concatenar H a b = .error H.textoExcedido := by
  simp [Rectangulo.concatenar, String.length_append, h]

/-- The inner loop started at column `x ≤ w` appends the remaining `w - x` markers, when
the row fits in a text. -/
theorem filaDesde_nat (H : Anfitrion) (altura y : JSNumber) (w : ℕ) (hw : w ≤ 2 ^ 53) :
    ∀ (fuel x : ℕ) (fila : String), x ≤ w → w - x < fuel →
      fila.length + 2 * (w - x) ≤ H.longitudMaxima →
      Rectangulo.filaDesde H (fin false w) altura y fuel (fin false x) fila
        = some (.ok (fila ++ repetir "# " (w - x))) := by
  intro fuel
  induction fuel with
  | zero => intro x fila _ h; omega
  | succ fuel ih =>
    intro x fila hx hfuel hcabe
    rw [Rectangulo.filaDesde, JSNumber.lt_nat]
    by_cases hlt : x < w
    · have hstep : (fin false (x : ℚ) : JSNumber) + 1 = fin false ((x + 1 : ℕ) : ℚ) := by
        rw [literal_eq 1]
        exact JSNumber.add_nat x 1 (by omega)
      have hrest : w - x = (w - (x + 1)) + 1 := by omega
      have hdos : ("# " : String).length = 2 := rfl
      have hcat : Rectangulo.concatenar H fila "# " = .ok (fila ++ "# ") :=
        concatenar_ok H fila "# " (by rw [hdos]; omega)
      simp only [hlt, decide_True, if_true, ite_self, hstep, hcat]
      rw [ih (x + 1) (fila ++ "# ") (by omega) (by omega)
        (by rw [String.length_append, hdos]; omega), hrest, repetir_succ,
        String.append_assoc]
    · have hxw : w - x = 0 := by omega
      simp [hlt, hxw, repetir]

/-- The outer loop started at row `y ≤ h` appends the remaining `h - y` rows, when the
result fits in a text. -/
theorem filasDesde_nat (H : Anfitrion) (w h : ℕ) (hw : w ≤ 2 ^ 53) (hh : h ≤ 2 ^ 53) :
    ∀ (fuel y : ℕ) (resultado : String), y ≤ h → w + (h - y) < fuel →
      resultado.length + (2 * w + 1) * (h - y) ≤ H.longitudMaxima →
      Rectangulo.filasDesde H (fin false w) (fin false h) fuel (fin false y) resultado
        = some (.ok (resultado ++ repetir (repetir "# " w ++ "\n") (h - y))) := by
  intro fuel
  induction fuel with
  | zero => intro y resultado _ h; omega
  | succ fuel ih =>
    intro y resultado hy hfuel hcabe
    rw [Rectangulo.filasDesde, JSNumber.lt_nat]
    by_cases hlt : y < h
    · have hstep : (fin false (y : ℚ) : JSNumber) + 1 = fin false ((y + 1 : ℕ) : ℚ) := by
        rw [literal_eq 1]
        exact JSNumber.add_nat y 1 (by omega)
      have hrest : h - y = (h - (y + 1)) + 1 := by omega
      have hcabe' : resultado.length + (2 * w + 1) + (2 * w + 1) * (h - (y + 1))
          ≤ H.longitudMaxima := by
        rw [hrest] at hcabe
        linarith [hcabe, mul_add (2 * w + 1) (h - (y + 1)) 1]
      have hfila : Rectangulo.filaDesde H (fin false w) (fin false h) (fin false y)
          (fuel + 1) 0 "" = some (.ok (repetir "# " w)) := by
        have := filaDesde_nat H (fin false h) (fin false y) w hw (fuel + 1) 0 "" (by omega)
          (by omega) (by simp only [String.length, List.length_nil]; omega)
        rw [literal_eq 0]
        simpa using this
      have hdos : ("# " : String).length = 2 := rfl
      have huno : ("\n" : String).length = 1 := rfl
      have hlinea : Rectangulo.concatenar H (repetir "# " w) "\n"
          = .ok (repetir "# " w ++ "\n") :=
        concatenar_ok H _ _ (by rw [repetir_length, hdos, huno]; omega)
      have hlong : (repetir "# " w ++ "\n").length = 2 * w + 1 := by
        rw [String.length_append, repetir_length, hdos, huno]; ring
      have hcat : Rectangulo.concatenar H resultado (repetir "# " w ++ "\n")
          = .ok (resultado ++ (repetir "# " w ++ "\n")) :=
        concatenar_ok H _ _ (by rw [hlong]; omega)
      simp only [hlt, decide_True, if_true, hfila, hstep, hlinea, hcat]
      rw [ih (y + 1) _ (by omega) (by omega)
        (by rw [String.length_append, hlong]; omega), hrest, repetir_succ,
        String.append_assoc]
    · have hyh : h - y = 0 := by omega
      simp [hlt, hyh, repetir]

/-- The inner loop started at column `x ≤ w` with a row that the remaining markers make
too long is interrupted. -/
theorem filaDesde_excede (H : Anfitrion) (altura y : JSNumber) (w : ℕ) (hw : w ≤ 2 ^ 53) :
    ∀ (fuel x : ℕ) (fila : String), x ≤ w → w - x < fuel →
      fila.length ≤ H.longitudMaxima → H.longitudMaxima < fila.length + 2 * (w - x) →
      Rectangulo.filaDesde H (fin false w) altura y fuel (fin false x) fila
        = some (.error H.textoExcedido) := by
  intro fuel
  induction fuel with
  | zero => intro x fila _ h; omega
  | succ fuel ih =>
    intro x fila hx hfuel hcabe hexcede
    have hlt : x < w := by omega
    have hstep : (fin false (x : ℚ) : JSNumber) + 1 = fin false ((x + 1 : ℕ) : ℚ) := by
      rw [literal_eq 1]
      exact JSNumber.add_nat x 1 (by omega)
    have hdos : ("# " : String).length = 2 := rfl
    rw [Rectangulo.filaDesde, JSNumber.lt_nat]
    simp only [hlt, decide_True, if_true, ite_self, hstep]
    rcases Nat.lt_or_ge H.longitudMaxima (fila.length + 2) with h | h
    · rw [concatenar_excede H fila "# " (by rw [hdos]; exact h)]
    · rw [concatenar_ok H fila "# " (by rw [hdos]; exact h)]
      exact ih (x + 1) (fila ++ "# ") (by omega) (by omega)
        (by rw [String.length_append, hdos]; exact h)
        (by rw [String.length_append, hdos]; omega)

/-- The outer loop started at row `y ≤ h` with a result that the remaining rows make too
long is interrupted. -/
theorem filasDesde_excede (H : Anfitrion) (w h : ℕ) (hw : w ≤ 2 ^ 53) (hh : h ≤ 2 ^ 53) :
    ∀ (fuel y : ℕ) (resultado : String), y ≤ h → w + (h - y) < fuel →
      resultado.length ≤ H.longitudMaxima →
      H.longitudMaxima < resultado.length + (2 * w + 1) * (h - y) →
      Rectangulo.filasDesde H (fin false w) (fin false h) fuel (fin false y) resultado
        = some (.error H.textoExcedido) := by
  intro fuel
  induction fuel with
  | zero => intro y resultado _ h; omega
  | succ fuel ih =>
    intro y resultado hy hfuel hcabe hexcede
    have hlt : y < h := by
      rcases Nat.lt_or_ge y h with h1 | h1
      · exact h1
      · have h0 : h - y = 0 := by omega
        rw [h0, Nat.mul_zero, Nat.add_zero] at hexcede
        omega
    have hstep : (fin false (y : ℚ) : JSNumber) + 1 = fin false ((y + 1 : ℕ) : ℚ) := by
      rw [literal_eq 1]
      exact JSNumber.add_nat y 1 (by omega)
    have hrest : h - y = (h - (y + 1)) + 1 := by omega
    have hexcede' : H.longitudMaxima
        < resultado.length + (2 * w + 1) + (2 * w + 1) * (h - (y + 1)) := by
      rw [hrest] at hexcede
      linarith [hexcede, mul_add (2 * w + 1) (h - (y + 1)) 1]
    have hdos : ("# " : String).length = 2 := rfl
    have huno : ("\n" : String).length = 1 := rfl
    have hvacio : ("" : String).length = 0 := rfl
    rw [Rectangulo.filasDesde, JSNumber.lt_nat]
    simp only [hlt, decide_True, if_true]
    rcases Nat.lt_or_ge H.longitudMaxima (2 * w) with h2 | h2
    · have hfila : Rectangulo.filaDesde H (fin false w) (fin false h) (fin false y)
          (fuel + 1) 0 "" = some (.error H.textoExcedido) := by
        have := filaDesde_excede H (fin false h) (fin false y) w hw (fuel + 1) 0 ""
          (by omega) (by omega) (by rw [hvacio]; omega) (by rw [hvacio]; omega)
        rw [literal_eq 0]
        simpa using this
      simp only [hfila]
    · have hfila : Rectangulo.filaDesde H (fin false w) (fin false h) (fin false y)
          (fuel + 1) 0 "" = some (.ok (repetir "# " w)) := by
        have := filaDesde_nat H (fin false h) (fin false y) w hw (fuel + 1) 0 "" (by omega)
          (by omega) (by rw [hvacio]; omega)
        rw [literal_eq 0]
        simpa using this
      simp only [hfila]
      rcases Nat.lt_or_ge H.longitudMaxima (2 * w + 1) with h3 | h3
      · rw [concatenar_excede H (repetir "# " w) "\n"
          (by rw [repetir_length, hdos, huno]; omega)]
      · rw [concatenar_ok H (repetir "# " w) "\n"
          (by rw [repetir_length, hdos, huno]; omega)]
        simp only []
        have hlong : (repetir "# " w ++ "\n").length = 2 * w + 1 := by
          rw [String.length_append, repetir_length, hdos, huno]; ring
        rcases Nat.lt_or_ge H.longitudMaxima (resultado.length + (2 * w + 1)) with h4 | h4
        · rw [concatenar_excede H resultado (repetir "# " w ++ "\n")
            (by rw [hlong]; exact h4)]
        · rw [concatenar_ok H resultado (repetir "# " w ++ "\n")
            (by rw [hlong]; exact h4)]
          simp only [hstep]
          exact ih (y + 1) _ (by omega) (by omega)
            (by rw [String.length_append, hlong]; exact h4)
            (by rw [String.length_append, hlong]; exact hexcede')

/-- C10 (amended): for a Rectangulo whose `ancho` and `altura` are integers `w` and `h`
with `0 ≤ w, h ≤ 2^53`, the solid block of `h` rows, each made of `w` copies of the marker
"# " and ended by a line break, is a text of `(2w + 1)·h` code units.  When the run
builds texts of that length, `dibujarFiguraASCII()` returns that block (any fuel above
`w + h` suffices); when it does not, the call returns nothing: it is interrupted by the
exception or the abort of the engine.  For `w = 0` every row is just the line break and
for `h = 0` the result is the empty text. -/
theorem C10_dibujarFiguraASCII (H : Anfitrion) (w h fuel : ℕ) (hw : w ≤ 2 ^ 53)
    (hh : h ≤ 2 ^ 53) (hfuel : w + h < fuel) :
    ((2 * w + 1) * h ≤ H.longitudMaxima →
      Rectangulo.dibujarFiguraASCII H fuel (fin false w) (fin false h)
        = some (.ok (bloqueSolido w h))) ∧
    (H.longitudMaxima < (2 * w + 1) * h →
      Rectangulo.dibujarFiguraASCII H fuel (fin false w) (fin false h)
        = some (.error H.textoExcedido)) ∧
    (bloqueSolido w h).length = (2 * w + 1) * h ∧
    bloqueSolido 0 h = repetir "\n" h ∧ bloqueSolido w 0 = "" := by
  have hvacio : ("" : String).length = 0 := rfl
  refine ⟨?_, ?_, ?_, ?_, rfl⟩
  · intro hcabe
    have := filasDesde_nat H w h hw hh fuel 0 "" (by omega) (by omega)
      (by rw [hvacio, Nat.sub_zero, Nat.zero_add]
          exact hcabe)
    rw [Rectangulo.dibujarFiguraASCII, literal_eq 0]
    simpa [bloqueSolido] using this
  · intro hexcede
    have := filasDesde_excede H w h hw hh fuel 0 "" (by omega) (by omega)
      (by rw [hvacio]; omega)
      (by rw [hvacio, Nat.sub_zero, Nat.zero_add]
          exact hexcede)
    rw [Rectangulo.dibujarFiguraASCII, literal_eq 0]
    simpa using this
  · have hdos : ("# " : String).length = 2 := rfl
    have huno : ("\n" : String).length = 1 := rfl
    rw [bloqueSolido, repetir_length, String.length_append, repetir_length, hdos, huno]
    ring
  · simp [bloqueSolido, repetir]

/-- C10, instance: a 3 by 2 rectangle, and a 1000 by 1000 rectangle on a run whose texts
grow to `2^20` code units. -/
theorem C10_dibujarFiguraASCII_witness :
    Rectangulo.dibujarFiguraASCII anfitrionEjemplo 6 (fin false ((3 : ℕ) : ℚ))
        (fin false ((2 : ℕ) : ℚ))
      = some (.ok (bloqueSolido 3 2)) ∧
    Rectangulo.dibujarFiguraASCII anfitrionEjemplo 2001 (fin false ((1000 : ℕ) : ℚ))
        (fin false ((1000 : ℕ) : ℚ))
      = some (.error (.excepcion (.ajeno "RangeError" "Invalid string length"))) :=
  ⟨(C10_dibujarFiguraASCII anfitrionEjemplo 3 2 6 (by norm_num) (by norm_num)
      (by norm_num)).1 (by decide),
   (C10_dibujarFiguraASCII anfitrionEjemplo 1000 1000 2001 (by norm_num) (by norm_num)
      (by norm_num)).2.1 (by decide)⟩

theorem bloqueSolido_3_2 : bloqueSolido 3 2 = "# # # \n# # # \n" := by
  decide

/-- With no column and height `2^53 + 2`, on an engine whose texts are shorter than
`2^53`, the outer loop entered at row `n` with a result of `n` line breaks never returns:
the result outgrows the engine before the row counter reaches the height. -/
theorem filasDesde_sin_texto (H : Anfitrion) (hmax : H.longitudMaxima < 2 ^ 53) :
    ∀ (fuel n : ℕ) (resultado s : String), n ≤ H.longitudMaxima → resultado.length = n →
      Rectangulo.filasDesde H (fin false 0) (fin false 9007199254740994) fuel
        (fin false n) resultado ≠ some (.ok s) := by
  intro fuel
  induction fuel with
  | zero => intro n resultado s _ _ h; simp [Rectangulo.filasDesde] at h
  | succ fuel ih =>
    intro n resultado s hn hlen
    have hlt : JSNumber.lt (fin false (n : ℚ)) (fin false 9007199254740994) = true := by
      have := JSNumber.lt_nat n 9007199254740994
      rw [Nat.cast_ofNat] at this
      rw [this]
      exact decide_eq_true (by norm_num at hmax ⊢; omega)
    have hfila : ∀ y, Rectangulo.filaDesde H (fin false 0) (fin false 9007199254740994) y
        (fuel + 1) 0 "" = some (.ok "") := by
      intro y
      have := filaDesde_nat H (fin false 9007199254740994) y 0 (by norm_num) (fuel + 1) 0 ""
        (by omega) (by omega) (by simp only [String.length, List.length_nil]; omega)
      rw [literal_eq 0]
      simpa [repetir] using this
    have huno : ("\n" : String).length = 1 := rfl
    have hvacio : ("" : String).length = 0 := rfl
    rw [Rectangulo.filasDesde]
    simp only [hlt, if_true, hfila]
    rcases Nat.lt_or_ge H.longitudMaxima 1 with h1 | h1
    · rw [concatenar_excede H "" "\n" (by rw [hvacio, huno]; omega)]
      simp
    · rw [concatenar_ok H "" "\n" (by rw [hvacio, huno]; omega)]
      simp only []
      rcases Nat.lt_or_ge H.longitudMaxima (n + 1) with h2 | h2
      · rw [concatenar_excede H resultado ("" ++ "\n")
          (by rw [String.length_append, hvacio, huno, hlen]; omega)]
        simp
      · rw [concatenar_ok H resultado ("" ++ "\n")
          (by rw [String.length_append, hvacio, huno, hlen]; omega)]
        simp only []
        have hstep : (fin false (n : ℚ) : JSNumber) + 1 = fin false ((n + 1 : ℕ) : ℚ) := by
          rw [literal_eq 1]
          exact JSNumber.add_nat n 1 (by omega)
        rw [hstep]
        exact ih (n + 1) _ s h2
          (by rw [String.length_append, String.length_append, hvacio, huno, hlen])

/-- C10 as stated fails for large integers: with `ancho = 0` and
`altura = 9007199254740994` (`2^53 + 2`) the call returns no text, whatever the engine,
since no engine builds a text of `2^53` code units. -/
theorem C10_altura_grande_sin_texto :
    ¬ ∃ (H : Anfitrion) (fuel : ℕ) (s : String), H.longitudMaxima < 2 ^ 53 ∧
      Rectangulo.dibujarFiguraASCII H fuel (fin false 0) (fin false 9007199254740994)
        = some (.ok s) := by
  rintro ⟨H, fuel, s, hmax, h⟩
  rw [Rectangulo.dibujarFiguraASCII, literal_eq 0] at h
  exact filasDesde_sin_texto H hmax fuel 0 "" s (Nat.zero_le _) rfl
    (by simpa using h)

/-! ## Validacion -/

theorem typeof_string_iff (v : JSValue) : v.typeof = "string" ↔ ∃ s, v = .string s := by
  cases v <;> first | (simp [JSValue.typeof]; done) | (rename_i c _; cases c <;> simp [JSValue.typeof])

theorem isString_error (H : Anfitrion) (v : JSValue) (h : v.typeof ≠ "string") :
    Validacion.isString H v = .error (Validacion.rechazo H v ", no es un string") := by
  cases v <;> first | rfl | exact absurd rfl h

/-- C18 (amended): `Validacion.isNumber(v)` returns `v` itself when `typeof v` is
"number", and `Validacion.isString(v)` returns `v` itself when `typeof v` is "string";
nothing is coerced, the text "5" is rejected by `isNumber` and the number 5 by
`isString`.  Any other value is rejected: when it converts to text, with the `TypeError`
whose message is that text followed by ", no es un number" (", no es un string"), and
when the conversion throws, with what the conversion throws. -/
theorem C18_validacion (H : Anfitrion) (v : JSValue) :
    (∀ n, v = .number n → Validacion.isNumber H v = .ok n) ∧
    (v.typeof = "number" ↔ ∃ n, v = .number n) ∧
    (v.typeof ≠ "number" → H.falloDeTexto v = none →
      Validacion.isNumber H v = .error (.TypeError (H.textoDe v ++ ", no es un number"))) ∧
    (v.typeof ≠ "number" → ∀ fallo, H.falloDeTexto v = some fallo →
      Validacion.isNumber H v = .error fallo.error) ∧
    (∀ s, v = .string s → Validacion.isString H v = .ok s) ∧
    (v.typeof = "string" ↔ ∃ s, v = .string s) ∧
    (v.typeof ≠ "string" → H.falloDeTexto v = none →
      Validacion.isString H v = .error (.TypeError (H.textoDe v ++ ", no es un string"))) ∧
    (v.typeof ≠ "string" → ∀ fallo, H.falloDeTexto v = some fallo →
      Validacion.isString H v = .error fallo.error) ∧
    (∃ e, Validacion.isNumber H (.string "5") = .error e) ∧
    (∃ e, Validacion.isString H (.number 5) = .error e) := by
  refine ⟨?_, typeof_number_iff v, ?_, ?_, ?_, typeof_string_iff v, ?_, ?_,
    ⟨_, rfl⟩, ⟨_, rfl⟩⟩
  · rintro n rfl; rfl
  · intro h hf
    rw [isNumber_error H v h, rechazo_sin_fallo H v _ hf]
  · intro h fallo hf
    rw [isNumber_error H v h, rechazo_con_fallo H v _ fallo hf]
  · rintro s rfl; rfl
  · intro h hf
    rw [isString_error H v h, rechazo_sin_fallo H v _ hf]
  · intro h fallo hf
    rw [isString_error H v h, rechazo_con_fallo H v _ fallo hf]

/-- C18 as stated fails: for an object whose `toString` throws a `RangeError`, a value
that is neither a number nor a string, both validators fail with that `RangeError`
and not with a `TypeError`. -/
theorem C18_conversion_lanza_otro_error :
    (JSValue.ajeno .objeto 0).typeof ≠ "number" ∧
    (JSValue.ajeno .objeto 0).typeof ≠ "string" ∧
    Validacion.isNumber anfitrionEjemplo (.ajeno .objeto 0)
      = .error (.ajeno "RangeError" "x") ∧
    Validacion.isString anfitrionEjemplo (.ajeno .objeto 0)
      = .error (.ajeno "RangeError" "x") ∧
    (¬ ∃ m, Validacion.isNumber anfitrionEjemplo (.ajeno .objeto 0)
      = .error (.TypeError m)) ∧
    ¬ ∃ m, Validacion.isString anfitrionEjemplo (.ajeno .objeto 0)
      = .error (.TypeError m) := by
  refine ⟨by decide, by decide, rfl, rfl, ?_, ?_⟩
  · rintro ⟨m, h⟩
    exact absurd h (by simp [Validacion.isNumber, Validacion.rechazo, anfitrionEjemplo,
      FalloDeTexto.error])
  · rintro ⟨m, h⟩
    exact absurd h (by simp [Validacion.isString, Validacion.rechazo, anfitrionEjemplo,
      FalloDeTexto.error])

/-- The record whose only property is `toString: 1` has no text: the validator fails with the
`TypeError` of the engine, whose message is not the validator's. -/
theorem isNumber_objeto_sin_texto :
    Validacion.isNumber anfitrionEjemplo (.objeto [("toString", .number 1)])
      = .error (.TypeError "Cannot convert object to primitive value") := by
  rfl

/-! ## The stored Hexagono -/

theorem base_constructor_instancia (H : Anfitrion) (nombre : JSValue) (σ : Estado) :
    (FiguraGeometrica.constructor H nombre σ).2.instancia = σ.instancia := by
  unfold FiguraGeometrica.constructor
  split <;> rfl

theorem circulo_constructor_instancia (H : Anfitrion) (args : List JSValue) (σ : Estado) :
    (Circulo.constructor H args σ).2.instancia = σ.instancia := by
  rcases isNumber_cases H (param args 0) with ⟨a, _, ha⟩ | ⟨_, ha⟩ <;>
    simp [Circulo.constructor, base_constructor_string, ha]

theorem rectangulo_constructor_instancia (H : Anfitrion) (args : List JSValue) (σ : Estado) :
    (Rectangulo.constructor H args σ).2.instancia = σ.instancia := by
  rcases isNumber_cases H (param args 0) with ⟨a, _, ha⟩ | ⟨_, ha⟩ <;>
  rcases isNumber_cases H (param args 1) with ⟨b, _, hb⟩ | ⟨_, hb⟩ <;>
  rcases isNumber_cases H (if (param args 2).typeof = "undefined" then JSValue.number 0
      else param args 2) with ⟨c, _, hc⟩ | ⟨_, hc⟩ <;>
    simp [Rectangulo.constructor, base_constructor_string, largo_por_defecto, ha, hb, hc]

theorem triangulo_constructor_instancia (H : Anfitrion) (args : List JSValue) (σ : Estado) :
    (Triangulo.constructor H args σ).2.instancia = σ.instancia := by
  rcases isNumber_cases H (param args 0) with ⟨a, _, ha⟩ | ⟨_, ha⟩ <;>
  rcases isNumber_cases H (param args 1) with ⟨b, _, hb⟩ | ⟨_, hb⟩ <;>
    simp [Triangulo.constructor, base_constructor_string, ha, hb]

theorem pentagono_constructor_instancia (H : Anfitrion) (args : List JSValue) (σ : Estado) :
    (Pentagono.constructor H args σ).2.instancia = σ.instancia := by
  rcases isNumber_cases H (param args 0) with ⟨a, _, ha⟩ | ⟨_, ha⟩ <;>
    simp [Pentagono.constructor, base_constructor_string, ha]

/-- With an instance stored, a Hexagono request returns it and changes nothing. -/
theorem hexagono_constructor_guardada (H : Anfitrion) (args : List JSValue) (σ : Estado)
    (guardada : FiguraGeometrica) (hσ : σ.instancia = some guardada) :
    Hexagono.constructor H args σ = (.ok guardada, σ) := by
  simp [Hexagono.constructor, hσ]

theorem fabrica_instancia (H : Anfitrion) (tipo : JSValue) (datos : List JSValue)
    (σ : Estado) (guardada : FiguraGeometrica) (hσ : σ.instancia = some guardada) :
    (FabricaFiguras H tipo datos σ).2.instancia = some guardada := by
  unfold FabricaFiguras
  split
  · split_ifs
    · simp [circulo_constructor_instancia, hσ]
    · simp [rectangulo_constructor_instancia, hσ]
    · simp [triangulo_constructor_instancia, hσ]
    · simp [pentagono_constructor_instancia, hσ]
    · simp [hexagono_constructor_guardada H _ σ guardada hσ, hσ]
    · exact hσ
  · exact hσ

theorem crearDesdeJSON_instancia (H : Anfitrion) (jsonString : String) (σ : Estado) :
    (FiguraGeometrica.crearDesdeJSON H jsonString σ).2.instancia = σ.instancia := by
  unfold FiguraGeometrica.crearDesdeJSON
  split
  · rfl
  · unfold FiguraGeometrica.crearDesdeDatos
    split
    · rfl
    · split_ifs
      · split
        · rfl
        · exact circulo_constructor_instancia H _ σ
      · split
        · rfl
        · split
          · rfl
          · exact rectangulo_constructor_instancia H _ σ
      · split
        · rfl
        · split
          · rfl
          · exact triangulo_constructor_instancia H _ σ
      · rfl
    · rfl

/-- No call replaces a stored instance. -/
theorem ejecutar_instancia (H : Anfitrion) (l : Llamada) (σ : Estado)
    (guardada : FiguraGeometrica) (hσ : σ.instancia = some guardada) :
    (l.ejecutar H σ).instancia = some guardada := by
  cases l with
  | nuevaFigura nombre => simp [Llamada.ejecutar, base_constructor_instancia, hσ]
  | nuevoCirculo args => simp [Llamada.ejecutar, circulo_constructor_instancia, hσ]
  | nuevoRectangulo args => simp [Llamada.ejecutar, rectangulo_constructor_instancia, hσ]
  | nuevoTriangulo args => simp [Llamada.ejecutar, triangulo_constructor_instancia, hσ]
  | nuevoPentagono args => simp [Llamada.ejecutar, pentagono_constructor_instancia, hσ]
  | nuevoHexagono args =>
    simp [Llamada.ejecutar, hexagono_constructor_guardada H args σ guardada hσ, hσ]
  | fabrica tipo datos => exact fabrica_instancia H tipo datos σ guardada hσ
  | desdeJSON s => simp [Llamada.ejecutar, crearDesdeJSON_instancia, hσ]

theorem ejecutarTodas_instancia (H : Anfitrion) (llamadas : List Llamada) (σ : Estado)
    (guardada : FiguraGeometrica) (hσ : σ.instancia = some guardada) :
    (ejecutarTodas H llamadas σ).instancia = some guardada := by
  induction llamadas generalizing σ with
  | nil => exact hσ
  | cons l ls ih => exact ih _ (ejecutar_instancia H l σ guardada hσ)

/-- C20: once a first Hexagono has been built with side `s0` (from a state with no
stored instance), then after any sequence of further calls every Hexagono request, for
any argument list, returns that first instance (same `lado`, same `id`), throws
nothing even for a non-number, draws no identifier and leaves the state as it is; the
stored instance is still the first one. -/
theorem C20_hexagono_unica_instancia (H : Anfitrion) (σ : Estado) (primeros : List JSValue)
    (s0 : JSNumber) (llamadas : List Llamada) (args : List JSValue)
    (hσ : σ.instancia = none) (hs0 : param primeros 0 = .number s0) :
    Hexagono.constructor H primeros σ
      = (.ok ⟨"Hexágono", H.idAzar σ.azar, .hexagono s0⟩,
          ⟨some ⟨"Hexágono", H.idAzar σ.azar, .hexagono s0⟩, σ.azar + 1⟩) ∧
    (ejecutarTodas H llamadas (Hexagono.constructor H primeros σ).2).instancia
      = some ⟨"Hexágono", H.idAzar σ.azar, .hexagono s0⟩ ∧
    Hexagono.constructor H args (ejecutarTodas H llamadas (Hexagono.constructor H primeros σ).2)
      = (.ok ⟨"Hexágono", H.idAzar σ.azar, .hexagono s0⟩,
          ejecutarTodas H llamadas (Hexagono.constructor H primeros σ).2) := by
  have h1 : Hexagono.constructor H primeros σ
      = (.ok ⟨"Hexágono", H.idAzar σ.azar, .hexagono s0⟩,
          ⟨some ⟨"Hexágono", H.idAzar σ.azar, .hexagono s0⟩, σ.azar + 1⟩) := by
    simp [Hexagono.constructor, hσ, base_constructor_string, hs0, isNumber_number]
  have h2 := ejecutarTodas_instancia H llamadas (Hexagono.constructor H primeros σ).2
    ⟨"Hexágono", H.idAzar σ.azar, .hexagono s0⟩ (by rw [h1])
  exact ⟨h1, h2, hexagono_constructor_guardada H args _ _ h2⟩

/-- C20, instance: the demonstration script's `new Hexagono(10)`, then
`new Hexagono(7)`, a factory call and a failing `new Circulo("x")`, then
`new Hexagono("ocho")`. -/
theorem C20_hexagono_unica_instancia_witness :
    (Hexagono.constructor anfitrionEjemplo [.string "ocho"]
      (ejecutarTodas anfitrionEjemplo
        [.nuevoHexagono [.number 7], .fabrica (.string "hexagono") [.number 9],
          .nuevoCirculo [.string "x"]]
        (Hexagono.constructor anfitrionEjemplo [.number 10] Estado.inicial).2)).1
      = .ok ⟨"Hexágono", anfitrionEjemplo.idAzar 0, .hexagono 10⟩ :=
  congrArg Prod.fst
    (C20_hexagono_unica_instancia anfitrionEjemplo Estado.inicial [.number 10] 10
      [.nuevoHexagono [.number 7], .fabrica (.string "hexagono") [.number 9],
        .nuevoCirculo [.string "x"]] [.string "ocho"] rfl rfl).2.2

/-! ## Angles -/

theorem sub_fin_fin (s t : Bool) (a b : ℚ) :
    (fin s a : JSNumber) - fin t b = deRacional (valor s a + valor (!t) b) (s && !t) := rfl

theorem div_fin_fin (s t : Bool) (a b : ℚ) (hb : b ≠ 0) :
    (fin s a : JSNumber) / fin t b = redondear (xor s t) (a / b) := by
  show JSNumber.div (fin s a) (fin t b) = _
  simp [JSNumber.div, hb]

/-- Subtraction of natural numbers up to `2^53` is exact. -/
theorem sub_nat (a b : ℕ) (hba : b ≤ a) (ha : a ≤ 2 ^ 53) :
    (fin false a : JSNumber) - fin false b = fin false ((a - b : ℕ) : ℚ) := by
  rw [sub_fin_fin]
  have hq : valor false (a : ℚ) + valor (!false) (b : ℚ) = ((a - b : ℕ) : ℚ) := by
    simp [valor, Nat.cast_sub hba, sub_eq_add_neg]
  rw [hq]
  rcases Nat.eq_zero_or_pos (a - b) with h0 | hpos
  · simp [h0, deRacional]
  · rw [JSNumber.deRacional_pos _ _ (by exact_mod_cast hpos)]
    exact JSNumber.redondear_natCast false (a - b) (by omega)

/-- Division of natural numbers with an exact quotient up to `2^53` is exact. -/
theorem div_nat (a b c : ℕ) (hb : b ≠ 0) (hab : a = b * c) (hc : c ≤ 2 ^ 53) :
    (fin false a : JSNumber) / fin false b = fin false (c : ℚ) := by
  have hbq : (b : ℚ) ≠ 0 := by exact_mod_cast hb
  rw [div_fin_fin _ _ _ _ hbq]
  have hq : (a : ℚ) / (b : ℚ) = (c : ℚ) := by
    rw [hab]; push_cast; field_simp
  rw [hq]
  simpa using JSNumber.redondear_natCast false c hc

/-- C16: `anguloInterior()` and `anguloExterior()` read no field of the instance; on
every Pentagono they return exactly 108 and 72, on every Hexagono exactly 120 and 60,
whatever the side. -/
theorem C16_angulos :
    Pentagono.anguloInterior = 108 ∧ Pentagono.anguloExterior = 72 ∧
    Hexagono.anguloInterior = 120 ∧ Hexagono.anguloExterior = 60 := by
  refine ⟨?_, ?_, ?_, ?_⟩
  · have h1 : (5 : JSNumber) - 2 = 3 := sub_nat 5 2 (by norm_num) (by norm_num)
    have h2 : (180 : JSNumber) * 3 = 540 := JSNumber.mul_nat 180 3 (by norm_num)
    have h3 : (540 : JSNumber) / 5 = 108 := div_nat 540 5 108 (by norm_num) (by norm_num)
      (by norm_num)
    rw [Pentagono.anguloInterior, h1, h2, h3]
  · exact div_nat 360 5 72 (by norm_num) (by norm_num) (by norm_num)
  · have h1 : (6 : JSNumber) - 2 = 4 := sub_nat 6 2 (by norm_num) (by norm_num)
    have h2 : (180 : JSNumber) * 4 = 720 := JSNumber.mul_nat 180 4 (by norm_num)
    have h3 : (720 : JSNumber) / 6 = 120 := div_nat 720 6 120 (by norm_num) (by norm_num)
      (by norm_num)
    rw [Hexagono.anguloInterior, h1, h2, h3]
  · exact div_nat 360 6 60 (by norm_num) (by norm_num) (by norm_num)

/-! ## Formulas of the variants -/

/-- C15: for all numbers `b` and `h`, the Triangulo built by `new Triangulo(b, h)` has
`calcularArea()` equal to `(b * h) / 2`, `calcularPerimetro()` equal to `3 * b`, the
same as for a Triangulo with the same base and any other height, and
`calcularHipotenusa()` equal to `Math.sqrt(b * b + h * h)`, all in binary64. -/
theorem C15_triangulo (H : Anfitrion) (σ σ' : Estado) (b h h' : JSNumber) :
    ∃ f g, (Triangulo.constructor H [.number b, .number h] σ).1 = .ok f ∧
      (Triangulo.constructor H [.number b, .number h'] σ').1 = .ok g ∧
      f.forma = .triangulo b h ∧ g.forma = .triangulo b h' ∧
      f.calcularArea H = .ok ((b * h) / 2) ∧
      f.calcularPerimetro = .ok (3 * b) ∧
      g.calcularPerimetro = f.calcularPerimetro ∧
      Triangulo.calcularHipotenusa H b h = H.sqrt (b * b + h * h) :=
  ⟨⟨"Triángulo", H.idAzar σ.azar, .triangulo b h⟩,
    ⟨"Triángulo", H.idAzar σ'.azar, .triangulo b h'⟩, rfl, rfl, rfl, rfl, rfl, rfl, rfl, rfl⟩

/-- C14: for every number `s`, the Pentagono built by `new Pentagono(s)` has
`calcularPerimetro()` equal to `5 * s`, `calcularApotema()` equal to
`s / (2 * Math.tan(Math.PI / 5))` and `calcularArea()` equal to perimeter times
apothem over 2, all in binary64; over the reals that expression is
`5·s² / (4·t)` with `t` the tangent. -/
theorem C14_pentagono (H : Anfitrion) (σ : Estado) (s : JSNumber) :
    (∃ f, (Pentagono.constructor H [.number s] σ).1 = .ok f ∧
      f.forma = .pentagono s ∧
      f.calcularPerimetro = .ok (5 * s) ∧
      Pentagono.calcularPerimetro s = 5 * s ∧
      Pentagono.calcularApotema H s = s / (2 * H.tan (PI / 5)) ∧
      f.calcularArea H
        = .ok ((Pentagono.calcularPerimetro s * Pentagono.calcularApotema H s) / 2)) ∧
    (∀ x t : ℝ, t ≠ 0 → ((5 * x) * (x / (2 * t))) / 2 = 5 * x ^ 2 / (4 * t)) := by
  refine ⟨⟨⟨"Pentágono", H.idAzar σ.azar, .pentagono s⟩, rfl, rfl, rfl, rfl, rfl, rfl⟩, ?_⟩
  intro x t ht
  field_simp
  ring

/-- C13 (amended): for every number `s` and every state in which no Hexagono is
stored, the Hexagono built by `new Hexagono(s)` has `calcularPerimetro()` equal to
`6 * s`, `calcularApotema()` equal to `(s * Math.sqrt(3)) / 2` and `calcularArea()`
equal to perimeter times apothem over 2, all in binary64 (over the reals that
expression is `(3·r/2)·s²` with `r` the root); in a state with a stored instance the
request returns that instance and the three values are those of its own side. -/
theorem C13_hexagono (H : Anfitrion) (σ : Estado) (s : JSNumber) :
    (σ.instancia = none →
      ∃ f, (Hexagono.constructor H [.number s] σ).1 = .ok f ∧
        f.forma = .hexagono s ∧
        f.calcularPerimetro = .ok (6 * s) ∧
        Hexagono.calcularApotema H s = (s * H.sqrt 3) / 2 ∧
        f.calcularArea H
          = .ok ((Hexagono.calcularPerimetro s * Hexagono.calcularApotema H s) / 2)) ∧
    (∀ n i s0, σ.instancia = some ⟨n, i, .hexagono s0⟩ →
      ∃ f, (Hexagono.constructor H [.number s] σ).1 = .ok f ∧
        f.forma = .hexagono s0 ∧
        f.calcularPerimetro = .ok (6 * s0) ∧
        f.calcularArea H
          = .ok ((Hexagono.calcularPerimetro s0 * Hexagono.calcularApotema H s0) / 2)) ∧
    (∀ x r : ℝ, ((6 * x) * ((x * r) / 2)) / 2 = (3 * r / 2) * x ^ 2) := by
  refine ⟨?_, ?_, ?_⟩
  · intro hσ
    refine ⟨⟨"Hexágono", H.idAzar σ.azar, .hexagono s⟩, ?_, rfl, rfl, rfl, rfl⟩
    simp [Hexagono.constructor, hσ, base_constructor_string, param_cero, isNumber_number]
  · intro n i s0 hσ
    refine ⟨⟨n, i, .hexagono s0⟩, ?_, rfl, rfl, rfl⟩
    rw [hexagono_constructor_guardada H _ σ _ hσ]
  · intro x r
    ring

/-- C13, instance: `new Hexagono(10)` at program start. -/
theorem C13_hexagono_witness :
    ∃ f, (Hexagono.constructor anfitrionEjemplo [.number 10] Estado.inicial).1 = .ok f ∧
      f.forma = .hexagono 10 ∧
      f.calcularPerimetro = .ok (6 * 10) ∧
      Hexagono.calcularApotema anfitrionEjemplo 10 = (10 * anfitrionEjemplo.sqrt 3) / 2 ∧
      f.calcularArea anfitrionEjemplo
        = .ok ((Hexagono.calcularPerimetro 10 * Hexagono.calcularApotema anfitrionEjemplo 10)
            / 2) :=
  (C13_hexagono anfitrionEjemplo Estado.inicial 10).1 rfl

/-- C13 as stated fails in a state with a stored instance: after `new Hexagono(10)`,
the object obtained from `new Hexagono(7)` has perimeter 60, whereas `6 * 7` is 42. -/
theorem C13_hexagono_en_cache_perimetro :
    (∃ f, (Hexagono.constructor anfitrionEjemplo [.number 7]
          (Hexagono.constructor anfitrionEjemplo [.number 10] Estado.inicial).2).1 = .ok f ∧
        f.calcularPerimetro = .ok 60) ∧
    (6 : JSNumber) * 7 = 42 ∧ (60 : JSNumber) ≠ 42 := by
  refine ⟨⟨⟨"Hexágono", "id0", .hexagono 10⟩, rfl, ?_⟩, ?_, by decide⟩
  · exact congrArg Except.ok (JSNumber.mul_nat 6 10 (by norm_num))
  · exact JSNumber.mul_nat 6 7 (by norm_num)

theorem eq_self_of_pos (w : JSNumber) (hw : JSNumber.lt 0 w = true) : JSNumber.eq w w = true := by
  rcases w with _ | s | ⟨s, a⟩
  · exact absurd hw (by simp [JSNumber.lt_nan_right])
  · cases s <;> rfl
  · simp [JSNumber.eq]

theorem mul_cero_fin (s : Bool) (a : ℚ) : (0 : JSNumber) * fin s a = fin s 0 := by
  rw [literal_eq 0, JSNumber.mul_fin_fin]
  simp [redondear]

theorem mul_fin_cero_fin (s t : Bool) (a : ℚ) :
    (fin s 0 : JSNumber) * fin t a = fin (xor s t) 0 := by
  rw [JSNumber.mul_fin_fin]
  simp [redondear]

/-- C12 (amended): for all numbers `w`, `h > 0` and every number `d`, the Rectangulo
built by `new Rectangulo(w, h)` has depth 0, `calcularArea()` equal to `w * h`,
`calcularPerimetro()` equal to `2 * (w + h)` and `esCuadrado()` equal to `w === h` (so
true when `h` is `w`); `new Rectangulo(w, h, d)` has `calcularVolumen()` equal to
`d * w * h`, all in binary64; and when `w` and `h` are finite the Rectangulo built
without a depth has volume 0. -/
theorem C12_rectangulo (H : Anfitrion) (σ : Estado) (w h d : JSNumber)
    (hw : JSNumber.lt 0 w = true) (hh : JSNumber.lt 0 h = true) :
    (∃ f, (Rectangulo.constructor H [.number w, .number h] σ).1 = .ok f ∧
      f.forma = .rectangulo w h 0 ∧
      f.calcularArea H = .ok (w * h) ∧
      f.calcularPerimetro = .ok (2 * (w + h))) ∧
    Rectangulo.esCuadrado w h = JSNumber.eq w h ∧
    Rectangulo.esCuadrado w w = true ∧
    (∃ g, (Rectangulo.constructor H [.number w, .number h, .number d] σ).1 = .ok g ∧
      g.forma = .rectangulo w h d) ∧
    Rectangulo.calcularVolumen w h d = d * w * h ∧
    (∀ a b, w = fin false a → h = fin false b → Rectangulo.calcularVolumen w h 0 = 0) := by
  refine ⟨⟨⟨"Rectángulo", H.idAzar σ.azar, .rectangulo w h 0⟩, rfl, rfl, rfl, rfl⟩, rfl,
    eq_self_of_pos w hw, ⟨⟨"Rectángulo", H.idAzar σ.azar, .rectangulo w h d⟩, rfl, rfl⟩,
    rfl, ?_⟩
  rintro a b rfl rfl
  rw [Rectangulo.calcularVolumen, mul_cero_fin, mul_fin_cero_fin]
  rfl

/-- C12, instance: `new Rectangulo(6, 6)`, the square of the demonstration script. -/
theorem C12_rectangulo_witness :
    Rectangulo.esCuadrado 6 6 = true ∧ Rectangulo.calcularVolumen 6 6 0 = 0 :=
  ⟨(C12_rectangulo anfitrionEjemplo Estado.inicial 6 6 0 (by decide) (by decide)).2.2.1,
   (C12_rectangulo anfitrionEjemplo Estado.inicial 6 6 0 (by decide) (by decide)).2.2.2.2.2
      6 6 (by simp [literal_eq]) (by simp [literal_eq])⟩

/-- C12 as stated fails for an infinite side: `new Rectangulo(Infinity, 1)` has depth
0, and its volume `0 * Infinity * 1` is `NaN`, not 0. -/
theorem C12_volumen_infinito :
    JSNumber.lt 0 (inf false) = true ∧ JSNumber.lt 0 1 = true ∧
    (Rectangulo.constructor anfitrionEjemplo [.number (inf false), .number 1]
        Estado.inicial).1 = .ok ⟨"Rectángulo", "id0", .rectangulo (inf false) 1 0⟩ ∧
    Rectangulo.calcularVolumen (inf false) 1 0 = nan ∧
    JSNumber.eq nan 0 = false := by
  refine ⟨rfl, by decide, rfl, ?_, rfl⟩
  rw [Rectangulo.calcularVolumen]
  have h1 : (0 : JSNumber) * inf false = nan := by
    show JSNumber.mul (fin false _) (inf false) = nan
    simp [JSNumber.mul]
  rw [h1, JSNumber.mul_nan_left]

/-! ## describir -/

/-- Below `10^21` the standard `toFixed(2)` is the two-decimal text of the number of
hundredths nearest to the magnitude (the larger on a tie). -/
theorem toFixedEstandar_dos (t : JSValue → String) (s : Bool) (mag : ℚ) (n : ℕ)
    (hlt : mag < (10 : ℚ) ^ 21) (hn1 : (n : ℚ) ≤ mag * 100 + 1 / 2)
    (hn2 : mag * 100 + 1 / 2 < (n : ℚ) + 1) :
    toFixedEstandar t (fin s mag) 2 = textoDosDecimales (s && decide (0 < mag)) n := by
  have hfloor : ⌊mag * (10 : ℚ) ^ 2 + 1 / 2⌋₊ = n := by
    rw [Nat.floor_eq_iff (le_trans (Nat.cast_nonneg n) (by norm_num; linarith))]
    constructor <;> norm_num <;> linarith
  simp only [toFixedEstandar, if_neg (not_le.2 hlt), hfloor, textoDosDecimales,
    digitosCentesimas]
  simp

theorem toFixedEstandar_dos_floor (t : JSValue → String) (s : Bool) (mag : ℚ)
    (h0 : 0 ≤ mag) (hlt : mag < (10 : ℚ) ^ 21) :
    toFixedEstandar t (fin s mag) 2
      = textoDosDecimales (s && decide (0 < mag)) ⌊mag * 100 + 1 / 2⌋₊ := by
  have hnn : (0 : ℚ) ≤ mag * 100 + 1 / 2 := by positivity
  exact toFixedEstandar_dos t s mag _ hlt (Nat.floor_le hnn) (Nat.lt_floor_add_one _)

theorem digitosCentesimas_length (n : ℕ) : 3 ≤ (digitosCentesimas n).length := by
  simp only [digitosCentesimas, List.length_append, List.length_replicate]
  omega

/-- The two-decimal text is a sign, at least one digit, a point and exactly two
digits, which together are the decimal digits of `n`. -/
theorem textoDosDecimales_forma (s : Bool) (n : ℕ) :
    ∃ entero decimales : List Char,
      textoDosDecimales s n
        = (if s then "-" else "") ++ String.mk entero ++ "." ++ String.mk decimales ∧
      decimales.length = 2 ∧ 1 ≤ entero.length ∧
      entero ++ decimales = digitosCentesimas n := by
  have h3 := digitosCentesimas_length n
  refine ⟨(digitosCentesimas n).take ((digitosCentesimas n).length - 2),
    (digitosCentesimas n).drop ((digitosCentesimas n).length - 2), rfl, ?_, ?_,
    List.take_append_drop _ _⟩
  · rw [List.length_drop]; omega
  · rw [List.length_take]; omega

theorem conforme_anfitrionConforme : Conforme anfitrionConforme :=
  fun _ _ _ => rfl

/-- C19 (amended): for every shape `x` with area `A` and perimeter `P`, on a host
whose `toFixed` is the standard one, `describir()` returns exactly
"<nombre> - Área: <A.toFixed(2)>, Perímetro: <P.toFixed(2)>"; each of the five
constructors sets `nombre` to the fixed name of its variant; and for a value that is
finite and below `10^21` in magnitude `toFixed(2)` is fixed-point notation with
exactly two decimals: a sign, at least one digit, a point and two digits, which are
the digits of the number of hundredths nearest to the magnitude. -/
theorem C19_describir (H : Anfitrion) (x : FiguraGeometrica) (A P : JSNumber)
    (hH : Conforme H) (hA : x.calcularArea H = .ok A) (hP : x.calcularPerimetro = .ok P) :
    x.describir H
      = .ok (x.nombre ++ " - Área: " ++ toFixedEstandar H.textoDe A 2 ++ ", Perímetro: "
          ++ toFixedEstandar H.textoDe P 2) ∧
    (∀ (args : List JSValue) (σ : Estado) (f : FiguraGeometrica),
      ((Circulo.constructor H args σ).1 = .ok f ∨ (Rectangulo.constructor H args σ).1 = .ok f ∨
        (Triangulo.constructor H args σ).1 = .ok f ∨
        (Pentagono.constructor H args σ).1 = .ok f ∨
        (σ.instancia = none ∧ (Hexagono.constructor H args σ).1 = .ok f)) →
      f.nombre = f.forma.nombre ∧ f.forma ≠ .base) ∧
    (∀ (s : Bool) (a : ℚ), 0 ≤ a → a < (10 : ℚ) ^ 21 →
      toFixedEstandar H.textoDe (fin s a) 2
        = textoDosDecimales (s && decide (0 < a)) ⌊a * 100 + 1 / 2⌋₊) ∧
    (∀ (s : Bool) (n : ℕ), ∃ entero decimales : List Char,
      textoDosDecimales s n
        = (if s then "-" else "") ++ String.mk entero ++ "." ++ String.mk decimales ∧
      decimales.length = 2 ∧ 1 ≤ entero.length ∧
      entero ++ decimales = digitosCentesimas n) := by
  refine ⟨?_, ?_, fun s a h0 hlt => toFixedEstandar_dos_floor _ s a h0 hlt,
    textoDosDecimales_forma⟩
  · simp [FiguraGeometrica.describir, hA, hP, hH A 2 (by norm_num), hH P 2 (by norm_num)]
  · intro args σ f h
    rcases h with h | h | h | h | ⟨hσ, h⟩
    · rcases isNumber_cases H (param args 0) with ⟨a, _, ha⟩ | ⟨_, ha⟩ <;>
        simp [Circulo.constructor, base_constructor_string, ha] at h
      subst h; exact ⟨rfl, by simp⟩
    · rcases isNumber_cases H (param args 0) with ⟨a, _, ha⟩ | ⟨_, ha⟩ <;>
      rcases isNumber_cases H (param args 1) with ⟨b, _, hb⟩ | ⟨_, hb⟩ <;>
      rcases isNumber_cases H (if (param args 2).typeof = "undefined" then JSValue.number 0
          else param args 2) with ⟨c, _, hc⟩ | ⟨_, hc⟩ <;>
        simp [Rectangulo.constructor, base_constructor_string, largo_por_defecto, ha, hb, hc]
          at h
      subst h; exact ⟨rfl, by simp⟩
    · rcases isNumber_cases H (param args 0) with ⟨a, _, ha⟩ | ⟨_, ha⟩ <;>
      rcases isNumber_cases H (param args 1) with ⟨b, _, hb⟩ | ⟨_, hb⟩ <;>
        simp [Triangulo.constructor, base_constructor_string, ha, hb] at h
      subst h; exact ⟨rfl, by simp⟩
    · rcases isNumber_cases H (param args 0) with ⟨a, _, ha⟩ | ⟨_, ha⟩ <;>
        simp [Pentagono.constructor, base_constructor_string, ha] at h
      subst h; exact ⟨rfl, by simp⟩
    · rcases isNumber_cases H (param args 0) with ⟨a, _, ha⟩ | ⟨_, ha⟩ <;>
        simp [Hexagono.constructor, hσ, base_constructor_string, ha] at h
      subst h; exact ⟨rfl, by simp⟩

theorem area_rectangulo_10_8 (H : Anfitrion) (i : String) (l : JSNumber) :
    FiguraGeometrica.calcularArea H ⟨"Rectángulo", i, .rectangulo 10 8 l⟩
      = .ok (fin false 80) := by
  have := JSNumber.mul_nat 10 8 (by norm_num)
  norm_num at this
  exact congrArg Except.ok this

theorem perimetro_rectangulo_10_8 (i : String) (l : JSNumber) :
    FiguraGeometrica.calcularPerimetro ⟨"Rectángulo", i, .rectangulo 10 8 l⟩
      = .ok (fin false 36) := by
  have h1 : (10 : JSNumber) + 8 = fin false ((18 : ℕ) : ℚ) :=
    JSNumber.add_nat 10 8 (by norm_num)
  have h2 := JSNumber.mul_nat 2 18 (by norm_num)
  norm_num at h2
  show Except.ok ((2 : JSNumber) * ((10 : JSNumber) + 8)) = _
  rw [h1, literal_eq 2]
  exact congrArg Except.ok h2

/-- C19, instance: `new Rectangulo(10, 8)` is described as
"Rectángulo - Área: 80.00, Perímetro: 36.00". -/
theorem C19_describir_witness :
    FiguraGeometrica.describir anfitrionConforme ⟨"Rectángulo", "id0", .rectangulo 10 8 0⟩
      = .ok "Rectángulo - Área: 80.00, Perímetro: 36.00" := by
  have h := (C19_describir anfitrionConforme ⟨"Rectángulo", "id0", .rectangulo 10 8 0⟩
    (fin false 80) (fin false 36) conforme_anfitrionConforme
    (area_rectangulo_10_8 _ _ _) (perimetro_rectangulo_10_8 _ _)).1
  rw [toFixedEstandar_dos _ false 80 8000 (by norm_num) (by norm_num) (by norm_num),
    toFixedEstandar_dos _ false 36 3600 (by norm_num) (by norm_num) (by norm_num)] at h
  rw [h]
  exact congrArg Except.ok (by decide)

/-- C19 as stated fails for a value that is not finite: `new Circulo(NaN)` is
described as "Círculo - Área: NaN, Perímetro: NaN", with no decimals. -/
theorem C19_describir_NaN :
    FiguraGeometrica.describir anfitrionConforme ⟨"Círculo", "id0", .circulo nan⟩
      = .ok "Círculo - Área: NaN, Perímetro: NaN" := by
  have hA : FiguraGeometrica.calcularArea anfitrionConforme ⟨"Círculo", "id0", .circulo nan⟩
      = .ok nan := by
    simp [FiguraGeometrica.calcularArea, Circulo.calcularArea, JSNumber.mul_nan_right]
  have hP : FiguraGeometrica.calcularPerimetro ⟨"Círculo", "id0", .circulo nan⟩
      = .ok nan := by
    simp [FiguraGeometrica.calcularPerimetro, Circulo.calcularPerimetro,
      JSNumber.mul_nan_right]
  simp only [FiguraGeometrica.describir, hA, hP]
  exact congrArg Except.ok (by decide)

/-! ## Evaluating roundings -/

namespace JSNumber

/-- Away from a tie, `mitadPar` is the nearest integer. -/
theorem mitadPar_cerca (x : ℚ) (k : ℕ) (hlo : (k : ℚ) - 1 / 2 < x) (hhi : x < (k : ℚ) + 1 / 2) :
    mitadPar x = k := by
  rcases lt_or_le x (k : ℚ) with hlt | hge
  · rcases Nat.eq_zero_or_pos k with rfl | hpos
    · have hx : x < 0 := by simpa using hlt
      have hf : ⌊x⌋₊ = 0 := Nat.floor_of_nonpos hx.le
      have hd : x - ((0 : ℕ) : ℚ) < 1 / 2 := by push_cast; linarith
      simp only [mitadPar, hf, hd, if_true]
    · obtain ⟨j, rfl⟩ : ∃ j, k = j + 1 := ⟨k - 1, by omega⟩
      push_cast at hlo hhi hlt
      have hx0 : (0 : ℚ) ≤ x := by
        have : (0 : ℚ) ≤ (j : ℚ) := Nat.cast_nonneg j
        linarith
      have hf : ⌊x⌋₊ = j := by
        rw [Nat.floor_eq_iff hx0]
        constructor <;> linarith
      have hd1 : ¬ (x - (j : ℚ) < 1 / 2) := by linarith
      have hd2 : 1 / 2 < x - (j : ℚ) := by linarith
      simp only [mitadPar, hf, hd1, hd2, if_true, if_false]
  · have hx0 : (0 : ℚ) ≤ x := le_trans (Nat.cast_nonneg k) hge
    have hf : ⌊x⌋₊ = k := by
      rw [Nat.floor_eq_iff hx0]
      constructor <;> linarith
    have hd : x - (k : ℚ) < 1 / 2 := by linarith
    simp only [mitadPar, hf, hd, if_true]

/-- Rounding of a magnitude with known exponent whose scaled value is not a tie. -/
theorem redondear_cerca (s : Bool) (mag val : ℚ) (e : ℤ) (k : ℕ)
    (h1 : (2 : ℚ) ^ e ≤ mag) (h2 : mag < (2 : ℚ) ^ (e + 1)) (he : -1022 ≤ e)
    (hlo : (k : ℚ) - 1 / 2 < mag / (2 : ℚ) ^ (e - 52))
    (hhi : mag / (2 : ℚ) ^ (e - 52) < (k : ℚ) + 1 / 2)
    (hval : (k : ℚ) * (2 : ℚ) ^ (e - 52) = val) (hfin : val < (2 : ℚ) ^ (1024 : ℕ)) :
    redondear s mag = fin s val := by
  rw [redondear_eq s mag e k h1 h2 he (mitadPar_cerca _ k hlo hhi) (by rw [hval]; exact hfin),
    hval]

/-- Rounding of a magnitude with known exponent whose scaled value is a tie. -/
theorem redondear_empate (s : Bool) (mag val : ℚ) (e : ℤ) (n : ℕ)
    (h1 : (2 : ℚ) ^ e ≤ mag) (h2 : mag < (2 : ℚ) ^ (e + 1)) (he : -1022 ≤ e)
    (hy : mag / (2 : ℚ) ^ (e - 52) = (n : ℚ) + 1 / 2)
    (hval : (((if n % 2 = 0 then n else n + 1 : ℕ) : ℕ) : ℚ) * (2 : ℚ) ^ (e - 52) = val)
    (hfin : val < (2 : ℚ) ^ (1024 : ℕ)) :
    redondear s mag = fin s val := by
  rw [redondear_eq s mag e (if n % 2 = 0 then n else n + 1) h1 h2 he
    (by rw [hy, mitadPar_mitad]) (by rw [hval]; exact hfin), hval]

/-- Adding to zero rounds the other operand. -/
theorem cero_add_fin (a : ℚ) (ha : 0 < a) :
    (0 : JSNumber) + fin false a = redondear false a := by
  show (fin false ((0 : ℕ) : ℚ) : JSNumber) + fin false a = _
  rw [add_fin_fin]
  have hq : valor false ((0 : ℕ) : ℚ) + valor false a = a := by simp [valor]
  rw [hq, deRacional_pos _ _ ha]

theorem add_pos_pos (a b : ℚ) (ha : 0 < a) (hb : 0 < b) :
    (fin false a : JSNumber) + fin false b = redondear false (a + b) := by
  rw [add_fin_fin]
  have hq : valor false a + valor false b = a + b := by simp [valor]
  rw [hq, deRacional_pos _ _ (by positivity)]

end JSNumber

/-! ## The collection of the demonstration: Circulo(5) and Rectangulo(10, 8) -/

theorem pi_por_5 : PI * (5 : JSNumber) = fin false (4421398595017775 / 281474976710656) := by
  rw [PI, literal_eq 5, JSNumber.mul_fin_fin]
  exact JSNumber.redondear_cerca _ _ _ 3 8842797190035550 (by norm_num) (by norm_num)
    (by norm_num) (by norm_num) (by norm_num) (by norm_num) (by norm_num)

theorem pi_por_5_por_5 :
    PI * (5 : JSNumber) * 5 = fin false (5526748243772219 / 70368744177664) := by
  rw [pi_por_5, literal_eq 5, JSNumber.mul_fin_fin]
  exact JSNumber.redondear_cerca _ _ _ 6 5526748243772219 (by norm_num) (by norm_num)
    (by norm_num) (by norm_num) (by norm_num) (by norm_num) (by norm_num)

theorem cero_mas_area_circulo :
    (0 : JSNumber) + fin false (5526748243772219 / 70368744177664)
      = fin false (5526748243772219 / 70368744177664) := by
  rw [JSNumber.cero_add_fin _ (by norm_num)]
  exact JSNumber.redondear_cerca _ _ _ 6 5526748243772219 (by norm_num) (by norm_num)
    (by norm_num) (by norm_num) (by norm_num) (by norm_num) (by norm_num)

theorem area_circulo_mas_80 :
    (fin false (5526748243772219 / 70368744177664) : JSNumber) + fin false 80
      = fin false (2789061944496335 / 17592186044416) := by
  rw [JSNumber.add_pos_pos _ _ (by norm_num) (by norm_num)]
  exact JSNumber.redondear_empate _ _ _ 7 5578123888992669 (by norm_num) (by norm_num)
    (by norm_num) (by norm_num) (by norm_num) (by norm_num)

theorem dos_por_pi : (2 : JSNumber) * PI = fin false (884279719003555 / 140737488355328) := by
  rw [PI, literal_eq 2, JSNumber.mul_fin_fin]
  exact JSNumber.redondear_cerca _ _ _ 2 7074237752028440 (by norm_num) (by norm_num)
    (by norm_num) (by norm_num) (by norm_num) (by norm_num) (by norm_num)

theorem dos_por_pi_por_5 :
    (2 : JSNumber) * PI * 5 = fin false (4421398595017775 / 140737488355328) := by
  rw [dos_por_pi, literal_eq 5, JSNumber.mul_fin_fin]
  exact JSNumber.redondear_cerca _ _ _ 4 8842797190035550 (by norm_num) (by norm_num)
    (by norm_num) (by norm_num) (by norm_num) (by norm_num) (by norm_num)

theorem cero_mas_perimetro_circulo :
    (0 : JSNumber) + fin false (4421398595017775 / 140737488355328)
      = fin false (4421398595017775 / 140737488355328) := by
  rw [JSNumber.cero_add_fin _ (by norm_num)]
  exact JSNumber.redondear_cerca _ _ _ 4 8842797190035550 (by norm_num) (by norm_num)
    (by norm_num) (by norm_num) (by norm_num) (by norm_num) (by norm_num)

theorem perimetro_circulo_mas_36 :
    (fin false (4421398595017775 / 140737488355328) : JSNumber) + fin false 36
      = fin false (592996760988099 / 8796093022208) := by
  rw [JSNumber.add_pos_pos _ _ (by norm_num) (by norm_num)]
  exact JSNumber.redondear_empate _ _ _ 6 4743974087904791 (by norm_num) (by norm_num)
    (by norm_num) (by norm_num) (by norm_num) (by norm_num)

theorem veinticinco_por_pi :
    (25 : JSNumber) * PI = fin false (5526748243772219 / 70368744177664) := by
  rw [PI, literal_eq 25, JSNumber.mul_fin_fin]
  exact JSNumber.redondear_cerca _ _ _ 6 5526748243772219 (by norm_num) (by norm_num)
    (by norm_num) (by norm_num) (by norm_num) (by norm_num) (by norm_num)

theorem diez_por_pi :
    (10 : JSNumber) * PI = fin false (4421398595017775 / 140737488355328) := by
  rw [PI, literal_eq 10, JSNumber.mul_fin_fin]
  exact JSNumber.redondear_cerca _ _ _ 4 8842797190035550 (by norm_num) (by norm_num)
    (by norm_num) (by norm_num) (by norm_num) (by norm_num) (by norm_num)

theorem area_circulo_5 (H : Anfitrion) (i : String) :
    FiguraGeometrica.calcularArea H ⟨"Círculo", i, .circulo 5⟩
      = .ok (fin false (5526748243772219 / 70368744177664)) :=
  congrArg Except.ok pi_por_5_por_5

theorem perimetro_circulo_5 (i : String) :
    FiguraGeometrica.calcularPerimetro ⟨"Círculo", i, .circulo 5⟩
      = .ok (fin false (4421398595017775 / 140737488355328)) :=
  congrArg Except.ok dos_por_pi_por_5

theorem area_total_demo (H : Anfitrion) (i j : String) :
    (agregarTodas [⟨"Círculo", i, .circulo 5⟩,
        ⟨"Rectángulo", j, .rectangulo 10 8 0⟩]).calcularAreaTotal H
      = .ok (fin false (2789061944496335 / 17592186044416)) := by
  rw [ColeccionFiguras.calcularAreaTotal, agregarTodas_figuras,
    reduce_cons_ok _ _ _ _ (fin false (5526748243772219 / 70368744177664))
      (by rw [area_circulo_5]; exact congrArg Except.ok cero_mas_area_circulo),
    reduce_cons_ok _ _ _ _ (fin false (2789061944496335 / 17592186044416))
      (by rw [area_rectangulo_10_8]; exact congrArg Except.ok area_circulo_mas_80)]
  rfl

theorem perimetro_total_demo (i j : String) :
    (agregarTodas [⟨"Círculo", i, .circulo 5⟩,
        ⟨"Rectángulo", j, .rectangulo 10 8 0⟩]).calcularPerimetroTotal
      = .ok (fin false (592996760988099 / 8796093022208)) := by
  rw [ColeccionFiguras.calcularPerimetroTotal, agregarTodas_figuras,
    reduce_cons_ok _ _ _ _ (fin false (4421398595017775 / 140737488355328))
      (by rw [perimetro_circulo_5]; exact congrArg Except.ok cero_mas_perimetro_circulo),
    reduce_cons_ok _ _ _ _ (fin false (592996760988099 / 8796093022208))
      (by rw [perimetro_rectangulo_10_8]; exact congrArg Except.ok perimetro_circulo_mas_36)]
  rfl

theorem area_total_cerca_real :
    |((2789061944496335 / 17592186044416 : ℚ) : ℝ) - (25 * Real.pi + 80)| < 1 / 10 ^ 13 := by
  have h1 := Real.pi_gt_d20
  have h2 := Real.pi_lt_d20
  rw [abs_lt]
  constructor <;> · push_cast; norm_num at h1 h2 ⊢; linarith

theorem perimetro_total_cerca_real :
    |((592996760988099 / 8796093022208 : ℚ) : ℝ) - (10 * Real.pi + 36)| < 1 / 10 ^ 13 := by
  have h1 := Real.pi_gt_d20
  have h2 := Real.pi_lt_d20
  rw [abs_lt]
  constructor <;> · push_cast; norm_num at h1 h2 ⊢; linarith

/-- C17: for a fresh collection to which `new Circulo(5)` and `new Rectangulo(10, 8)`
are added, `calcularAreaTotal()` is the binary64 number `25 * Math.PI + 80`
(158.53981633974485), within `10^-13` of `25·π + 80`, and its `toFixed(2)` is "158.54";
`calcularPerimetroTotal()` is the binary64 number `10 * Math.PI + 36`
(67.41592653589794), within `10^-13` of `10·π + 36`, and its `toFixed(2)` is "67.42";
`filtrarPorTipo("Rectángulo")` is the sequence of length one holding that Rectangulo. -/
theorem C17_escenario (H : Anfitrion) (i j : String) :
    ((agregarTodas [⟨"Círculo", i, .circulo 5⟩,
          ⟨"Rectángulo", j, .rectangulo 10 8 0⟩]).calcularAreaTotal H
        = .ok (fin false (2789061944496335 / 17592186044416)) ∧
      (25 : JSNumber) * PI + 80 = fin false (2789061944496335 / 17592186044416) ∧
      |((2789061944496335 / 17592186044416 : ℚ) : ℝ) - (25 * Real.pi + 80)| < 1 / 10 ^ 13 ∧
      toFixedEstandar H.textoDe (fin false (2789061944496335 / 17592186044416)) 2
        = "158.54") ∧
    ((agregarTodas [⟨"Círculo", i, .circulo 5⟩,
          ⟨"Rectángulo", j, .rectangulo 10 8 0⟩]).calcularPerimetroTotal
        = .ok (fin false (592996760988099 / 8796093022208)) ∧
      (10 : JSNumber) * PI + 36 = fin false (592996760988099 / 8796093022208) ∧
      |((592996760988099 / 8796093022208 : ℚ) : ℝ) - (10 * Real.pi + 36)| < 1 / 10 ^ 13 ∧
      toFixedEstandar H.textoDe (fin false (592996760988099 / 8796093022208)) 2
        = "67.42") ∧
    (agregarTodas [⟨"Círculo", i, .circulo 5⟩,
        ⟨"Rectángulo", j, .rectangulo 10 8 0⟩]).filtrarPorTipo (.string "Rectángulo")
      = [⟨"Rectángulo", j, .rectangulo 10 8 0⟩] := by
  refine ⟨⟨area_total_demo H i j, ?_, area_total_cerca_real, ?_⟩,
    ⟨perimetro_total_demo i j, ?_, perimetro_total_cerca_real, ?_⟩, ?_⟩
  · rw [veinticinco_por_pi, literal_eq 80]
    have := area_circulo_mas_80
    norm_num at this ⊢
    exact this
  · rw [toFixedEstandar_dos _ false _ 15854 (by norm_num) (by norm_num) (by norm_num)]
    decide
  · rw [diez_por_pi, literal_eq 36]
    have := perimetro_circulo_mas_36
    norm_num at this ⊢
    exact this
  · rw [toFixedEstandar_dos _ false _ 6742 (by norm_num) (by norm_num) (by norm_num)]
    decide
  · simp [ColeccionFiguras.filtrarPorTipo, agregarTodas_figuras]

/-! ## Rounding error -/

namespace JSNumber

/-- The integer `mitadPar` picks is within one half of its argument. -/
theorem mitadPar_error (y : ℚ) (hy : 0 ≤ y) : |((mitadPar y : ℕ) : ℚ) - y| ≤ 1 / 2 := by
  have hf1 : ((⌊y⌋₊ : ℕ) : ℚ) ≤ y := Nat.floor_le hy
  have hf2 : y < ((⌊y⌋₊ : ℕ) : ℚ) + 1 := Nat.lt_floor_add_one y
  unfold mitadPar
  simp only []
  split_ifs with h1 h2 h3
  · rw [abs_le]; constructor <;> linarith
  · rw [abs_le]; push_cast; constructor <;> linarith
  · have hd : y - ((⌊y⌋₊ : ℕ) : ℚ) = 1 / 2 := le_antisymm (not_lt.1 h2) (not_lt.1 h1)
    rw [abs_le]; constructor <;> linarith
  · have hd : y - ((⌊y⌋₊ : ℕ) : ℚ) = 1 / 2 := le_antisymm (not_lt.1 h2) (not_lt.1 h1)
    rw [abs_le]; push_cast; constructor <;> linarith

theorem ulp_pos (mag : ℚ) : 0 < ulp mag := by
  unfold ulp; positivity

/-- The spacing is at most `mag / 2^52`, or the subnormal spacing `2^-1074`. -/
theorem ulp_le (mag : ℚ) (h0 : 0 < mag) :
    ulp mag ≤ mag / 2 ^ (52 : ℕ) + 1 / 2 ^ (1074 : ℕ) := by
  unfold ulp
  rcases le_total (-1022) (Int.log 2 mag) with h | h
  · rw [max_eq_left h, zpow_sub₀ (by norm_num : (2 : ℚ) ≠ 0)]
    have hlog : (2 : ℚ) ^ Int.log 2 mag ≤ mag := by
      have := Int.zpow_log_le_self (b := 2) (by norm_num) h0
      exact_mod_cast this
    have h52 : (2 : ℚ) ^ (52 : ℤ) = 2 ^ (52 : ℕ) := by norm_num
    rw [h52]
    have : (2 : ℚ) ^ Int.log 2 mag / 2 ^ (52 : ℕ) ≤ mag / 2 ^ (52 : ℕ) :=
      div_le_div_of_nonneg_right hlog (by positivity)
    have hpos : (0 : ℚ) ≤ 1 / 2 ^ (1074 : ℕ) := by positivity
    linarith
  · rw [max_eq_right h]
    have hval : (2 : ℚ) ^ ((-1022 : ℤ) - 52) = 1 / 2 ^ (1074 : ℕ) := by
      rw [show ((-1022 : ℤ) - 52) = -((1074 : ℕ) : ℤ) by norm_num, zpow_neg, zpow_natCast,
        one_div]
    rw [hval]
    have : (0 : ℚ) ≤ mag / 2 ^ (52 : ℕ) := by positivity
    linarith

/-- Rounding a positive magnitude up to `2^1023` gives a finite number whose error is
at most `mag / 2^53 + 2^-1075`. -/
theorem redondear_error (s : Bool) (mag : ℚ) (h0 : 0 < mag) (hmax : mag ≤ 2 ^ (1023 : ℕ)) :
    ∃ r : ℚ, redondear s mag = fin s r ∧ 0 ≤ r ∧
      |r - mag| ≤ mag / 2 ^ (53 : ℕ) + 1 / 2 ^ (1075 : ℕ) := by
  have hu := ulp_pos mag
  have hule := ulp_le mag h0
  have hy : 0 ≤ mag / ulp mag := div_nonneg h0.le hu.le
  have hk := mitadPar_error (mag / ulp mag) hy
  have herr : |((mitadPar (mag / ulp mag) : ℕ) : ℚ) * ulp mag - mag| ≤ ulp mag / 2 := by
    have e1 : ((mitadPar (mag / ulp mag) : ℕ) : ℚ) * ulp mag - mag
        = (((mitadPar (mag / ulp mag) : ℕ) : ℚ) - mag / ulp mag) * ulp mag := by
      field_simp
    rw [e1, abs_mul, abs_of_pos hu]
    calc |((mitadPar (mag / ulp mag) : ℕ) : ℚ) - mag / ulp mag| * ulp mag
        ≤ 1 / 2 * ulp mag := mul_le_mul_of_nonneg_right hk hu.le
      _ = ulp mag / 2 := by ring
  have hbound : ulp mag / 2 ≤ mag / 2 ^ (53 : ℕ) + 1 / 2 ^ (1075 : ℕ) := by
    have : ulp mag / 2 ≤ (mag / 2 ^ (52 : ℕ) + 1 / 2 ^ (1074 : ℕ)) / 2 :=
      div_le_div_of_nonneg_right hule (by norm_num)
    have hgen : ∀ A B : ℚ, A ≠ 0 → B ≠ 0 →
        (mag / A + 1 / B) / 2 = mag / (A * 2) + 1 / (B * 2) := by
      intro A B hA hB
      field_simp
      ring
    calc ulp mag / 2 ≤ (mag / 2 ^ (52 : ℕ) + 1 / 2 ^ (1074 : ℕ)) / 2 := this
      _ = mag / 2 ^ (53 : ℕ) + 1 / 2 ^ (1075 : ℕ) := by
        rw [pow_succ (2 : ℚ) 52, pow_succ (2 : ℚ) 1074]
        exact hgen _ _ (pow_ne_zero _ (by norm_num)) (pow_ne_zero _ (by norm_num))
  have hr : ((mitadPar (mag / ulp mag) : ℕ) : ℚ) * ulp mag < 2 ^ (1024 : ℕ) := by
    have h1 := (abs_le.1 (le_trans herr hbound)).2
    have h2 : mag / 2 ^ (53 : ℕ) ≤ 2 ^ (1023 : ℕ) / 2 ^ (53 : ℕ) :=
      div_le_div_of_nonneg_right hmax (by positivity)
    have hT : (4 : ℚ) ≤ 2 ^ (1023 : ℕ) := by
      have : (2 : ℚ) ^ (2 : ℕ) ≤ 2 ^ (1023 : ℕ) :=
        pow_le_pow_right₀ (by norm_num) (by norm_num)
      linarith
    have h4 : (2 : ℚ) ^ (1023 : ℕ) / 2 ^ (53 : ℕ) ≤ 2 ^ (1023 : ℕ) / 4 :=
      div_le_div_of_nonneg_left (by positivity) (by norm_num) (by norm_num)
    have h5 : (1 : ℚ) / 2 ^ (1075 : ℕ) ≤ 1 := by
      rw [div_le_one (by positivity)]
      exact one_le_pow₀ (by norm_num)
    have h6 : (2 : ℚ) ^ (1024 : ℕ) = 2 * 2 ^ (1023 : ℕ) := by
      rw [pow_succ (2 : ℚ) 1023]; ring
    rw [h6]
    linarith
  refine ⟨((mitadPar (mag / ulp mag) : ℕ) : ℚ) * ulp mag, ?_,
    mul_nonneg (Nat.cast_nonneg _) hu.le, le_trans herr hbound⟩
  simp only [redondear, if_neg h0.ne', if_neg (not_le.2 hr)]

/-- The product of two non-negative finite numbers, when it is at most `2^1023`, is a
finite number within `x·y / 2^53 + 2^-1075` of the exact product. -/
theorem mul_error (x y : ℚ) (hx : 0 ≤ x) (hy : 0 ≤ y) (hmax : x * y ≤ 2 ^ (1023 : ℕ)) :
    ∃ z : ℚ, (fin false x : JSNumber) * fin false y = fin false z ∧ 0 ≤ z ∧
      |z - x * y| ≤ x * y / 2 ^ (53 : ℕ) + 1 / 2 ^ (1075 : ℕ) := by
  rw [mul_fin_fin]
  rcases (mul_nonneg hx hy).eq_or_lt with h0 | hpos
  · refine ⟨0, ?_, le_rfl, ?_⟩
    · simp [redondear, ← h0]
    · rw [← h0]; simp
  · simpa using redondear_error false (x * y) hpos hmax

end JSNumber

/-! ## Circulo -/

/-- Rounding of a magnitude with known exponent that reaches `2^1024` overflows. -/
theorem JSNumber.redondear_desborda (s : Bool) (mag : ℚ) (e : ℤ) (k : ℕ)
    (h1 : (2 : ℚ) ^ e ≤ mag) (h2 : mag < (2 : ℚ) ^ (e + 1)) (he : -1022 ≤ e)
    (hlo : (k : ℚ) - 1 / 2 < mag / (2 : ℚ) ^ (e - 52))
    (hhi : mag / (2 : ℚ) ^ (e - 52) < (k : ℚ) + 1 / 2)
    (hinf : (2 : ℚ) ^ (1024 : ℕ) ≤ (k : ℚ) * (2 : ℚ) ^ (e - 52)) :
    redondear s mag = inf s := by
  have hpos : 0 < mag := lt_of_lt_of_le (by positivity) h1
  simp only [redondear, JSNumber.ulp_eq mag e h1 h2 he, JSNumber.mitadPar_cerca _ k hlo hhi,
    if_neg hpos.ne', if_pos hinf]

theorem pi_por_2_600 :
    PI * fin false (2 ^ 600) = fin false (884279719003555 / 281474976710656 * 2 ^ 600) := by
  rw [PI, JSNumber.mul_fin_fin]
  exact JSNumber.redondear_cerca _ _ _ 601 7074237752028440 (by norm_num) (by norm_num)
    (by norm_num) (by norm_num) (by norm_num) (by norm_num) (by norm_num)

/-- The spacing of the binary64 values below `2^(e+1)` is at most `2^(e-52)`. -/
theorem JSNumber.ulp_le_binada (mag : ℚ) (e : ℕ) (h0 : 0 < mag)
    (hlt : mag < (2 : ℚ) ^ (e + 1)) : ulp mag ≤ 2 ^ e / 2 ^ (52 : ℕ) := by
  have hlog : Int.log 2 mag < (e : ℤ) + 1 :=
    (Int.lt_zpow_iff_log_lt (by norm_num) h0).1 (by exact_mod_cast hlt)
  have hmax : max (Int.log 2 mag) (-1022) ≤ (e : ℤ) := by
    apply max_le
    · omega
    · have : (0 : ℤ) ≤ (e : ℤ) := Int.natCast_nonneg e
      omega
  unfold ulp
  calc (2 : ℚ) ^ (max (Int.log 2 mag) (-1022) - 52)
      ≤ (2 : ℚ) ^ ((e : ℤ) - 52) := zpow_le_zpow_right₀ (by norm_num) (by omega)
    _ = 2 ^ e / 2 ^ (52 : ℕ) := by
        rw [zpow_sub₀ (by norm_num : (2 : ℚ) ≠ 0), zpow_natCast]
        norm_num

/-- Rounding a positive magnitude below `2^(e+1)` gives a finite number at most
`2^(e-53)`, half the spacing, away from it. -/
theorem JSNumber.redondear_error_binada (s : Bool) (mag : ℚ) (e : ℕ) (h0 : 0 < mag)
    (hlt : mag < (2 : ℚ) ^ (e + 1)) (he : e ≤ 1000) :
    ∃ r : ℚ, redondear s mag = fin s r ∧ 0 ≤ r ∧ |r - mag| ≤ 2 ^ e / 2 ^ (53 : ℕ) := by
  have hu := JSNumber.ulp_pos mag
  have hule := JSNumber.ulp_le_binada mag e h0 hlt
  have hy : 0 ≤ mag / ulp mag := div_nonneg h0.le hu.le
  have hk := JSNumber.mitadPar_error (mag / ulp mag) hy
  have herr : |((mitadPar (mag / ulp mag) : ℕ) : ℚ) * ulp mag - mag| ≤ ulp mag / 2 := by
    have e1 : ((mitadPar (mag / ulp mag) : ℕ) : ℚ) * ulp mag - mag
        = (((mitadPar (mag / ulp mag) : ℕ) : ℚ) - mag / ulp mag) * ulp mag := by
      field_simp
    rw [e1, abs_mul, abs_of_pos hu]
    calc |((mitadPar (mag / ulp mag) : ℕ) : ℚ) - mag / ulp mag| * ulp mag
        ≤ 1 / 2 * ulp mag := mul_le_mul_of_nonneg_right hk hu.le
      _ = ulp mag / 2 := by ring
  have hbound : ulp mag / 2 ≤ 2 ^ e / 2 ^ (53 : ℕ) := by
    have h1 : ulp mag / 2 ≤ 2 ^ e / 2 ^ (52 : ℕ) / 2 :=
      div_le_div_of_nonneg_right hule (by norm_num)
    have h2 : (2 : ℚ) ^ e / 2 ^ (52 : ℕ) / 2 = 2 ^ e / 2 ^ (53 : ℕ) := by
      rw [pow_succ (2 : ℚ) 52]
      field_simp
    rw [h2] at h1
    exact h1
  have hr : ((mitadPar (mag / ulp mag) : ℕ) : ℚ) * ulp mag < 2 ^ (1024 : ℕ) := by
    have h1 := (abs_le.1 (le_trans herr hbound)).2
    have h2 : (2 : ℚ) ^ e / 2 ^ (53 : ℕ) ≤ 2 ^ e :=
      div_le_self (by positivity) (one_le_pow₀ (by norm_num))
    have h3 : (2 : ℚ) ^ e ≤ 2 ^ (e + 1) := pow_le_pow_right₀ (by norm_num) (by omega)
    have h4 : (2 : ℚ) ^ (e + 1) ≤ 2 ^ (1001 : ℕ) :=
      pow_le_pow_right₀ (by norm_num) (by omega)
    have h5 : (2 : ℚ) ^ (1001 : ℕ) * 2 = 2 ^ (1002 : ℕ) := by
      rw [pow_succ (2 : ℚ) 1001]
    have h6 : (2 : ℚ) ^ (1002 : ℕ) ≤ 2 ^ (1024 : ℕ) :=
      pow_le_pow_right₀ (by norm_num) (by norm_num)
    have h7 : (0 : ℚ) < 2 ^ (1001 : ℕ) := by positivity
    linarith
  refine ⟨((mitadPar (mag / ulp mag) : ℕ) : ℚ) * ulp mag, ?_,
    mul_nonneg (Nat.cast_nonneg _) hu.le, le_trans herr hbound⟩
  simp only [redondear, if_neg h0.ne', if_neg (not_le.2 hr)]

/-- The product of two non-negative finite numbers, when it is below `2^(e+1)`, is a
finite number within `2^(e-53)` of the exact product. -/
theorem JSNumber.mul_error_binada (x y : ℚ) (e : ℕ) (hx : 0 ≤ x) (hy : 0 ≤ y)
    (hlt : x * y < (2 : ℚ) ^ (e + 1)) (he : e ≤ 1000) :
    ∃ z : ℚ, (fin false x : JSNumber) * fin false y = fin false z ∧ 0 ≤ z ∧
      |z - x * y| ≤ 2 ^ e / 2 ^ (53 : ℕ) := by
  rw [JSNumber.mul_fin_fin]
  rcases (mul_nonneg hx hy).eq_or_lt with h0 | hpos
  · refine ⟨0, ?_, le_rfl, ?_⟩
    · simp [redondear, ← h0]
    · rw [← h0]; simp; positivity
  · simpa using JSNumber.redondear_error_binada false (x * y) e hpos hlt he

/-- A binary64 value: a magnitude that rounding leaves as it is. -/
theorem JSNumber.doble_exacto (a : ℚ) (h0 : 0 < a) (hrep : redondear false a = fin false a)
    (h2 : 2 * a < (2 : ℚ) ^ (1024 : ℕ)) :
    (fin false a : JSNumber) * 2 = fin false (2 * a) := by
  rw [literal_eq 2, JSNumber.mul_fin_fin]
  have hL1 : (2 : ℚ) ^ Int.log 2 a ≤ a := by
    have := Int.zpow_log_le_self (b := 2) (by norm_num) h0
    exact_mod_cast this
  have hL2 : a < (2 : ℚ) ^ (Int.log 2 a + 1) := by
    have := Int.lt_zpow_succ_log_self (b := 2) (by norm_num) a
    exact_mod_cast this
  have hlog2 : Int.log 2 (a * 2) = Int.log 2 a + 1 := by
    apply JSNumber.log_eq_of_bounds
    · rw [zpow_add_one₀ (by norm_num : (2 : ℚ) ≠ 0)]
      linarith
    · rw [zpow_add_one₀ (by norm_num : (2 : ℚ) ≠ 0)]
      linarith
  have hu := JSNumber.ulp_pos a
  -- the magnitude is a whole number of spacings
  have hn : ((mitadPar (a / ulp a) : ℕ) : ℚ) * ulp a = a := by
    simp only [redondear, if_neg h0.ne'] at hrep
    split_ifs at hrep with h
    injection hrep
  have hcast : (((2 : ℕ) : ℚ)) = 2 := by norm_num
  rw [hcast]
  have h0' : (0 : ℚ) < a * 2 := by linarith
  rcases le_or_lt (-1022) (Int.log 2 a) with hnorm | hsub
  · -- normal range: the spacing doubles
    have hu2 : ulp (a * 2) = 2 * ulp a := by
      unfold ulp
      rw [hlog2, max_eq_left hnorm, max_eq_left (by omega),
        show Int.log 2 a + 1 - 52 = (Int.log 2 a - 52) + 1 by ring,
        zpow_add_one₀ (by norm_num : (2 : ℚ) ≠ 0)]
      ring
    have hq : a * 2 / ulp (a * 2) = ((mitadPar (a / ulp a) : ℕ) : ℚ) := by
      rw [hu2]
      field_simp
      linarith [hn]
    have hfin : ¬ ((2 : ℚ) ^ (1024 : ℕ)
        ≤ ((mitadPar (a * 2 / ulp (a * 2)) : ℕ) : ℚ) * ulp (a * 2)) := by
      rw [hq, JSNumber.mitadPar_natCast, hu2]
      have : ((mitadPar (a / ulp a) : ℕ) : ℚ) * (2 * ulp a) = 2 * a := by
        rw [show ((mitadPar (a / ulp a) : ℕ) : ℚ) * (2 * ulp a)
          = 2 * (((mitadPar (a / ulp a) : ℕ) : ℚ) * ulp a) by ring, hn]
      rw [this]
      exact not_le.2 h2
    simp only [redondear, if_neg h0'.ne', if_neg hfin]
    rw [hq, JSNumber.mitadPar_natCast, hu2]
    congr 1
    rw [show ((mitadPar (a / ulp a) : ℕ) : ℚ) * (2 * ulp a)
      = 2 * (((mitadPar (a / ulp a) : ℕ) : ℚ) * ulp a) by ring, hn]
  · -- subnormal range: the spacing stays
    have hu2 : ulp (a * 2) = ulp a := by
      unfold ulp
      rw [hlog2, max_eq_right (by omega), max_eq_right (by omega)]
    have hq : a * 2 / ulp (a * 2) = ((2 * mitadPar (a / ulp a) : ℕ) : ℚ) := by
      rw [hu2]
      push_cast
      field_simp
      linarith [hn]
    have hval : ((2 * mitadPar (a / ulp a) : ℕ) : ℚ) * ulp a = 2 * a := by
      push_cast
      rw [mul_assoc, hn]
    have hfin : ¬ ((2 : ℚ) ^ (1024 : ℕ)
        ≤ ((mitadPar (a * 2 / ulp (a * 2)) : ℕ) : ℚ) * ulp (a * 2)) := by
      rw [hq, JSNumber.mitadPar_natCast, hu2, hval]
      exact not_le.2 h2
    simp only [redondear, if_neg h0'.ne', if_neg hfin]
    rw [hq, JSNumber.mitadPar_natCast, hu2, hval]
    rfl

theorem pi_cerca :
    |((884279719003555 / 281474976710656 : ℚ) : ℝ) - Real.pi| < 12248 / 10 ^ 20 := by
  have h1 := Real.pi_gt_d20
  have h2 := Real.pi_lt_d20
  rw [abs_lt]
  constructor <;> · push_cast; norm_num at h1 h2 ⊢; linarith

theorem abs_real_le (q b : ℚ) (h : |q| ≤ b) : |(q : ℝ)| ≤ (b : ℝ) := by
  rw [← Rat.cast_abs]
  exact_mod_cast h

theorem tres_pasos (A X Y Z : ℝ) : |A - Z| ≤ |A - X| + |X - Y| + |Y - Z| := by
  have h1 := abs_sub_le A X Z
  have h2 := abs_sub_le X Y Z
  linarith

/-- For a radius up to 1303.79, where `Math.PI * r` stays below 4096, the computed area
is within `10^-9` of `π·r²`. -/
theorem area_circulo_error (a : ℚ) (ha0 : 0 < a) (ha : a ≤ 130379 / 100) :
    ∃ A : ℚ, Circulo.calcularArea (fin false a) = fin false A ∧
      |(A : ℝ) - Real.pi * (a : ℝ) ^ 2| < 1 / 10 ^ 9 := by
  obtain ⟨x, hx, hxnn, hxe⟩ := JSNumber.mul_error_binada
    (884279719003555 / 281474976710656) a 11 (by norm_num) ha0.le
    (by norm_num; nlinarith) (by norm_num)
  have hxle : x ≤ 4096 := by
    have := (abs_le.1 hxe).2
    have h1 : (2 : ℚ) ^ 11 / 2 ^ (53 : ℕ) ≤ 1 / 1000 := by norm_num
    nlinarith
  obtain ⟨A, hA, _, hAe⟩ := JSNumber.mul_error_binada x a 22 hxnn ha0.le
    (by norm_num; nlinarith) (by norm_num)
  refine ⟨A, ?_, ?_⟩
  · rw [Circulo.calcularArea, PI, hx, hA]
  · have haR0 : (0 : ℝ) < (a : ℝ) := by exact_mod_cast ha0
    have haR : (a : ℝ) ≤ 130379 / 100 := by
      have h : ((a : ℚ) : ℝ) ≤ ((130379 / 100 : ℚ) : ℝ) := Rat.cast_le.2 ha
      push_cast at h
      exact h
    have e1 : |(A : ℝ) - (x : ℝ) * (a : ℝ)| ≤ 2 ^ 22 / 2 ^ (53 : ℕ) := by
      have := abs_real_le _ _ hAe
      push_cast at this
      exact this
    have e2' : |(x : ℝ) - ((884279719003555 / 281474976710656 : ℚ) : ℝ) * (a : ℝ)|
        ≤ 2 ^ 11 / 2 ^ (53 : ℕ) := by
      have := abs_real_le _ _ hxe
      push_cast at this ⊢
      exact this
    have e2 : |(x : ℝ) * (a : ℝ)
        - ((884279719003555 / 281474976710656 : ℚ) : ℝ) * (a : ℝ) ^ 2|
        ≤ 2 ^ 11 / 2 ^ (53 : ℕ) * (130379 / 100) := by
      have : (x : ℝ) * (a : ℝ) - ((884279719003555 / 281474976710656 : ℚ) : ℝ) * (a : ℝ) ^ 2
          = ((x : ℝ) - ((884279719003555 / 281474976710656 : ℚ) : ℝ) * (a : ℝ)) * (a : ℝ) := by
        ring
      rw [this, abs_mul, abs_of_pos haR0]
      exact mul_le_mul e2' haR haR0.le (by positivity)
    have e3 : |((884279719003555 / 281474976710656 : ℚ) : ℝ) * (a : ℝ) ^ 2
        - Real.pi * (a : ℝ) ^ 2| ≤ 12248 / 10 ^ 20 * (130379 / 100) ^ 2 := by
      have : ((884279719003555 / 281474976710656 : ℚ) : ℝ) * (a : ℝ) ^ 2
          - Real.pi * (a : ℝ) ^ 2
          = (((884279719003555 / 281474976710656 : ℚ) : ℝ) - Real.pi) * (a : ℝ) ^ 2 := by
        ring
      rw [this, abs_mul, abs_of_nonneg (by positivity : (0 : ℝ) ≤ (a : ℝ) ^ 2)]
      exact mul_le_mul pi_cerca.le (pow_le_pow_left₀ haR0.le haR 2) (by positivity)
        (by positivity)
    have h := tres_pasos (A : ℝ) ((x : ℝ) * (a : ℝ))
      (((884279719003555 / 281474976710656 : ℚ) : ℝ) * (a : ℝ) ^ 2) (Real.pi * (a : ℝ) ^ 2)
    have hnum : (2 : ℝ) ^ 22 / 2 ^ (53 : ℕ) + 2 ^ 11 / 2 ^ (53 : ℕ) * (130379 / 100)
        + 12248 / 10 ^ 20 * (130379 / 100) ^ 2 < 1 / 10 ^ 9 := by norm_num
    linarith

/-- For a radius up to 1335088.42, where `2 * Math.PI * r` stays below `2^23`, the
computed perimeter is within `10^-9` of `2·π·r`. -/
theorem perimetro_circulo_error (a : ℚ) (ha0 : 0 < a) (ha : a ≤ 133508842 / 100) :
    ∃ L : ℚ, Circulo.calcularPerimetro (fin false a) = fin false L ∧
      |(L : ℝ) - 2 * Real.pi * (a : ℝ)| < 1 / 10 ^ 9 := by
  obtain ⟨L, hL, _, hLe⟩ := JSNumber.mul_error_binada
    (884279719003555 / 140737488355328) a 22 (by norm_num) ha0.le
    (by norm_num; nlinarith) (by norm_num)
  refine ⟨L, ?_, ?_⟩
  · rw [Circulo.calcularPerimetro, dos_por_pi, hL]
  · have haR0 : (0 : ℝ) < (a : ℝ) := by exact_mod_cast ha0
    have haR : (a : ℝ) ≤ 133508842 / 100 := by
      have h : ((a : ℚ) : ℝ) ≤ ((133508842 / 100 : ℚ) : ℝ) := Rat.cast_le.2 ha
      push_cast at h
      exact h
    have e1 : |(L : ℝ) - ((884279719003555 / 140737488355328 : ℚ) : ℝ) * (a : ℝ)|
        ≤ 2 ^ 22 / 2 ^ (53 : ℕ) := by
      have := abs_real_le _ _ hLe
      push_cast at this ⊢
      exact this
    have e2 : |((884279719003555 / 140737488355328 : ℚ) : ℝ) * (a : ℝ)
        - 2 * Real.pi * (a : ℝ)| ≤ 2 * (12248 / 10 ^ 20) * (133508842 / 100) := by
      have : ((884279719003555 / 140737488355328 : ℚ) : ℝ) * (a : ℝ) - 2 * Real.pi * (a : ℝ)
          = 2 * (((884279719003555 / 281474976710656 : ℚ) : ℝ) - Real.pi) * (a : ℝ) := by
        push_cast; ring
      rw [this, abs_mul, abs_mul, abs_of_pos haR0, abs_of_pos (by norm_num : (0 : ℝ) < 2)]
      exact mul_le_mul (mul_le_mul_of_nonneg_left pi_cerca.le (by norm_num)) haR haR0.le
        (by positivity)
    have h := abs_sub_le (L : ℝ) (((884279719003555 / 140737488355328 : ℚ) : ℝ) * (a : ℝ))
      (2 * Real.pi * (a : ℝ))
    have hnum : (2 : ℝ) ^ 22 / 2 ^ (53 : ℕ) + 2 * (12248 / 10 ^ 20) * (133508842 / 100)
        < 1 / 10 ^ 9 := by
      norm_num
    linarith

theorem cuatro_tercios :
    (4 : JSNumber) / 3 = fin false (6004799503160661 / 4503599627370496) := by
  rw [literal_eq 4, literal_eq 3, div_fin_fin _ _ _ _ (by norm_num)]
  exact JSNumber.redondear_cerca _ _ _ 0 6004799503160661 (by norm_num) (by norm_num)
    (by norm_num) (by norm_num) (by norm_num) (by norm_num) (by norm_num)

theorem cuatro_tercios_por_pi :
    (4 : JSNumber) / 3 * PI = fin false (4716158501352293 / 1125899906842624) := by
  rw [cuatro_tercios, PI, JSNumber.mul_fin_fin]
  exact JSNumber.redondear_cerca _ _ _ 2 4716158501352293 (by norm_num) (by norm_num)
    (by norm_num) (by norm_num) (by norm_num) (by norm_num) (by norm_num)

theorem cuatro_tercios_pi_cerca :
    |((4716158501352293 / 1125899906842624 : ℚ) : ℝ) - 4 / 3 * Real.pi| < 4594 / 10 ^ 19 := by
  have h1 := Real.pi_gt_d20
  have h2 := Real.pi_lt_d20
  rw [abs_lt]
  constructor <;> · push_cast; norm_num at h1 h2 ⊢; linarith

theorem volumen_circulo_formula (H : Anfitrion) (r : JSNumber) :
    Circulo.calcularVolumen H r
      = fin false (4716158501352293 / 1125899906842624) * H.pow r 3 := by
  rw [Circulo.calcularVolumen, cuatro_tercios_por_pi]

/-- For a radius up to 82, when `Math.pow(r, 3)` is within relative error `2^-52` of
`r³`, the computed volume is within `10^-9` of `(4/3)·π·r³`. -/
theorem volumen_circulo_error (H : Anfitrion) (a p : ℚ) (ha0 : 0 < a) (ha : a ≤ 82)
    (hpow : H.pow (fin false a) 3 = fin false p) (hp0 : 0 ≤ p)
    (hp : |(p : ℝ) - (a : ℝ) ^ 3| ≤ (a : ℝ) ^ 3 / 2 ^ (52 : ℕ)) :
    ∃ V : ℚ, Circulo.calcularVolumen H (fin false a) = fin false V ∧
      |(V : ℝ) - 4 / 3 * Real.pi * (a : ℝ) ^ 3| < 1 / 10 ^ 9 := by
  have haR0 : (0 : ℝ) < (a : ℝ) := by exact_mod_cast ha0
  have haR : (a : ℝ) ≤ 82 := by exact_mod_cast ha
  have ha3 : (a : ℝ) ^ 3 ≤ 551368 := by
    have : (a : ℝ) ^ 3 ≤ 82 ^ 3 := pow_le_pow_left₀ haR0.le haR 3
    norm_num at this
    exact this
  have ha3nn : (0 : ℝ) ≤ (a : ℝ) ^ 3 := by positivity
  have hpR : (p : ℝ) ≤ 551369 := by
    have h1 := (abs_le.1 hp).2
    have h2 : (a : ℝ) ^ 3 / 2 ^ (52 : ℕ) ≤ 1 := by
      rw [div_le_one (by positivity)]
      have : (551368 : ℝ) ≤ 2 ^ (52 : ℕ) := by norm_num
      linarith
    linarith
  have hpQ : p ≤ 551369 := by exact_mod_cast hpR
  obtain ⟨V, hV, _, hVe⟩ := JSNumber.mul_error_binada
    (4716158501352293 / 1125899906842624) p 21 (by norm_num) hp0
    (by norm_num; nlinarith) (by norm_num)
  refine ⟨V, ?_, ?_⟩
  · rw [volumen_circulo_formula, hpow, hV]
  · have e1 : |(V : ℝ) - ((4716158501352293 / 1125899906842624 : ℚ) : ℝ) * (p : ℝ)|
        ≤ 2 ^ 21 / 2 ^ (53 : ℕ) := by
      have := abs_real_le _ _ hVe
      push_cast at this ⊢
      exact this
    have hc : |((4716158501352293 / 1125899906842624 : ℚ) : ℝ)| ≤ 41888 / 10000 := by
      rw [abs_le]; constructor <;> · push_cast; norm_num
    have e2 : |((4716158501352293 / 1125899906842624 : ℚ) : ℝ) * (p : ℝ)
        - ((4716158501352293 / 1125899906842624 : ℚ) : ℝ) * (a : ℝ) ^ 3|
        ≤ 41888 / 10000 * (551368 / 2 ^ (52 : ℕ)) := by
      rw [← mul_sub, abs_mul]
      refine mul_le_mul hc (le_trans hp ?_) (abs_nonneg _) (by norm_num)
      exact div_le_div_of_nonneg_right ha3 (by positivity)
    have e3 : |((4716158501352293 / 1125899906842624 : ℚ) : ℝ) * (a : ℝ) ^ 3
        - 4 / 3 * Real.pi * (a : ℝ) ^ 3| ≤ 4594 / 10 ^ 19 * 551368 := by
      rw [← sub_mul, abs_mul, abs_of_nonneg ha3nn]
      exact mul_le_mul cuatro_tercios_pi_cerca.le ha3 ha3nn (by positivity)
    have h := tres_pasos (V : ℝ) (((4716158501352293 / 1125899906842624 : ℚ) : ℝ) * (p : ℝ))
      (((4716158501352293 / 1125899906842624 : ℚ) : ℝ) * (a : ℝ) ^ 3)
      (4 / 3 * Real.pi * (a : ℝ) ^ 3)
    have hnum : (2 : ℝ) ^ 21 / 2 ^ (53 : ℕ) + 41888 / 10000 * (551368 / 2 ^ (52 : ℕ))
        + 4594 / 10 ^ 19 * 551368 < 1 / 10 ^ 9 := by norm_num
    linarith

/-! ### Radii just beyond the ranges -/

theorem pi_por_1303 :
    PI * fin false (2867089940069447 / 2199023255552)
      = fin false (4503614346451687 / 1099511627776) := by
  rw [PI, JSNumber.mul_fin_fin]
  exact JSNumber.redondear_cerca _ _ _ 12 4503614346451687 (by norm_num) (by norm_num)
    (by norm_num) (by norm_num) (by norm_num) (by norm_num) (by norm_num)

/-- The area computed for the radius 1303.8015549998122. -/
theorem area_circulo_1303 :
    Circulo.calcularArea (fin false (2867089940069447 / 2199023255552))
      = fin false (5734198621116379 / 1073741824) := by
  rw [Circulo.calcularArea, pi_por_1303, JSNumber.mul_fin_fin]
  exact JSNumber.redondear_cerca _ _ _ 22 5734198621116379 (by norm_num) (by norm_num)
    (by norm_num) (by norm_num) (by norm_num) (by norm_num) (by norm_num)

/-- The perimeter computed for the radius 1335088.6215767136. -/
theorem perimetro_circulo_1335088 :
    Circulo.calcularPerimetro (fin false (5734161966933705 / 4294967296))
      = fin false (4503600277453231 / 536870912) := by
  rw [Circulo.calcularPerimetro, dos_por_pi, JSNumber.mul_fin_fin]
  exact JSNumber.redondear_cerca _ _ _ 23 4503600277453231 (by norm_num) (by norm_num)
    (by norm_num) (by norm_num) (by norm_num) (by norm_num) (by norm_num)

theorem potencia_cubo (x : JSNumber) : anfitrionPotencia.pow x 3 = x * x * x := by
  show (if (3 : JSNumber) = 3 then x * x * x else nan) = _
  rw [if_pos rfl]

/-- The cube of 90.51008623920256 by two multiplications. -/
theorem cubo_90 :
    anfitrionPotencia.pow (fin false (398067569004047 / 4398046511104)) 3
      = fin false (3184569983775361 / 4294967296) := by
  rw [potencia_cubo]
  have h1 : (fin false (398067569004047 / 4398046511104) : JSNumber)
      * fin false (398067569004047 / 4398046511104)
      = fin false (4503641249948251 / 549755813888) := by
    rw [JSNumber.mul_fin_fin]
    exact JSNumber.redondear_cerca _ _ _ 13 4503641249948251 (by norm_num) (by norm_num)
      (by norm_num) (by norm_num) (by norm_num) (by norm_num) (by norm_num)
  rw [h1, JSNumber.mul_fin_fin]
  exact JSNumber.redondear_cerca _ _ _ 19 6369139967550722 (by norm_num) (by norm_num)
    (by norm_num) (by norm_num) (by norm_num) (by norm_num) (by norm_num)

/-- The volume computed for the radius 90.51008623920256 with that cube. -/
theorem volumen_circulo_90 :
    Circulo.calcularVolumen anfitrionPotencia (fin false (398067569004047 / 4398046511104))
      = fin false (6669747777247493 / 2147483648) := by
  rw [volumen_circulo_formula, cubo_90, JSNumber.mul_fin_fin]
  exact JSNumber.redondear_cerca _ _ _ 21 6669747777247493 (by norm_num) (by norm_num)
    (by norm_num) (by norm_num) (by norm_num) (by norm_num) (by norm_num)

/-- The diameter computed for the radius `2^1023` is `Infinity`. -/
theorem diametro_circulo_desborda :
    Circulo.calcularDiametro (fin false (2 ^ 1023)) = inf false := by
  rw [Circulo.calcularDiametro, literal_eq 2, JSNumber.mul_fin_fin]
  exact JSNumber.redondear_desborda _ _ 1024 4503599627370496 (by norm_num) (by norm_num)
    (by norm_num) (by norm_num) (by norm_num) (by norm_num)

/-- C11 as stated fails beyond a range of radii that depends on the quantity.  For
`r = 1303.8015549998122` the computed area is more than `10^-9` below `π·r²`; for
`r = 1335088.6215767136` the computed perimeter is more than `10^-9` below `2·π·r`; for
`r = 90.51008623920256`, with `Math.pow(r, 3)` computed by two multiplications and
within relative error `2^-52` of `r³`, the computed volume is more than `10^-9` below
`(4/3)·π·r³`; for `r = 2^600` the computed area is `Infinity`, and for `r = 2^1023` so
is the computed diameter. -/
theorem C11_fuera_de_tolerancia :
    (Circulo.calcularArea (fin false (2867089940069447 / 2199023255552))
        = fin false (5734198621116379 / 1073741824) ∧
      (1 : ℝ) / 10 ^ 9 < Real.pi * ((2867089940069447 / 2199023255552 : ℚ) : ℝ) ^ 2
        - ((5734198621116379 / 1073741824 : ℚ) : ℝ)) ∧
    (Circulo.calcularPerimetro (fin false (5734161966933705 / 4294967296))
        = fin false (4503600277453231 / 536870912) ∧
      (1 : ℝ) / 10 ^ 9 < 2 * Real.pi * ((5734161966933705 / 4294967296 : ℚ) : ℝ)
        - ((4503600277453231 / 536870912 : ℚ) : ℝ)) ∧
    (Circulo.calcularVolumen anfitrionPotencia (fin false (398067569004047 / 4398046511104))
        = fin false (6669747777247493 / 2147483648) ∧
      anfitrionPotencia.pow (fin false (398067569004047 / 4398046511104)) 3
        = fin false (3184569983775361 / 4294967296) ∧
      |((3184569983775361 / 4294967296 : ℚ) : ℝ)
          - ((398067569004047 / 4398046511104 : ℚ) : ℝ) ^ 3|
        ≤ ((398067569004047 / 4398046511104 : ℚ) : ℝ) ^ 3 / 2 ^ (52 : ℕ) ∧
      (1 : ℝ) / 10 ^ 9 < 4 / 3 * Real.pi * ((398067569004047 / 4398046511104 : ℚ) : ℝ) ^ 3
        - ((6669747777247493 / 2147483648 : ℚ) : ℝ)) ∧
    ((Circulo.constructor anfitrionEjemplo [.number (fin false (2 ^ 600))] Estado.inicial).1
        = .ok ⟨"Círculo", "id0", .circulo (fin false (2 ^ 600))⟩ ∧
      JSNumber.lt 0 (fin false (2 ^ 600)) = true ∧
      FiguraGeometrica.calcularArea anfitrionEjemplo
        ⟨"Círculo", "id0", .circulo (fin false (2 ^ 600))⟩ = .ok (inf false)) ∧
    Circulo.calcularDiametro (fin false (2 ^ 1023)) = inf false := by
  have hpi := Real.pi_gt_d20
  refine ⟨⟨area_circulo_1303, ?_⟩, ⟨perimetro_circulo_1335088, ?_⟩,
    ⟨volumen_circulo_90, cubo_90, ?_, ?_⟩, ⟨rfl, ?_, ?_⟩, diametro_circulo_desborda⟩
  · push_cast
    norm_num at hpi ⊢
    linarith
  · push_cast
    norm_num at hpi ⊢
    linarith
  · rw [abs_le]
    constructor <;> · push_cast; norm_num
  · push_cast
    norm_num at hpi ⊢
    linarith
  · rw [literal_eq 0]
    simp [JSNumber.lt, valor]
  · show Except.ok (PI * fin false (2 ^ 600) * fin false (2 ^ 600)) = _
    rw [pi_por_2_600, JSNumber.mul_fin_fin]
    exact congrArg Except.ok
      (JSNumber.redondear_desborda _ _ 1201 7074237752028440 (by norm_num) (by norm_num)
        (by norm_num) (by norm_num) (by norm_num) (by norm_num))

/-- C11 (amended): for every radius `r > 0`, `new Circulo(r)` succeeds.  The computed
`calcularArea()` is finite and within `10^-9` of `π·r²` for `r ≤ 1303.79`;
`calcularPerimetro()` is finite and within `10^-9` of `2·π·r` for `r ≤ 1335088.42`;
`calcularDiametro()` is exactly `2·r` for every binary64 `r` with `2·r < 2^1024`;
`calcularVolumen()` is the binary64 product of `(4/3)*Math.PI` with `Math.pow(r, 3)`,
and it is within `10^-9` of `(4/3)·π·r³` for `r ≤ 82` whenever `Math.pow(r, 3)` is
within relative error `2^-52` of `r³`. -/
theorem C11_circulo (H : Anfitrion) (σ : Estado) (a : ℚ) (ha0 : 0 < a) :
    (∃ f, (Circulo.constructor H [.number (fin false a)] σ).1 = .ok f ∧
      f.forma = .circulo (fin false a) ∧
      f.calcularArea H = .ok (Circulo.calcularArea (fin false a)) ∧
      f.calcularPerimetro = .ok (Circulo.calcularPerimetro (fin false a))) ∧
    (a ≤ 130379 / 100 →
      ∃ A : ℚ, Circulo.calcularArea (fin false a) = fin false A ∧
        |(A : ℝ) - Real.pi * (a : ℝ) ^ 2| < 1 / 10 ^ 9) ∧
    (a ≤ 133508842 / 100 →
      ∃ L : ℚ, Circulo.calcularPerimetro (fin false a) = fin false L ∧
        |(L : ℝ) - 2 * Real.pi * (a : ℝ)| < 1 / 10 ^ 9) ∧
    (redondear false a = fin false a → 2 * a < (2 : ℚ) ^ (1024 : ℕ) →
      Circulo.calcularDiametro (fin false a) = fin false (2 * a)) ∧
    Circulo.calcularVolumen H (fin false a)
      = (4 : JSNumber) / 3 * PI * H.pow (fin false a) 3 ∧
    (a ≤ 82 → ∀ p : ℚ, H.pow (fin false a) 3 = fin false p → 0 ≤ p →
      |(p : ℝ) - (a : ℝ) ^ 3| ≤ (a : ℝ) ^ 3 / 2 ^ (52 : ℕ) →
      ∃ V : ℚ, Circulo.calcularVolumen H (fin false a) = fin false V ∧
        |(V : ℝ) - 4 / 3 * Real.pi * (a : ℝ) ^ 3| < 1 / 10 ^ 9) :=
  ⟨⟨⟨"Círculo", H.idAzar σ.azar, .circulo (fin false a)⟩, rfl, rfl, rfl, rfl⟩,
    area_circulo_error a ha0, perimetro_circulo_error a ha0,
    JSNumber.doble_exacto a ha0, rfl,
    fun ha p hpow hp0 hp => volumen_circulo_error H a p ha0 ha hpow hp0 hp⟩

/-- C11, instance: `new Circulo(3)`, the sphere of the demonstration script, on a host
whose `Math.pow(3, 3)` is 27. -/
theorem C11_circulo_witness :
    (∃ A : ℚ, Circulo.calcularArea (fin false 3) = fin false A ∧
      |(A : ℝ) - Real.pi * ((3 : ℚ) : ℝ) ^ 2| < 1 / 10 ^ 9) ∧
    (∃ L : ℚ, Circulo.calcularPerimetro (fin false 3) = fin false L ∧
      |(L : ℝ) - 2 * Real.pi * ((3 : ℚ) : ℝ)| < 1 / 10 ^ 9) ∧
    Circulo.calcularDiametro (fin false 3) = fin false (2 * 3) ∧
    (∃ V : ℚ, Circulo.calcularVolumen anfitrionPotencia (fin false 3) = fin false V ∧
      |(V : ℝ) - 4 / 3 * Real.pi * ((3 : ℚ) : ℝ) ^ 3| < 1 / 10 ^ 9) :=
  ⟨(C11_circulo anfitrionPotencia Estado.inicial 3 (by norm_num)).2.1 (by norm_num),
   (C11_circulo anfitrionPotencia Estado.inicial 3 (by norm_num)).2.2.1 (by norm_num),
   (C11_circulo anfitrionPotencia Estado.inicial 3 (by norm_num)).2.2.2.1
      (by
        have h := JSNumber.redondear_natCast false 3 (by norm_num)
        norm_num at h
        exact h)
      (by norm_num),
   (C11_circulo anfitrionPotencia Estado.inicial 3 (by norm_num)).2.2.2.2.2 (by norm_num)
      27
      (by
        rw [potencia_cubo]
        have h1 := JSNumber.mul_nat 3 3 (by norm_num)
        have h2 := JSNumber.mul_nat 9 3 (by norm_num)
        norm_num at h1 h2
        rw [h1, h2])
      (by norm_num) (by norm_num)⟩

/-! ## Deserialisation against direct construction -/

theorem JSNumber.redondear_cero (s : Bool) : redondear s 0 = fin s 0 := by
  simp [redondear]

theorem JSNumber.valor_cero (s : Bool) : valor s 0 = 0 := by
  cases s <;> simp [valor]

theorem JSNumber.eq_cero_iff (a : JSNumber) : JSNumber.eq a 0 = true ↔ ∃ s, a = fin s 0 := by
  rw [literal_eq 0]
  cases a with
  | nan => simp [JSNumber.eq]
  | inf u => simp [JSNumber.eq]
  | fin u m =>
    cases u <;> simp [JSNumber.eq, valor]

theorem JSNumber.mismoSalvoCero_iff (a b : JSNumber) :
    a.mismoSalvoCero b ↔ a = b ∨ ∃ s t, a = fin s 0 ∧ b = fin t 0 := by
  unfold JSNumber.mismoSalvoCero
  rw [JSNumber.eq_cero_iff, JSNumber.eq_cero_iff]
  constructor
  · rintro (h | ⟨⟨s, hs⟩, ⟨t, ht⟩⟩)
    · exact Or.inl h
    · exact Or.inr ⟨s, t, hs, ht⟩
  · rintro (h | ⟨s, t, hs, ht⟩)
    · exact Or.inl h
    · exact Or.inr ⟨⟨s, hs⟩, ⟨t, ht⟩⟩

theorem JSNumber.mismoSalvoCero_refl (a : JSNumber) : a.mismoSalvoCero a := Or.inl rfl

theorem JSNumber.mul_cero_der (a : JSNumber) (t : Bool) :
    a * fin t 0 = nan ∨ ∃ u, a * fin t 0 = fin u 0 := by
  cases a with
  | nan => exact Or.inl rfl
  | inf u => left; show JSNumber.mul _ _ = _; simp [JSNumber.mul]
  | fin u m => right; rw [mul_fin_fin, mul_zero, JSNumber.redondear_cero]; exact ⟨_, rfl⟩

theorem JSNumber.mul_cero_izq (a : JSNumber) (t : Bool) :
    fin t 0 * a = nan ∨ ∃ u, fin t 0 * a = fin u 0 := by
  cases a with
  | nan => exact Or.inl rfl
  | inf u => left; show JSNumber.mul _ _ = _; simp [JSNumber.mul]
  | fin u m => right; rw [mul_fin_fin, zero_mul, JSNumber.redondear_cero]; exact ⟨_, rfl⟩

theorem JSNumber.mul_cero_der_nan (a : JSNumber) (t t' : Bool) :
    a * fin t 0 = nan ↔ a * fin t' 0 = nan := by
  cases a with
  | nan => exact ⟨fun _ => rfl, fun _ => rfl⟩
  | inf u =>
    have h : ∀ v, (inf u : JSNumber) * fin v 0 = nan := by
      intro v; show JSNumber.mul _ _ = _; simp [JSNumber.mul]
    simp [h]
  | fin u m => simp [mul_fin_fin, JSNumber.redondear_cero]

theorem JSNumber.mul_cero_izq_nan (a : JSNumber) (t t' : Bool) :
    fin t 0 * a = nan ↔ fin t' 0 * a = nan := by
  cases a with
  | nan => exact ⟨fun _ => rfl, fun _ => rfl⟩
  | inf u =>
    have h : ∀ v, (fin v 0 : JSNumber) * inf u = nan := by
      intro v; show JSNumber.mul _ _ = _; simp [JSNumber.mul]
    simp [h]
  | fin u m => simp [mul_fin_fin, JSNumber.redondear_cero]

/-- A product does not tell the two zeros apart, up to the sign of a zero result. -/
theorem JSNumber.mul_mismo (a a' b b' : JSNumber) (ha : a.mismoSalvoCero a')
    (hb : b.mismoSalvoCero b') : (a * b).mismoSalvoCero (a' * b') := by
  rw [JSNumber.mismoSalvoCero_iff] at ha hb ⊢
  rcases ha with rfl | ⟨s, s', rfl, rfl⟩ <;> rcases hb with rfl | ⟨t, t', rfl, rfl⟩
  · exact Or.inl rfl
  · rcases JSNumber.mul_cero_der a t with h | ⟨u, h⟩
    · exact Or.inl (by rw [h, (JSNumber.mul_cero_der_nan a t t').1 h])
    · rcases JSNumber.mul_cero_der a t' with h' | ⟨u', h'⟩
      · rw [(JSNumber.mul_cero_der_nan a t' t).1 h'] at h
        exact absurd h (by simp)
      · exact Or.inr ⟨u, u', h, h'⟩
  · rcases JSNumber.mul_cero_izq b s with h | ⟨u, h⟩
    · exact Or.inl (by rw [h, (JSNumber.mul_cero_izq_nan b s s').1 h])
    · rcases JSNumber.mul_cero_izq b s' with h' | ⟨u', h'⟩
      · rw [(JSNumber.mul_cero_izq_nan b s' s).1 h'] at h
        exact absurd h (by simp)
      · exact Or.inr ⟨u, u', h, h'⟩
  · exact Or.inr ⟨_, _, by rw [mul_fin_fin, mul_zero, JSNumber.redondear_cero],
      by rw [mul_fin_fin, mul_zero, JSNumber.redondear_cero]⟩

theorem JSNumber.add_cero_der (a : JSNumber) (t t' : Bool) :
    (a + fin t 0).mismoSalvoCero (a + fin t' 0) := by
  rw [JSNumber.mismoSalvoCero_iff]
  cases a with
  | nan => exact Or.inl rfl
  | inf u => exact Or.inl rfl
  | fin u m =>
    rw [add_fin_fin, add_fin_fin, JSNumber.valor_cero, JSNumber.valor_cero, add_zero]
    by_cases h : valor u m = 0
    · right; simp [deRacional, h]
    · left; simp [deRacional, h]

theorem JSNumber.add_cero_izq (a : JSNumber) (t t' : Bool) :
    (fin t 0 + a).mismoSalvoCero (fin t' 0 + a) := by
  rw [JSNumber.mismoSalvoCero_iff]
  cases a with
  | nan => exact Or.inl rfl
  | inf u => exact Or.inl rfl
  | fin u m =>
    rw [add_fin_fin, add_fin_fin, JSNumber.valor_cero, JSNumber.valor_cero, zero_add]
    by_cases h : valor u m = 0
    · right; simp [deRacional, h]
    · left; simp [deRacional, h]

/-- A sum does not tell the two zeros apart, up to the sign of a zero result. -/
theorem JSNumber.add_mismo (a a' b b' : JSNumber) (ha : a.mismoSalvoCero a')
    (hb : b.mismoSalvoCero b') : (a + b).mismoSalvoCero (a' + b') := by
  rw [JSNumber.mismoSalvoCero_iff] at ha hb
  rcases ha with rfl | ⟨s, s', rfl, rfl⟩ <;> rcases hb with rfl | ⟨t, t', rfl, rfl⟩
  · exact Or.inl rfl
  · exact JSNumber.add_cero_der a t t'
  · exact JSNumber.add_cero_izq b s s'
  · have h : ∀ u v, ∃ c, (fin u 0 : JSNumber) + fin v 0 = fin c 0 := by
      intro u v
      rw [add_fin_fin, JSNumber.valor_cero, JSNumber.valor_cero, add_zero]
      exact ⟨u && v, by simp [deRacional]⟩
    obtain ⟨c, hc⟩ := h s t
    obtain ⟨c', hc'⟩ := h s' t'
    rw [JSNumber.mismoSalvoCero_iff]
    exact Or.inr ⟨c, c', hc, hc'⟩

/-- Halving does not tell the two zeros apart. -/
theorem JSNumber.div_dos_mismo (a a' : JSNumber) (ha : a.mismoSalvoCero a') :
    (a / 2).mismoSalvoCero (a' / 2) := by
  rw [JSNumber.mismoSalvoCero_iff] at ha ⊢
  rcases ha with rfl | ⟨s, s', rfl, rfl⟩
  · exact Or.inl rfl
  · right
    rw [literal_eq 2]
    exact ⟨_, _, by rw [div_fin_fin _ _ _ _ (by norm_num), zero_div, JSNumber.redondear_cero],
      by rw [div_fin_fin _ _ _ _ (by norm_num), zero_div, JSNumber.redondear_cero]⟩

/-- The image of a finite number under `JSON.stringify` and `JSON.parse` is that number,
but for `-0`, whose image is `0`. -/
theorem imagenJSON_fin (s : Bool) (m : ℚ) :
    ∃ r, imagenJSON (fin s m) = .number r ∧ r.mismoSalvoCero (fin s m) ∧
      (fin s m ≠ fin true 0 → r = fin s m) := by
  by_cases hm : m = 0
  · subst hm
    refine ⟨fin false 0, by simp [imagenJSON], ?_, ?_⟩
    · rw [JSNumber.mismoSalvoCero_iff]; exact Or.inr ⟨_, _, rfl, rfl⟩
    · intro h
      cases s with
      | false => rfl
      | true => exact absurd rfl h
  · exact ⟨fin s m, by simp [imagenJSON, hm], Or.inl rfl, fun _ => rfl⟩

/-- The `toFixed` of the standard writes the two zeros alike. -/
theorem toFixed_mismo (H : Anfitrion) (hc : Conforme H) (a b : JSNumber)
    (h : a.mismoSalvoCero b) : H.toFixed a 2 = H.toFixed b 2 := by
  rw [JSNumber.mismoSalvoCero_iff] at h
  rcases h with rfl | ⟨s, t, rfl, rfl⟩
  · rfl
  · rw [hc _ 2 (by norm_num), hc _ 2 (by norm_num)]
    simp [toFixedEstandar]

theorem describir_de (H : Anfitrion) (f : FiguraGeometrica) (A P : JSNumber)
    (hA : f.calcularArea H = .ok A) (hP : f.calcularPerimetro = .ok P) :
    f.describir H = .ok (f.nombre ++ " - Área: " ++ H.toFixed A 2 ++ ", Perímetro: "
      ++ H.toFixed P 2) := by
  simp [FiguraGeometrica.describir, hA, hP]

/-- Two shapes of the same name whose areas and perimeters differ at most in the sign of
a zero: their descriptions are the same text when `toFixed` is the one of the standard,
and on every host when the areas and the perimeters are the same. -/
theorem describir_coincide (H : Anfitrion) (f g : FiguraGeometrica) (A A' P P' : JSNumber)
    (hn : f.nombre = g.nombre)
    (hA : f.calcularArea H = .ok A) (hA' : g.calcularArea H = .ok A')
    (hP : f.calcularPerimetro = .ok P) (hP' : g.calcularPerimetro = .ok P')
    (mA : A.mismoSalvoCero A') (mP : P.mismoSalvoCero P') :
    (Conforme H → ∃ d, f.describir H = .ok d ∧ g.describir H = .ok d) ∧
    (A = A' → P = P' → ∃ d, f.describir H = .ok d ∧ g.describir H = .ok d) := by
  rw [describir_de H f A P hA hP, describir_de H g A' P' hA' hP', hn]
  constructor
  · intro hc
    rw [toFixed_mismo H hc A A' mA, toFixed_mismo H hc P P' mP]
    exact ⟨_, rfl, rfl⟩
  · rintro rfl rfl
    exact ⟨_, rfl, rfl⟩

/-- C4 (amended): for every finite number `r`, when the text decodes to a record with
`tipo: "circulo"` and `radio` what serialising and decoding make of `r` (`r` itself, but
`0` for `-0`), `crearDesdeJSON` yields a shape with the same `nombre` as `new Circulo(r)`
built in any state, an area and a perimeter that are the same numbers up to the sign of a
zero, and the same `describir()` text when `toFixed` is the one of the standard; when
`r` is not `-0` the fields, the area and the perimeter are the same and so is the
`describir()` text on every host.  Likewise for "rectangulo" with `ancho`, `alto`
against `new Rectangulo(w, h)` and for "triangulo" with `base`, `altura` against
`new Triangulo(b, h)`, for finite `w`, `h`, `b`. -/
theorem C4_crearDesdeJSON_igual_a_directo (H : Anfitrion) (s : String) (σ σ' : Estado)
    (campos : List (String × JSValue)) (hparse : H.parse s = .ok (.objeto campos)) :
    (∀ sr r, campos.lookup "tipo" = some (.string "circulo") →
      campos.lookup "radio" = some (imagenJSON (fin sr r)) →
      ∃ f g A A' P P', (FiguraGeometrica.crearDesdeJSON H s σ).1 = .ok f ∧
        (Circulo.constructor H [.number (fin sr r)] σ').1 = .ok g ∧
        f.nombre = g.nombre ∧
        f.calcularArea H = .ok A ∧ g.calcularArea H = .ok A' ∧ A.mismoSalvoCero A' ∧
        f.calcularPerimetro = .ok P ∧ g.calcularPerimetro = .ok P' ∧
        P.mismoSalvoCero P' ∧
        (Conforme H → ∃ d, f.describir H = .ok d ∧ g.describir H = .ok d) ∧
        (fin sr r ≠ fin true 0 → f.forma = g.forma ∧ A = A' ∧ P = P' ∧
          ∃ d, f.describir H = .ok d ∧ g.describir H = .ok d)) ∧
    (∀ sw w sh h, campos.lookup "tipo" = some (.string "rectangulo") →
      campos.lookup "ancho" = some (imagenJSON (fin sw w)) →
      campos.lookup "alto" = some (imagenJSON (fin sh h)) →
      ∃ f g A A' P P', (FiguraGeometrica.crearDesdeJSON H s σ).1 = .ok f ∧
        (Rectangulo.constructor H [.number (fin sw w), .number (fin sh h)] σ').1 = .ok g ∧
        f.nombre = g.nombre ∧
        f.calcularArea H = .ok A ∧ g.calcularArea H = .ok A' ∧ A.mismoSalvoCero A' ∧
        f.calcularPerimetro = .ok P ∧ g.calcularPerimetro = .ok P' ∧
        P.mismoSalvoCero P' ∧
        (Conforme H → ∃ d, f.describir H = .ok d ∧ g.describir H = .ok d) ∧
        (fin sw w ≠ fin true 0 → fin sh h ≠ fin true 0 →
          f.forma = g.forma ∧ A = A' ∧ P = P' ∧
          ∃ d, f.describir H = .ok d ∧ g.describir H = .ok d)) ∧
    (∀ sb b sh h, campos.lookup "tipo" = some (.string "triangulo") →
      campos.lookup "base" = some (imagenJSON (fin sb b)) →
      campos.lookup "altura" = some (imagenJSON (fin sh h)) →
      ∃ f g A A' P P', (FiguraGeometrica.crearDesdeJSON H s σ).1 = .ok f ∧
        (Triangulo.constructor H [.number (fin sb b), .number (fin sh h)] σ').1 = .ok g ∧
        f.nombre = g.nombre ∧
        f.calcularArea H = .ok A ∧ g.calcularArea H = .ok A' ∧ A.mismoSalvoCero A' ∧
        f.calcularPerimetro = .ok P ∧ g.calcularPerimetro = .ok P' ∧
        P.mismoSalvoCero P' ∧
        (Conforme H → ∃ d, f.describir H = .ok d ∧ g.describir H = .ok d) ∧
        (fin sb b ≠ fin true 0 → fin sh h ≠ fin true 0 →
          f.forma = g.forma ∧ A = A' ∧ P = P' ∧
          ∃ d, f.describir H = .ok d ∧ g.describir H = .ok d)) := by
  rw [crearDesdeJSON_objeto H s σ campos hparse]
  refine ⟨?_, ?_, ?_⟩
  · intro sr r ht hr
    obtain ⟨r', hr', hm, hne⟩ := imagenJSON_fin sr r
    rw [hr'] at hr
    have mA : (Circulo.calcularArea r').mismoSalvoCero (Circulo.calcularArea (fin sr r)) :=
      JSNumber.mul_mismo _ _ _ _
        (JSNumber.mul_mismo _ _ _ _ (JSNumber.mismoSalvoCero_refl _) hm) hm
    have mP : (Circulo.calcularPerimetro r').mismoSalvoCero
        (Circulo.calcularPerimetro (fin sr r)) :=
      JSNumber.mul_mismo _ _ _ _ (JSNumber.mismoSalvoCero_refl _) hm
    have hd := describir_coincide H ⟨"Círculo", H.idAzar σ.azar, .circulo r'⟩
      ⟨"Círculo", H.idAzar σ'.azar, .circulo (fin sr r)⟩ _ _ _ _ rfl rfl rfl rfl rfl mA mP
    refine ⟨⟨"Círculo", H.idAzar σ.azar, .circulo r'⟩,
      ⟨"Círculo", H.idAzar σ'.azar, .circulo (fin sr r)⟩, _, _, _, _, ?_, rfl, rfl, rfl, rfl,
      mA, rfl, rfl, mP, hd.1, ?_⟩
    · simp [FiguraGeometrica.crearDesdeDatos, propiedad, ht, hr, circulo_constructor_number]
    · intro h0
      have e := hne h0
      subst e
      exact ⟨rfl, rfl, rfl, hd.2 rfl rfl⟩
  · intro sw w sh h ht hw hh
    obtain ⟨w', hw', hmw, hnew⟩ := imagenJSON_fin sw w
    obtain ⟨h', hh', hmh, hneh⟩ := imagenJSON_fin sh h
    rw [hw'] at hw
    rw [hh'] at hh
    have mA : (Rectangulo.calcularArea w' h').mismoSalvoCero
        (Rectangulo.calcularArea (fin sw w) (fin sh h)) :=
      JSNumber.mul_mismo _ _ _ _ hmw hmh
    have mP : (Rectangulo.calcularPerimetro w' h').mismoSalvoCero
        (Rectangulo.calcularPerimetro (fin sw w) (fin sh h)) :=
      JSNumber.mul_mismo _ _ _ _ (JSNumber.mismoSalvoCero_refl _)
        (JSNumber.add_mismo _ _ _ _ hmw hmh)
    have hd := describir_coincide H ⟨"Rectángulo", H.idAzar σ.azar, .rectangulo w' h' 0⟩
      ⟨"Rectángulo", H.idAzar σ'.azar, .rectangulo (fin sw w) (fin sh h) 0⟩ _ _ _ _
      rfl rfl rfl rfl rfl mA mP
    refine ⟨⟨"Rectángulo", H.idAzar σ.azar, .rectangulo w' h' 0⟩,
      ⟨"Rectángulo", H.idAzar σ'.azar, .rectangulo (fin sw w) (fin sh h) 0⟩, _, _, _, _, ?_,
      rfl, rfl, rfl, rfl, mA, rfl, rfl, mP, hd.1, ?_⟩
    · simp [FiguraGeometrica.crearDesdeDatos, propiedad, ht, hw, hh,
        rectangulo_constructor_number2]
    · intro h0 h1
      have e := hnew h0
      have e' := hneh h1
      subst e e'
      exact ⟨rfl, rfl, rfl, hd.2 rfl rfl⟩
  · intro sb b sh h ht hb hh
    obtain ⟨b', hb', hmb, hneb⟩ := imagenJSON_fin sb b
    obtain ⟨h', hh', hmh, hneh⟩ := imagenJSON_fin sh h
    rw [hb'] at hb
    rw [hh'] at hh
    have mA : (Triangulo.calcularArea b' h').mismoSalvoCero
        (Triangulo.calcularArea (fin sb b) (fin sh h)) :=
      JSNumber.div_dos_mismo _ _ (JSNumber.mul_mismo _ _ _ _ hmb hmh)
    have mP : (Triangulo.calcularPerimetro b').mismoSalvoCero
        (Triangulo.calcularPerimetro (fin sb b)) :=
      JSNumber.mul_mismo _ _ _ _ (JSNumber.mismoSalvoCero_refl _) hmb
    have hd := describir_coincide H ⟨"Triángulo", H.idAzar σ.azar, .triangulo b' h'⟩
      ⟨"Triángulo", H.idAzar σ'.azar, .triangulo (fin sb b) (fin sh h)⟩ _ _ _ _
      rfl rfl rfl rfl rfl mA mP
    refine ⟨⟨"Triángulo", H.idAzar σ.azar, .triangulo b' h'⟩,
      ⟨"Triángulo", H.idAzar σ'.azar, .triangulo (fin sb b) (fin sh h)⟩, _, _, _, _, ?_,
      rfl, rfl, rfl, rfl, mA, rfl, rfl, mP, hd.1, ?_⟩
    · simp [FiguraGeometrica.crearDesdeDatos, propiedad, ht, hb, hh,
        triangulo_constructor_number]
    · intro h0 h1
      have e := hneb h0
      have e' := hneh h1
      subst e e'
      exact ⟨rfl, rfl, rfl, hd.2 rfl rfl⟩

/-- C4, instance: the JSON text of the demonstration script, `tipo: "circulo"` with
`radio: 3`, against `new Circulo(3)`. -/
theorem C4_crearDesdeJSON_igual_a_directo_witness :
    ∃ f g A A' P P', (FiguraGeometrica.crearDesdeJSON anfitrionEjemplo
          "\x7b\"tipo\":\"circulo\",\"radio\":3\x7d" Estado.inicial).1 = .ok f ∧
      (Circulo.constructor anfitrionEjemplo [.number (fin false 3)] ⟨none, 7⟩).1 = .ok g ∧
      f.nombre = g.nombre ∧
      f.calcularArea anfitrionEjemplo = .ok A ∧ g.calcularArea anfitrionEjemplo = .ok A' ∧
      A.mismoSalvoCero A' ∧
      f.calcularPerimetro = .ok P ∧ g.calcularPerimetro = .ok P' ∧ P.mismoSalvoCero P' ∧
      (Conforme anfitrionEjemplo →
        ∃ d, f.describir anfitrionEjemplo = .ok d ∧ g.describir anfitrionEjemplo = .ok d) ∧
      ((fin false 3 : JSNumber) ≠ fin true 0 → f.forma = g.forma ∧ A = A' ∧ P = P' ∧
        ∃ d, f.describir anfitrionEjemplo = .ok d ∧ g.describir anfitrionEjemplo = .ok d) :=
  (C4_crearDesdeJSON_igual_a_directo anfitrionEjemplo
    "\x7b\"tipo\":\"circulo\",\"radio\":3\x7d" Estado.inicial ⟨none, 7⟩
    [("tipo", .string "circulo"), ("radio", .number 3)] rfl).1 false 3 rfl
    (by simp [imagenJSON, List.lookup, literal_eq])

/-- C4 as stated fails for the numbers that are not finite: `NaN` and the infinities
are serialised as `null`, so the text of the record with `radio: NaN` decodes to
`radio: null` and `crearDesdeJSON` throws the `TypeError` of the validator, while
`new Circulo(NaN)` and `new Circulo(Infinity)` build a shape. -/
theorem C4_radio_no_finito :
    imagenJSON nan = .null ∧ imagenJSON (inf false) = .null ∧
    anfitrionEjemplo.parse "\x7b\"tipo\":\"circulo\",\"radio\":null\x7d"
      = .ok (.objeto [("tipo", .string "circulo"), ("radio", imagenJSON nan)]) ∧
    (FiguraGeometrica.crearDesdeJSON anfitrionEjemplo
        "\x7b\"tipo\":\"circulo\",\"radio\":null\x7d" Estado.inicial).1
      = .error (.TypeError "null, no es un number") ∧
    (Circulo.constructor anfitrionEjemplo [.number nan] Estado.inicial).1
      = .ok ⟨"Círculo", "id0", .circulo nan⟩ ∧
    (Circulo.constructor anfitrionEjemplo [.number (inf false)] Estado.inicial).1
      = .ok ⟨"Círculo", "id0", .circulo (inf false)⟩ := by
  refine ⟨rfl, rfl, ?_, ?_, rfl, rfl⟩
  · rfl
  · rfl

end SistemaFiguras
